import Mathlib

/-!
SRTdatacontroller: connection lifecycle and data pumps.

A shallow embedding of the connection factory and reconnect loop of
`misc.cpp`, of the SRT endpoint of `srt_socket.cpp` and its statistics, of
the route pump of `route.cpp`, of the forwarding session of
`file-forward.cpp`, of the generator of `generate.cpp` and of the file
transfer of `file-send.cpp` and `file-receive.cpp`.

* A `std::map<string,string>` is an association list in iteration order.
* The transport library (libsrt) is an environment `Env`: the value returned
  by a library call is a function of the calls made before it. The answers
  of `inet_pton` and `getaddrinfo` are functions of the environment too.
* Effects are recorded in a `World`: the time-stamped list of events so far
  and the reading of `steady_clock`, in nanoseconds.
* A C++ exception is the `error` side of `Except Thrown`.
* A byte is a natural number; a buffer is the list of its bytes.
* A loop that need not end is run for at most `fuel` iterations and reports
  `out_of_fuel` when they are used up.
* The loop index of the generator is taken without overflow; the product in
  its throughput report is an `int` of 32 bits that wraps around.
* Each thread has a trace of its own, which starts as a copy of the trace of
  the thread that started it.
* Release of handles by destructors is outside the model. Of the log lines,
  those of level warning and above are recorded, and the lines of level info
  of the route pump and of the generator; the other lines below warning
  level are not, nor are the reads of socket flags in
  `print_negotiated_config` that feed only them.
* The file system is part of the environment: the content of a file that is
  read, and whether a folder or a file can be made. A path is the string of
  its characters, one for each `char`. What is written to `cerr` is not
  recorded.
* Code of the repository that is not among the sources (`socket::udp`,
  `socket::srt_group`, `socket::stats_writer`, `SrtNode`, the pacers and the
  payload generator) is modelled from the specification and driven by the
  environment.
-/

namespace srtdatacontroller

/-! ## Exceptions, option bags, URIs -/

/-- What a C++ function of the program may leave with instead of a value. -/
inductive Thrown where
  /-- An exception of class `socket::exception` carrying `what()`. -/
  | socket_exception (what : String)
  /-- An exception of the standard library (`std::invalid_argument`, `std::out_of_range`). -/
  | std_exception (what : String)
  /-- A member call through a null pointer (a failed `dynamic_cast`): undefined behaviour. -/
  | null_dereference
  /-- No exception: a callback that used up the iterations granted to it, so
  that the run is cut inside it. -/
  | out_of_fuel
  deriving DecidableEq, Repr

deriving instance DecidableEq for Except

/-- A `std::map<string, string>`, as the list of its entries in iteration order. -/
abbrev StrMap := List (String × String)

/-- The member `std::map::count`. -/
def StrMap.count (m : StrMap) (key : String) : Nat :=
  if m.any (fun el => el.1 == key) then 1 else 0

/-- The member `std::map::erase(key)`. -/
def StrMap.erase (m : StrMap) (key : String) : StrMap :=
  m.filter (fun el => !(el.1 == key))

/-- The member `std::map::at`, which throws `std::out_of_range` on a missing key. -/
def StrMap.at (m : StrMap) (key : String) : Except Thrown String :=
  match m.find? (fun el => el.1 == key) with
  | some el => .ok el.2
  | none => .error (.std_exception "map::at")

/-- One entry of the option table `srt_options` of the SRT application
utilities (`socketoptions.hpp`); only its name is read by this program. -/
structure SocketOption where
  name : String
  deriving DecidableEq, Repr

/-- The inner loop of `assert_options_valid` (srt_socket.cpp:261-269):
scans the table until an entry named `key` is found. -/
def opt_found (srt_options : List SocketOption) (key : String) : Bool :=
  match srt_options with
  | [] => false
  | o :: rest => if o.name != key then opt_found rest key else true

/-- The static `socket::srt::assert_options_valid(options, extra)`
(srt_socket.cpp:250-279). The table `srt_options` is a parameter;
`extra` is the `unordered_set` of additional valid names. -/
def assert_options_valid (srt_options : List SocketOption) (options : StrMap)
    (extra : List String) : Except Thrown Unit :=
  match options with
  | [] => .ok ()
  | (key, val) :: rest =>
    if opt_found srt_options key || extra.contains key then
      assert_options_valid srt_options rest extra
    else
      .error (.socket_exception
        ("Invalid URI query option '" ++ key ++ "=" ++ val ++ " (not recognized)!"))

/-- The member overload `socket::srt::assert_options_valid()` (srt_socket.cpp:281-284). -/
def assert_member_options_valid (srt_options : List SocketOption) (m_options : StrMap) :
    Except Thrown Unit :=
  assert_options_valid srt_options m_options ["bind", "mode"]

/-- The scheme of a parsed URI (`UriParser::Type` of the SRT utilities). -/
inductive UriType where
  | UNKNOWN | FILE | UDP | TCP | SRT | RTMP | HTTP | RTP
  deriving DecidableEq, Repr

/-- A parsed URI: the accessors of `UriParser` that the program reads. -/
structure UriParser where
  type : UriType
  proto : String
  host : String
  portno : Int
  parameters : StrMap
  deriving DecidableEq, Repr

/-! ## Constants of `srt.h` -/

def SRT_INVALID_SOCK : Int := -1
def SRT_ERROR : Int := -1
def SRT_SUCCESS : Int := 0
def SRT_EPOLL_IN : Nat := 1
def SRT_EPOLL_OUT : Nat := 4
def SRT_EPOLL_ERR : Nat := 8
def SRTS_CONNECTED : Int := 5

/-- The enumerators of `socket::srt::connection_mode` (srt_socket.hpp:86-92). -/
def FAILURE : Int := -1
def LISTENER : Int := 0
def CALLER : Int := 1
def RENDEZVOUS : Int := 2

/-! ## Endpoints -/

/-- The data members of `socket::srt` with their default initialisers
(srt_socket.hpp:111-119). -/
structure srt where
  m_bind_socket : Int := SRT_INVALID_SOCK
  m_epoll_connect : Int := -1
  m_epoll_io : Int := -1
  m_mode : Int := FAILURE
  m_blocking_mode : Bool := false
  m_host : String := ""
  m_port : Int := -1
  m_options : StrMap := []
  deriving DecidableEq, Repr

/-- Modelled from the spec: the plain datagram endpoint `socket::udp`
(udp_socket.hpp is not among the sources); only its identity is kept. -/
structure udp where
  id : Int
  deriving DecidableEq, Repr

/-- Modelled from the spec: the bonded group endpoint `socket::srt_group`
(srt_socket_group.hpp is not among the sources); its identity and its
connection mode are kept. -/
structure srt_group where
  id : Int
  m_mode : Int
  deriving DecidableEq, Repr

/-- An object behind a `shared_ptr<socket::isocket>`: one of the three
implementations of the interface. -/
inductive isocket where
  | srt (s : srt)
  | srt_group (g : srt_group)
  | udp (u : udp)
  deriving DecidableEq, Repr

/-- The member `isocket::id()` (srt_socket.hpp:99 for `socket::srt`). -/
def isocket.id : isocket → Int
  | .srt s => s.m_bind_socket
  | .srt_group g => g.id
  | .udp u => u.id

/-- A `shared_sock_t`: null, or pointing to an endpoint. -/
abbrev shared_sock_t := Option isocket

/-- The address families of the socket interface (their values on Linux). -/
def AF_UNSPEC : Int := 0
def AF_INET : Int := 2
def AF_INET6 : Int := 10

/-- An address as the class `netaddr_any` of the SRT utilities holds it: the
family, the bytes of the address and the port in host order. An object
constructed without an argument has the family `AF_UNSPEC`, no address and
the port 0. -/
structure netaddr_any where
  family : Int := AF_UNSPEC
  addr : List Nat := []
  hport : Nat := 0
  deriving DecidableEq, Repr

/-- The address of `netaddr_any(family)`: all bytes zero, which is the
wildcard address of the family. -/
def zero_address (family : Int) : List Nat :=
  if family == AF_INET then List.replicate 4 0
  else if family == AF_INET6 then List.replicate 16 0
  else []

/-! ## The transport library and the world -/

/-- A call that leaves the program: into libsrt, into the SRT utilities, or
into a class of the repository whose source is not available. -/
inductive Call where
  | srt_create_socket
  | srt_getlasterror
  | srt_getlasterror_str
  | srt_setsockopt (sock : Int) (opt : String) (val : Int)
  | SrtConfigurePre (sock : Int) (host : String) (options : StrMap)
  | SrtConfigurePost (sock : Int) (options : StrMap)
  | srt_epoll_create
  | srt_epoll_add_usock (eid sock : Int) (modes : Nat)
  | srt_epoll_wait (eid : Int) (want_read want_write : Bool) (timeout_ms : Int)
  | srt_bind (sock : Int) (sa : netaddr_any)
  | srt_listen (sock backlog : Int)
  | srt_accept (sock : Int)
  | srt_connect (sock : Int) (sa : netaddr_any)
  | srt_getsockstate (sock : Int)
  | srt_getrejectreason (sock : Int)
  | srt_close (sock : Int)
  | udp_ctor (uri : UriParser)
  | srt_group_ctor (uris : List UriParser)
  | srt_group_listen (id : Int)
  | srt_group_accept (id : Int)
  | srt_group_connect (id : Int)
  | srt_group_mode (id : Int)
  | stats_writer_ctor (stats_file stats_format : String) (stats_freq_ms : Int)
  | srt_recvmsg2 (sock : Int) (len : Nat)
  | srt_sendmsg2 (sock : Int) (data : List Nat)
  | isocket_read (id : Int) (len : Nat) (timeout_ms : Int)
  | isocket_write (id : Int) (data : List Nat) (timeout_ms : Int)
  | ipacer_wait
  | generate_payload
  | SrtNode_ctor (uri : UriParser)
  | SrtNode_Connect (node : Int)
  | SrtNode_Listen (node backlog : Int)
  | SrtNode_AcceptConnection (node : Int)
  | SrtNode_Receive (node : Int) (size : Nat)
  | SrtNode_Send (node : Int) (data : List Nat) (sock : Int)
  | SrtNode_Close (node : Int)
  | SrtNode_WaitUndelivered (node : Int) (wait_ms : Int)
  | srt_bstats (sock : Int)
  /-- The call `fs::create_directory(path, ec)`. -/
  | create_directory (path : String)
  /-- The opening of an `ofstream` on `path`. -/
  | ofstream_open (path : String)
  deriving DecidableEq, Repr

/-- Something that happened, in program order. -/
inductive Event where
  /-- A call and the value it returned. -/
  | call (c : Call) (ret : Int)
  /-- `create_connection` was entered. -/
  | create_connection
  /-- `this_thread::sleep_until(deadline)`. -/
  | sleep_until (deadline : Nat)
  /-- `stats->add_socket(conn)`. -/
  | add_socket (conn : isocket)
  /-- `stats->remove_socket(id)`. -/
  | remove_socket (id : Int)
  /-- The processing callback was invoked on `conn`. -/
  | processingFn (conn : isocket)
  | spdlog_error (msg : String)
  | spdlog_warn (msg : String)
  | spdlog_info (msg : String)
  /-- A `read` on the endpoint `id` returned `n`; `data` is what it left in
  the first `n` bytes of the buffer. -/
  | isocket_read (id : Int) (n : Nat) (data : List Nat)
  /-- A `write` on the endpoint `id` was called with a buffer of `n` bytes
  holding `data`. -/
  | isocket_write (id : Int) (n : Nat) (data : List Nat)
  /-- The line `Sending at {} kbps` of `run_pipe`, with the count `n` it was
  computed from. -/
  | sending_at (n : Int) (kbps : Int)
  /-- `this_thread::sleep_for(interval)`, in nanoseconds. -/
  | sleep_for (interval : Nat)
  /-- The insertion `logfileStats << text << flush`. -/
  | logfile_write (text : String)
  /-- The call `ofile.write(data, size)` on an open file. -/
  | ofile_write (data : List Nat)
  /-- The call `ofile.close()` on an open file. -/
  | ofile_close
  deriving DecidableEq, Repr

/-- The observable state: the events so far, each with the clock reading at
which it began, and `steady_clock::now()` in nanoseconds. -/
structure World where
  trace : List (Nat × Event) := []
  now : Nat := 0
  deriving DecidableEq, Repr

/-- The counters of `SRT_TRACEBSTATS` (srt.h) that the statistics functions
read: those of type `double` are rational numbers here, the integer ones
integers. -/
structure SRT_TRACEBSTATS where
  msTimeStamp : Int := 0
  pktFlowWindow : Int := 0
  pktCongestionWindow : Int := 0
  pktFlightSize : Int := 0
  msRTT : ℚ := 0
  mbpsBandwidth : ℚ := 0
  mbpsMaxBW : ℚ := 0
  pktSent : Int := 0
  pktSentUnique : Int := 0
  pktSndLoss : Int := 0
  pktSndDrop : Int := 0
  pktRetrans : Int := 0
  byteSent : Int := 0
  byteAvailSndBuf : Int := 0
  byteSndDrop : Int := 0
  mbpsSendRate : ℚ := 0
  usPktSndPeriod : ℚ := 0
  msSndBuf : Int := 0
  pktRecv : Int := 0
  pktRecvUnique : Int := 0
  pktRcvLoss : Int := 0
  pktRcvDrop : Int := 0
  pktRcvUndecrypt : Int := 0
  pktRcvRetrans : Int := 0
  pktRcvBelated : Int := 0
  byteRecv : Int := 0
  byteAvailRcvBuf : Int := 0
  byteRcvLoss : Int := 0
  byteRcvDrop : Int := 0
  mbpsRecvRate : ℚ := 0
  msRcvBuf : Int := 0
  msRcvTsbPdDelay : Int := 0
  pktReorderTolerance : Int := 0

/-- Everything the program does not decide itself. -/
structure Env where
  /-- The option table `srt_options` (socketoptions.hpp). -/
  srt_options : List SocketOption
  /-- The set `false_names` (apputil.hpp). -/
  false_names : List String
  /-- The build flag `ENABLE_BONDING`. -/
  ENABLE_BONDING : Bool
  /-- The value a call returns, given everything before it. -/
  ret : World → Call → Int
  /-- The time a call takes, in nanoseconds. -/
  dur : World → Call → Nat
  /-- The string `srt_getlasterror_str()` yields. -/
  lasterror_str : World → String
  /-- The pure function `srt_rejectreason_str`. -/
  rejectreason_str : Int → String
  /-- The `failures` vector filled in by `SrtConfigurePre` and `SrtConfigurePost`. -/
  failures : World → Call → List String
  /-- The value of the shared cancellation flag when it is read. -/
  forceBreak : World → Bool
  /-- The constructor `UriParser(url)` of the SRT utilities. -/
  parse : String → UriParser
  /-- The bytes a receiving call has for the buffer it is given. -/
  received : World → Call → List Nat := fun _ _ => []
  /-- The connection id a `SrtNode::Receive` reports through its out-parameter. -/
  connection_id : World → Call → Int := fun _ _ => 0
  /-- The values `distribution(generator)` yields, by the number of the draw. -/
  random_value : Nat → ℚ := fun _ => 0
  /-- The snapshot `srt_bstats` fills in. -/
  bstats : World → Call → SRT_TRACEBSTATS := fun _ _ => {}
  /-- The text `operator<<` of an output stream writes for a `double`. -/
  print_double : ℚ → String := fun _ => "0"
  /-- The text `nlohmann::json::dump` writes for a `double`. -/
  dump_double : ℚ → String := fun _ => "0.0"
  /-- The text `print_timestamp_now()` yields. -/
  timestamp : World → String := fun _ => ""
  /-- Whether the build defines `HAS_PUT_TIME`. -/
  HAS_PUT_TIME : Bool := false
  /-- The version of libsrt the build uses. -/
  SRT_VERSION_MAJOR : Nat := 1
  SRT_VERSION_MINOR : Nat := 4
  SRT_VERSION_PATCH : Nat := 4
  /-- The value of the flag `localBreak` of a file transfer when it is read. -/
  localBreak : World → Bool := fun _ => false
  /-- The content of the file an `ifstream` opens; `none` when it cannot be opened. -/
  file : String → Option (List Nat) := fun _ => none
  /-- The address `inet_pton(family, name, ...)` stores when it answers 1;
  `none` when it answers anything else. -/
  inet_pton : Int → String → Option (List Nat) := fun _ _ => none
  /-- The family and the address of the first entry `getaddrinfo` yields for
  a name and a family hint when it answers 0; `none` when it fails. -/
  getaddrinfo : String → Int → Option (Int × List Nat) := fun _ _ => none

/-- A computation: from a world to a value or an exception, and the world after. -/
def M (α : Type) : Type := World → Except Thrown α × World

def M.pure {α : Type} (a : α) : M α := fun w => (.ok a, w)

def M.bind {α β : Type} (m : M α) (f : α → M β) : M β := fun w =>
  match m w with
  | (.ok a, w1) => f a w1
  | (.error e, w1) => (.error e, w1)

instance : Monad M where
  pure := M.pure
  bind := M.bind

/-- A `throw` expression. -/
def M.throw {α : Type} (e : Thrown) : M α := fun w => (.error e, w)

/-- A pure expression that may throw. -/
def M.lift {α : Type} (x : Except Thrown α) : M α := fun w => (x, w)

/-- The world after an event is recorded at the current clock reading. -/
def World.record (w : World) (e : Event) : World :=
  { w with trace := w.trace ++ [(w.now, e)] }

/-- Records an event at the current clock reading. -/
def emit (e : Event) : M Unit := fun w => (.ok (), w.record e)

/-- Performs a call: asks the environment for the result, records the call
and lets the time it takes pass. -/
def call (env : Env) (c : Call) : M Int := fun w =>
  (.ok (env.ret w c),
    { trace := w.trace ++ [(w.now, .call c (env.ret w c))], now := w.now + env.dur w c })

/-- A call that also fills in a `failures` vector. -/
def call_failures (env : Env) (c : Call) : M (Int × List String) := fun w =>
  (.ok (env.ret w c, env.failures w c),
    { trace := w.trace ++ [(w.now, .call c (env.ret w c))], now := w.now + env.dur w c })

/-- The call `srt_getlasterror_str()`. -/
def srt_getlasterror_str (env : Env) : M String := fun w =>
  (.ok (env.lasterror_str w),
    { trace := w.trace ++ [(w.now, .call .srt_getlasterror_str 0)],
      now := w.now + env.dur w .srt_getlasterror_str })

/-- The statement `throw socket::exception(srt_getlasterror_str())`. -/
def throw_lasterror {α : Type} (env : Env) : M α := do
  let message ← srt_getlasterror_str env
  M.throw (.socket_exception message)

/-! ## `socket::srt` (srt_socket.cpp) -/

/-- The overload `raise_exception(place)` (srt_socket.cpp:156-162). -/
def raise_exception {α : Type} (env : Env) (place : String) : M α := do
  let _udt_result ← call env .srt_getlasterror
  let message ← srt_getlasterror_str env
  M.throw (.socket_exception (place ++ ": " ++ message))

/-- The overload `raise_exception(place, reason)` (srt_socket.cpp:164-168). -/
def raise_exception_reason {α : Type} (place reason : String) : M α :=
  M.throw (.socket_exception (place ++ ": " ++ reason))

/-- The conversion of an `int` to `unsigned short`. -/
def to_ushort (port : Int) : Nat := (port % 65536).toNat

/-- The function `create_addr(name, port, prefFamily)` (misc.cpp:149-197).
It does not throw. When the name is neither empty nor the text of an address
and `getaddrinfo` fails, the result is the object constructed without an
argument, and the port is not stored. The calls of `inet_pton` and
`getaddrinfo` are answered by the environment and leave no event. -/
def create_addr (env : Env) (name : String) (port : Int) (prefFamily : Int) : netaddr_any :=
  if name.isEmpty then
    { family := if prefFamily == AF_INET6 then prefFamily else AF_INET,
      addr := zero_address (if prefFamily == AF_INET6 then prefFamily else AF_INET),
      hport := to_ushort port }
  else
    match env.inet_pton (if prefFamily != AF_INET then AF_INET6 else AF_INET) name with
    | some a =>
      { family := if prefFamily != AF_INET then AF_INET6 else AF_INET, addr := a,
        hport := to_ushort port }
    | none =>
      match env.inet_pton (if prefFamily != AF_INET then AF_INET else AF_INET6) name with
      | some a =>
        { family := if prefFamily != AF_INET then AF_INET else AF_INET6, addr := a,
          hport := to_ushort port }
      | none =>
        match env.getaddrinfo name prefFamily with
        | some found => { family := found.1, addr := found.2, hport := to_ushort port }
        | none => {}

/-- The value of `prefFamily` when `create_addr` is called with two
arguments: the default argument of its declaration. The declaration
(misc.hpp) is not among the sources; the value is that of the SRT utilities,
from which the function is taken. -/
def create_addr_default_family : Int := AF_UNSPEC

/-- The C function `isspace` in the default locale. -/
def isspace (c : Char) : Bool :=
  c == ' ' || c == '\t' || c == '\n' || c == '\x0b' || c == '\x0c' || c == '\r'

/-- The value of a run of decimal digits. -/
def digits_value (ds : List Char) : Nat :=
  ds.foldl (fun acc c => 10 * acc + (c.toNat - 48)) 0

/-- The function `std::stoi(str)` for a 32-bit `int`: leading white space,
an optional sign, then decimal digits up to the first other character. -/
def stoi (str : List Char) : Except Thrown Int :=
  let body := str.dropWhile isspace
  let signed : Bool × List Char :=
    match body with
    | '-' :: r => (true, r)
    | '+' :: r => (false, r)
    | r => (false, r)
  let ds := signed.2.takeWhile Char.isDigit
  if ds.isEmpty then .error (.std_exception "std::invalid_argument: stoi")
  else
    let v : Int := if signed.1 then -(digits_value ds : Int) else (digits_value ds : Int)
    if v < -2147483648 || 2147483647 < v then .error (.std_exception "std::out_of_range: stoi")
    else .ok v

/-- The position of the first ":" as `string::find` reports it: the
characters before it and, when there is one, those after it. -/
def split_colon (cs : List Char) : List Char × Option (List Char) :=
  match cs with
  | [] => ([], none)
  | c :: rest =>
    if c == ':' then ([], some rest)
    else ((c :: (split_colon rest).1), (split_colon rest).2)

/-- The member `configure_pre(sock)` (srt_socket.cpp:286-321); it sets
`m_mode`, so the object is returned with the result. -/
def srt.configure_pre (env : Env) (self : srt) (sock : Int) : M (Int × srt) := do
  let maybe : Int := if self.m_blocking_mode then 1 else 0
  let result ← call env (.srt_setsockopt sock "SRTO_RCVSYN" maybe)
  if result == -1 then
    pure (result, self)
  else do
    let (conmode, failures) ← call_failures env (.SrtConfigurePre sock self.m_host self.m_options)
    if conmode == FAILURE then
      M.throw (.socket_exception
        ("Wrong value of option(s): " ++ String.join (failures.map (fun f => f ++ ", "))))
    else do
      let self1 : srt := { self with m_mode := conmode }
      if self1.m_mode == RENDEZVOUS then do
        let result2 ← call env (.srt_setsockopt sock "SRTO_RENDEZVOUS" 1)
        if result2 == -1 then pure (result2, self1) else pure (SRT_SUCCESS, self1)
      else
        pure (SRT_SUCCESS, self1)

/-- The member `configure_post(sock)` (srt_socket.cpp:403-428). -/
def srt.configure_post (env : Env) (self : srt) (sock : Int) : M Int := do
  let is_blocking : Int := if self.m_blocking_mode then 1 else 0
  let result ← call env (.srt_setsockopt sock "SRTO_SNDSYN" is_blocking)
  if result == -1 then
    pure result
  else do
    let result2 ← call env (.srt_setsockopt sock "SRTO_RCVSYN" is_blocking)
    if result2 == -1 then
      pure result2
    else do
      let (_, failures) ← call_failures env (.SrtConfigurePost sock self.m_options)
      if !failures.isEmpty then do
        emit (.spdlog_warn ("SOCKET::SRT failed to set options: " ++
          String.join (failures.map (fun f => f ++ ", ")) ++ "."))
        pure 0
      else
        pure 0

/-- The lambda `bind_me` of `handle_hosts` (srt_socket.cpp:432-439). -/
def srt.bind_me (env : Env) (self : srt) (sa : netaddr_any) : M Unit := do
  let bind_res ← call env (.srt_bind self.m_bind_socket sa)
  if bind_res < 0 then do
    let _ ← call env (.srt_close self.m_bind_socket)
    raise_exception env "srt::bind"
  else
    pure ()

/-- The member `handle_hosts()` (srt_socket.cpp:430-497); it erases the
"bind" option, so the object is returned. -/
def srt.handle_hosts (env : Env) (self : srt) : M srt :=
  if self.m_options.count "bind" != 0 then do
    let value ← M.lift (self.m_options.at "bind")
    let bindipport : List Char := value.data.map Char.toLower
    let bindip : String := String.mk (split_colon bindipport).1
    let bindport ← M.lift
      (match (split_colon bindipport).2 with
       | some rest => stoi rest
       | none => .ok self.m_port)
    let self1 : srt := { self with m_options := self.m_options.erase "bind" }
    let sa_bind := create_addr env bindip bindport create_addr_default_family
    srt.bind_me env self1 sa_bind
    pure self1
  else if self.m_mode == RENDEZVOUS then do
    let sa := create_addr env "" self.m_port create_addr_default_family
    srt.bind_me env self sa
    pure self
  else if self.m_mode == LISTENER then do
    let sa := create_addr env self.m_host self.m_port create_addr_default_family
    srt.bind_me env self sa
    pure self
  else
    pure self

/-- The constructor `socket::srt::srt(const UriParser&)` (srt_socket.cpp:28-68). -/
def srt.ctor (env : Env) (src_uri : UriParser) : M srt := do
  let self0 : srt :=
    { m_host := src_uri.host, m_port := src_uri.portno, m_options := src_uri.parameters }
  let sock ← call env .srt_create_socket
  let self1 : srt := { self0 with m_bind_socket := sock }
  if self1.m_bind_socket == SRT_INVALID_SOCK then
    throw_lasterror env
  else do
    let self2 ←
      (if self1.m_options.count "blocking" != 0 then do
        let value ← M.lift (self1.m_options.at "blocking")
        pure ({ self1 with
                m_blocking_mode := !env.false_names.contains value,
                m_options := self1.m_options.erase "blocking" } : srt)
      else
        pure self1)
    M.lift (assert_member_options_valid env.srt_options self2.m_options)
    let (pre, self3) ← srt.configure_pre env self2 self2.m_bind_socket
    if SRT_SUCCESS != pre then
      throw_lasterror env
    else if !self3.m_blocking_mode then do
      let eid ← call env .srt_epoll_create
      let self4 : srt := { self3 with m_epoll_connect := eid }
      if self4.m_epoll_connect == -1 then
        throw_lasterror env
      else do
        let to_accept : Bool := self4.m_mode == LISTENER
        let modes : Nat := SRT_EPOLL_ERR ||| (if to_accept then SRT_EPOLL_IN else SRT_EPOLL_OUT)
        let added ← call env (.srt_epoll_add_usock self4.m_epoll_connect self4.m_bind_socket modes)
        if SRT_ERROR == added then
          throw_lasterror env
        else do
          let eid2 ← call env .srt_epoll_create
          let self5 : srt := { self4 with m_epoll_io := eid2 }
          let modes2 : Nat := SRT_EPOLL_IN ||| SRT_EPOLL_OUT ||| SRT_EPOLL_ERR
          let added2 ← call env (.srt_epoll_add_usock self5.m_epoll_io self5.m_bind_socket modes2)
          if SRT_ERROR == added2 then
            throw_lasterror env
          else
            srt.handle_hosts env self5
    else
      srt.handle_hosts env self3

/-- The constructor `socket::srt::srt(int sock, bool blocking)` (srt_socket.cpp:70-81). -/
def srt.ctor_accepted (env : Env) (sock : Int) (blocking : Bool) : M srt := do
  let self0 : srt := { m_bind_socket := sock, m_blocking_mode := blocking }
  if !self0.m_blocking_mode then do
    let eid ← call env .srt_epoll_create
    let self1 : srt := { self0 with m_epoll_io := eid }
    let modes : Nat := SRT_EPOLL_IN ||| SRT_EPOLL_OUT ||| SRT_EPOLL_ERR
    let added ← call env (.srt_epoll_add_usock self1.m_epoll_io self1.m_bind_socket modes)
    if SRT_ERROR == added then
      throw_lasterror env
    else
      pure self1
  else
    pure self0

/-- The member `listen()` (srt_socket.cpp:96-110). -/
def srt.listen (env : Env) (self : srt) : M Unit := do
  let num_clients : Int := 2
  let res ← call env (.srt_listen self.m_bind_socket num_clients)
  if res == SRT_ERROR then do
    let _ ← call env (.srt_close self.m_bind_socket)
    raise_exception env "listen"
  else do
    let res2 ← srt.configure_post env self self.m_bind_socket
    if res2 == SRT_ERROR then
      raise_exception env "listen::configure_post"
    else
      pure ()

/-- The tail of `accept()` after the readiness wait (srt_socket.cpp:137-153). -/
def srt.accept_ready (env : Env) (self : srt) : M srt := do
  let sock ← call env (.srt_accept self.m_bind_socket)
  if sock == SRT_INVALID_SOCK then
    raise_exception env "accept"
  else do
    let res ← srt.configure_post env self sock
    if res == SRT_ERROR then
      raise_exception env "accept::configure_post"
    else
      srt.ctor_accepted env sock self.m_blocking_mode

/-- The member `accept()` (srt_socket.cpp:112-154). -/
def srt.accept (env : Env) (self : srt) : M srt :=
  if !self.m_blocking_mode then do
    let timeout_ms : Int := -1
    let waited ← call env (.srt_epoll_wait self.m_epoll_connect true false timeout_ms)
    if waited == -1 then
      raise_exception env "accept::epoll_wait"
    else
      srt.accept_ready env self
  else
    srt.accept_ready env self

/-- The tail of `connect()` after the readiness wait (srt_socket.cpp:217-227):
the result is `shared_from_this()`. -/
def srt.connect_ready (env : Env) (self : srt) : M srt := do
  let res ← srt.configure_post env self self.m_bind_socket
  if res == SRT_ERROR then
    raise_exception env "connect::onfigure_post"
  else
    pure self

/-- The member `connect()` (srt_socket.cpp:170-228). -/
def srt.connect (env : Env) (self : srt) : M srt := do
  let sa := create_addr env self.m_host self.m_port create_addr_default_family
  let res ← call env (.srt_connect self.m_bind_socket sa)
  if res == SRT_ERROR then do
    let reason ← call env (.srt_getrejectreason self.m_bind_socket)
    let _ ← call env (.srt_close self.m_bind_socket)
    let message ← srt_getlasterror_str env
    raise_exception_reason "connect failed"
      (message ++ ". Reject reason: " ++ env.rejectreason_str reason)
  else if !self.m_blocking_mode then do
    let waited ← call env (.srt_epoll_wait self.m_epoll_connect false true (-1))
    if waited != -1 then do
      let state ← call env (.srt_getsockstate self.m_bind_socket)
      if state != SRTS_CONNECTED then do
        let reason ← call env (.srt_getrejectreason self.m_bind_socket)
        raise_exception_reason "connect failed" (env.rejectreason_str reason)
      else
        srt.connect_ready env self
    else
      raise_exception env "connect.epoll_wait"
  else
    srt.connect_ready env self

/-- The member `mode()` (srt_socket.cpp:555-558). -/
def srt.mode (self : srt) : Int := self.m_mode

/-! ## The connection factory (misc.cpp:16-79) -/

/-- Modelled from the spec: the constructor of `socket::udp` (udp_socket.hpp
is not among the sources), which yields an endpoint or fails with a
`socket::exception`; the environment decides which. -/
def udp.ctor (env : Env) (uri : UriParser) : M udp := do
  let id ← call env (.udp_ctor uri)
  if id < 0 then throw_lasterror env else pure { id := id }

/-- Modelled from the spec: the constructor of `socket::srt_group`
(srt_socket_group.hpp is not among the sources); the environment decides
whether it fails and which connection mode the group resolves. -/
def srt_group.ctor (env : Env) (uris : List UriParser) : M srt_group := do
  let id ← call env (.srt_group_ctor uris)
  if id < 0 then throw_lasterror env
  else do
    let mode ← call env (.srt_group_mode id)
    pure { id := id, m_mode := mode }

/-- Modelled from the spec: `socket::srt_group::listen()`. -/
def srt_group.listen (env : Env) (self : srt_group) : M Unit := do
  let res ← call env (.srt_group_listen self.id)
  if res == SRT_ERROR then throw_lasterror env else pure ()

/-- Modelled from the spec: `socket::srt_group::accept()`, which yields the
accepted logical endpoint. -/
def srt_group.accept (env : Env) (self : srt_group) : M srt_group := do
  let id ← call env (.srt_group_accept self.id)
  if id == SRT_INVALID_SOCK then throw_lasterror env
  else pure { id := id, m_mode := self.m_mode }

/-- Modelled from the spec: `socket::srt_group::connect()`, which yields the
group itself once every member is connected. -/
def srt_group.connect (env : Env) (self : srt_group) : M srt_group := do
  let res ← call env (.srt_group_connect self.id)
  if res == SRT_ERROR then throw_lasterror env else pure self

/-- What a call of `create_connection` leaves behind: the value returned or
the exception thrown, the held-listener slot (a reference parameter) and the
world. -/
structure Outcome where
  result : Except Thrown shared_sock_t
  listeningSock : shared_sock_t
  world : World
  deriving DecidableEq, Repr

/-- Lines 54-56 of misc.cpp: the slot after
`if (!isListening) listeningSock = make_shared<socket::srt>(uri);`. -/
def held_or_new_srt (env : Env) (uri : UriParser) (listeningSock : shared_sock_t) :
    M shared_sock_t :=
  if !listeningSock.isSome then do
    let s ← srt.ctor env uri
    pure (some (isocket.srt s))
  else
    pure listeningSock

/-- Lines 26-28 of misc.cpp: the slot after
`if (!isListening) listeningSock = make_shared<socket::srt_group>(parsedUrls);`. -/
def held_or_new_group (env : Env) (parsedUrls : List UriParser)
    (listeningSock : shared_sock_t) : M shared_sock_t :=
  if !listeningSock.isSome then do
    let g ← srt_group.ctor env parsedUrls
    pure (some (isocket.srt_group g))
  else
    pure listeningSock

/-- Lines 57-75 of misc.cpp, for the endpoint `s` the slot points to. -/
def create_connection_srt_on (env : Env) (s : srt) (isListening : Bool) (w : World) :
    Outcome :=
  let accept : Bool := s.mode == LISTENER
  match (if accept && !isListening then srt.listen env s w else (.ok (), w)) with
  | (.error e, w1) => ⟨.error e, some (.srt s), w1⟩
  | (.ok (), w1) =>
    match (if accept then srt.accept env s w1 else srt.connect env s w1) with
    | (.error (.socket_exception what), w2) =>
      -- catch (const socket::exception& e) { listeningSock.reset(); throw e; }
      ⟨.error (.socket_exception what), none, w2⟩
    | (.error e, w2) => ⟨.error e, some (.srt s), w2⟩
    | (.ok connection, w2) =>
      if s.mode != LISTENER then ⟨.ok (some (.srt connection)), none, w2⟩
      else ⟨.ok (some (.srt connection)), some (.srt s), w2⟩

/-- The branch `uri.type() == UriParser::SRT` (misc.cpp:52-76). -/
def create_connection_srt (env : Env) (uri : UriParser) (listeningSock : shared_sock_t)
    (w : World) : Outcome :=
  let isListening : Bool := listeningSock.isSome
  match held_or_new_srt env uri listeningSock w with
  | (.error e, w1) => ⟨.error e, listeningSock, w1⟩
  | (.ok (some (.srt s)), w1) => create_connection_srt_on env s isListening w1
  | (.ok slot, w1) => ⟨.error .null_dereference, slot, w1⟩

/-- Lines 29-39 of misc.cpp, for the group `s` the slot points to. -/
def create_connection_group_on (env : Env) (s : srt_group) (w : World) : Outcome :=
  let accept : Bool := s.m_mode == LISTENER
  match (if accept then srt_group.listen env s w else (.ok (), w)) with
  | (.error e, w1) => ⟨.error e, some (.srt_group s), w1⟩
  | (.ok (), w1) =>
    match (if accept then srt_group.accept env s w1 else srt_group.connect env s w1) with
    | (.error e, w2) => ⟨.error e, some (.srt_group s), w2⟩
    | (.ok connection, w2) =>
      if s.m_mode != LISTENER then ⟨.ok (some (.srt_group connection)), none, w2⟩
      else ⟨.ok (some (.srt_group connection)), some (.srt_group s), w2⟩

/-- The branch for several URLs or a "grouptype" parameter (misc.cpp:23-43). -/
def create_connection_group (env : Env) (parsedUrls : List UriParser)
    (listeningSock : shared_sock_t) (w : World) : Outcome :=
  if env.ENABLE_BONDING then
    match held_or_new_group env parsedUrls listeningSock w with
    | (.error e, w1) => ⟨.error e, listeningSock, w1⟩
    | (.ok (some (.srt_group s)), w1) => create_connection_group_on env s w1
    | (.ok slot, w1) => ⟨.error .null_dereference, slot, w1⟩
  else
    ⟨.error (.socket_exception "Use -DENABLE_BONDING=ON to enable socket groups!"),
      listeningSock, w⟩

/-- The function `create_connection(parsedUrls, listeningSock)` (misc.cpp:16-79). -/
def create_connection (env : Env) (parsedUrls : List UriParser)
    (listeningSock : shared_sock_t) (w : World) : Outcome :=
  match parsedUrls with
  | [] => ⟨.error (.socket_exception "No URL was provided"), listeningSock, w⟩
  | uri :: more =>
    if more.length + 1 > 1 || uri.parameters.count "grouptype" != 0 then
      create_connection_group env (uri :: more) listeningSock w
    else if uri.type == UriType.UDP then
      match udp.ctor env uri w with
      | (.ok u, w1) => ⟨.ok (some (.udp u)), listeningSock, w1⟩
      | (.error e, w1) => ⟨.error e, listeningSock, w1⟩
    else if uri.type == UriType.SRT then
      create_connection_srt env uri listeningSock w
    else
      ⟨.error (.socket_exception ("Unknown protocol '" ++ uri.proto ++ "'.")),
        listeningSock, w⟩

/-- The connection mode a call of `create_connection` resolves: the value of
`s->mode()` at misc.cpp:30 or misc.cpp:58, when the call gets there. -/
def resolved_mode (env : Env) (parsedUrls : List UriParser)
    (listeningSock : shared_sock_t) (w : World) : Option Int :=
  match parsedUrls with
  | [] => none
  | uri :: more =>
    if more.length + 1 > 1 || uri.parameters.count "grouptype" != 0 then
      if env.ENABLE_BONDING then
        match held_or_new_group env (uri :: more) listeningSock w with
        | (.ok (some (.srt_group s)), _) => some s.m_mode
        | _ => none
      else none
    else if uri.type == UriType.UDP then none
    else if uri.type == UriType.SRT then
      match held_or_new_srt env uri listeningSock w with
      | (.ok (some (.srt s)), _) => some s.mode
      | _ => none
    else none

/-! ## The reconnect loop (misc.cpp:81-147) -/

/-- The fields of `stats_config` that `common_run` reads. -/
structure stats_config where
  stats_freq_ms : Int := 0
  stats_file : String := ""
  stats_format : String := "csv"
  deriving DecidableEq, Repr

/-- Modelled from the spec: the statistics sampler `socket::stats_writer`
(socket_stats.hpp is not among the sources), as the endpoints attached to
it, keyed by endpoint id. -/
structure stats_writer where
  m_sock : List (Int × isocket) := []
  deriving DecidableEq, Repr

/-- Modelled from the spec: `attach(endpoint)`. -/
def stats_writer.add_socket (self : stats_writer) (sock : isocket) : stats_writer :=
  if self.m_sock.any (fun el => el.1 == sock.id) then self
  else { m_sock := self.m_sock ++ [(sock.id, sock)] }

/-- Modelled from the spec: `detach(endpointId)`. -/
def stats_writer.remove_socket (self : stats_writer) (id : Int) : stats_writer :=
  { m_sock := self.m_sock.filter (fun el => !(el.1 == id)) }

/-- Modelled from the spec: the constructor of `socket::stats_writer`, which
opens the sink or fails with a `socket::exception`; the environment decides. -/
def stats_writer.ctor (env : Env) (cfg : stats_config) : M stats_writer := do
  let res ← call env (.stats_writer_ctor cfg.stats_file cfg.stats_format cfg.stats_freq_ms)
  if res < 0 then throw_lasterror env else pure {}

/-- The duration `seconds(n)` in clock ticks. -/
def seconds (n : Nat) : Nat := n * 1000000000

/-- The call `this_thread::sleep_until(deadline)`: it returns at its deadline. -/
def sleep_until (deadline : Nat) (w : World) : World :=
  { trace := w.trace ++ [(w.now, .sleep_until deadline)], now := max w.now deadline }

/-- The locals of `common_run` that live across iterations, and the world. -/
structure LoopState where
  listeningSock : shared_sock_t := none
  nextReconnect : Nat
  stats : Option stats_writer := none
  world : World
  deriving DecidableEq, Repr

/-- How one pass through the body of the `do` loop ends. -/
inductive Flow where
  /-- Control reached the loop condition. -/
  | next (st : LoopState)
  /-- A `return` statement was executed. -/
  | returned (st : LoopState)
  /-- An exception left `common_run`. -/
  | thrown (e : Thrown) (st : LoopState)
  deriving DecidableEq, Repr

/-- How a run of `common_run` ends within the iterations granted. -/
inductive Run where
  | returned (st : LoopState)
  | thrown (e : Thrown) (st : LoopState)
  /-- The loop wants a further iteration beyond those granted. -/
  | out_of_fuel (st : LoopState)
  deriving DecidableEq, Repr

/-- The handler `catch (const socket::exception& e)` of the loop body
(misc.cpp:142-145); any other exception leaves the function. -/
def common_run_catch (e : Thrown) (st : LoopState) : Flow :=
  match e with
  | .socket_exception what => .next { st with world := st.world.record (.spdlog_warn ("CONN " ++ what)) }
  | other => .thrown other st

/-- Lines 131-140 of misc.cpp: what follows a non-null connection. -/
def common_run_process (closeListener : Bool) (processingFn : isocket → M Unit)
    (conn : isocket) (st : LoopState) : Flow :=
  let slot : shared_sock_t := if closeListener then none else st.listeningSock
  let attached : Option stats_writer × World :=
    match st.stats with
    | some sw => (some (sw.add_socket conn), st.world.record (.add_socket conn))
    | none => (none, st.world)
  match processingFn conn (attached.2.record (.processingFn conn)) with
  | (.error e, w1) =>
    common_run_catch e { st with listeningSock := slot, stats := attached.1, world := w1 }
  | (.ok (), w1) =>
    match attached.1 with
    | some sw =>
      .next { st with listeningSock := slot, stats := some (sw.remove_socket conn.id),
                      world := w1.record (.remove_socket conn.id) }
    | none => .next { st with listeningSock := slot, stats := none, world := w1 }

/-- The world in which `create_connection` is called in an iteration
(misc.cpp:118-123): after the optional `sleep_until`. -/
def attempt_world (st : LoopState) : World :=
  let tnow := st.world.now
  let w1 : World := if tnow < st.nextReconnect then sleep_until st.nextReconnect st.world else st.world
  w1.record .create_connection

/-- One pass through the body of the `do` loop (misc.cpp:116-145). -/
def common_run_iteration (env : Env) (urls : List String) (parsedUrls : List UriParser)
    (closeListener : Bool) (processingFn : isocket → M Unit) (st : LoopState) : Flow :=
  let tnow := st.world.now
  let nextReconnect := tnow + seconds 1
  let out := create_connection env parsedUrls st.listeningSock (attempt_world st)
  let st1 : LoopState :=
    { st with listeningSock := out.listeningSock, nextReconnect := nextReconnect,
              world := out.world }
  match out.result with
  | .error e => common_run_catch e st1
  | .ok none =>
    .returned { st1 with
      world := st1.world.record
        (.spdlog_error ("CONN Failed to create a connection to '" ++ urls.headD "" ++ "'.")) }
  | .ok (some conn) => common_run_process closeListener processingFn conn st1

/-- The `do { ... } while (reconnect && !forceBreak)` loop, for at most
`fuel` iterations. -/
def common_run_loop (env : Env) (urls : List String) (parsedUrls : List UriParser)
    (reconnect closeListener : Bool) (processingFn : isocket → M Unit) :
    Nat → LoopState → Run
  | 0, st => .out_of_fuel st
  | fuel + 1, st =>
    match common_run_iteration env urls parsedUrls closeListener processingFn st with
    | .next st1 =>
      if reconnect && !env.forceBreak st1.world then
        common_run_loop env urls parsedUrls reconnect closeListener processingFn fuel st1
      else .returned st1
    | .returned st1 => .returned st1
    | .thrown e st1 => .thrown e st1

/-- The flag `writeStats` (misc.cpp:90). -/
def writeStats (cfg : stats_config) : Bool :=
  !(cfg.stats_file == "") && cfg.stats_freq_ms > 0

/-- The function `common_run` (misc.cpp:81-147), for at most `fuel`
iterations of its loop. -/
def common_run (env : Env) (urls : List String) (cfg : stats_config)
    (reconnect closeListener : Bool) (processingFn : isocket → M Unit)
    (fuel : Nat) (w : World) : Run :=
  if urls.isEmpty then
    .returned { nextReconnect := w.now, world := w.record (.spdlog_error "CONN URL was not provided") }
  else
    let made : Except Thrown (Option stats_writer) × World :=
      if writeStats cfg then
        match stats_writer.ctor env cfg w with
        | (.ok sw, w1) => (.ok (some sw), w1)
        | (.error e, w1) => (.error e, w1)
      else (.ok none, w)
    match made with
    | (.error (.socket_exception what), w1) =>
      .returned { nextReconnect := w1.now, world := w1.record (.spdlog_error ("CONN " ++ what)) }
    | (.error e, w1) => .thrown e { nextReconnect := w1.now, world := w1 }
    | (.ok stats, w1) =>
      let parsedUrls : List UriParser := urls.map env.parse
      common_run_loop env urls parsedUrls reconnect closeListener processingFn fuel
        { listeningSock := none, nextReconnect := w1.now, stats := stats, world := w1 }

/-! ## Observing a run -/

/-- The second world extends the first by events that all satisfy `P`. -/
def Ext (P : Event → Bool) (w w1 : World) : Prop :=
  ∃ new, w1.trace = w.trace ++ new ∧ ∀ ev ∈ new, P ev.2 = true

/-- A computation only appends events that satisfy `P`. -/
def Appends {α : Type} (P : Event → Bool) (m : M α) : Prop :=
  ∀ w, Ext P w (m w).2

/-- The events of an `accept()` on a held listener. -/
def Event.of_accept : Event → Bool
  | .call (.srt_epoll_wait _ _ _ _) _ => true
  | .call (.srt_accept _) _ => true
  | .call (.srt_setsockopt _ _ _) _ => true
  | .call (.SrtConfigurePost _ _) _ => true
  | .call .srt_epoll_create _ => true
  | .call (.srt_epoll_add_usock _ _ _) _ => true
  | .call .srt_getlasterror _ => true
  | .call .srt_getlasterror_str _ => true
  | .spdlog_warn _ => true
  | _ => false

/-- The events of the connection factory: calls into the transport and the
warning of `configure_post`. -/
def Event.of_factory : Event → Bool
  | .call (.stats_writer_ctor _ _ _) _ => false
  | .call _ _ => true
  | .spdlog_warn _ => true
  | _ => false

/-- The events a processing callback may record: every event but those of
the sampler, which is a local of `common_run` that no callback is given. -/
def Event.of_callback : Event → Bool
  | .call (.stats_writer_ctor _ _ _) _ => false
  | .add_socket _ => false
  | .remove_socket _ => false
  | _ => true

/-- The events of the reconnect loop; those of the sampler only when there
is one. -/
def Event.in_loop (sampling : Bool) : Event → Bool
  | .call (.stats_writer_ctor _ _ _) _ => false
  | .add_socket _ => sampling
  | .remove_socket _ => sampling
  | _ => true

/-- A processing callback adds no event of the sampler to the trace. -/
def well_behaved (processingFn : isocket → M Unit) : Prop :=
  ∀ conn, Appends Event.of_callback (processingFn conn)

/-- The clock readings at which `create_connection` was called. -/
def attempts (trace : List (Nat × Event)) : List Nat :=
  (trace.filter (fun ev => ev.2 == Event.create_connection)).map (fun ev => ev.1)

/-- The locals where one pass through the loop body ends. -/
def Flow.state : Flow → LoopState
  | .next st => st
  | .returned st => st
  | .thrown _ st => st

/-- The locals at the end of a run. -/
def Run.state : Run → LoopState
  | .returned st => st
  | .thrown _ st => st
  | .out_of_fuel st => st

/-- The world after a call. -/
def World.after_call (env : Env) (w : World) (c : Call) : World :=
  { trace := w.trace ++ [(w.now, .call c (env.ret w c))], now := w.now + env.dur w c }

/-- The call by which the statistics writer is constructed (misc.cpp:96-97). -/
def writer_call (cfg : stats_config) : Call :=
  .stats_writer_ctor cfg.stats_file cfg.stats_format cfg.stats_freq_ms

/-- The world in which the loop is entered once the statistics writer has
been constructed (misc.cpp:96-113). -/
def entry_with_writer (env : Env) (cfg : stats_config) (w : World) : LoopState :=
  { listeningSock := none
    nextReconnect := (stats_writer.ctor env cfg w).2.now
    stats := some {}
    world := (stats_writer.ctor env cfg w).2 }

/-! ## Concrete environments -/

/-- The URI `srt://10.0.0.1:4200?latency=120`: a caller. -/
def caller_uri : UriParser :=
  ⟨.SRT, "srt", "10.0.0.1", 4200, [("latency", "120")]⟩

/-- The URI `srt://:4200`: a listener. -/
def listener_uri : UriParser := ⟨.SRT, "srt", "", 4200, []⟩

/-- The URI `srt://10.0.0.1:4200?foo=1&latency=120`, whose key `foo` is in no allow-list. -/
def bad_option_uri : UriParser :=
  ⟨.SRT, "srt", "10.0.0.1", 4200, [("foo", "1"), ("latency", "120")]⟩

/-- A transport in which every call succeeds at once: sockets get handle 7,
epoll containers id 3, accepted connections handle 9; a URI without a host
resolves to LISTENER and one with a host to CALLER. -/
def demo_env : Env where
  srt_options := [⟨"latency"⟩, ⟨"passphrase"⟩, ⟨"rcvbuf"⟩, ⟨"sndbuf"⟩]
  false_names := ["0", "no", "off", "false"]
  ENABLE_BONDING := false
  ret := fun _ c =>
    match c with
    | .srt_create_socket => 7
    | .SrtConfigurePre _ host _ => if host == "" then LISTENER else CALLER
    | .srt_epoll_create => 3
    | .srt_accept _ => 9
    | .srt_getsockstate _ => SRTS_CONNECTED
    | _ => 0
  dur := fun _ _ => 0
  lasterror_str := fun _ => "Operation not supported"
  rejectreason_str := fun _ => "Unknown"
  failures := fun _ _ => []
  forceBreak := fun _ => false
  parse := fun url => ⟨.UNKNOWN, url, "", 0, []⟩
  inet_pton := fun family name =>
    if family == AF_INET && name == "10.0.0.1" then some [10, 0, 0, 1] else none
  getaddrinfo := fun name _ =>
    if name == "localhost" then some (AF_INET, [127, 0, 0, 1]) else none

/-- The listener of `demo_env`, except that `srt_listen` fails. -/
def listen_fails_env : Env :=
  { demo_env with
    ret := fun w c =>
      match c with
      | .srt_listen _ _ => SRT_ERROR
      | other => demo_env.ret w other }

/-- A peer that refuses the connection: `srt_connect` fails after 0.3 s;
every URL parses to `caller_uri`. -/
def refusing_env : Env :=
  { demo_env with
    parse := fun _ => caller_uri
    ret := fun w c =>
      match c with
      | .srt_connect _ _ => SRT_ERROR
      | other => demo_env.ret w other
    dur := fun _ c =>
      match c with
      | .srt_connect _ _ => 300000000
      | _ => 0 }

/-- The environment `demo_env` with every URL parsing to a `file` URI. -/
def file_env : Env :=
  { demo_env with parse := fun _ => ⟨.FILE, "file", "", 0, []⟩ }

/-- The environment `demo_env` with every URL parsing to `caller_uri`. -/
def caller_env : Env :=
  { demo_env with parse := fun _ => caller_uri }

/-- The endpoint the constructor makes of `listener_uri` under `demo_env`. -/
def held_listener : srt :=
  { m_bind_socket := 7, m_epoll_connect := 3, m_epoll_io := 3, m_mode := LISTENER,
    m_host := "", m_port := 4200 }

/-- A caller endpoint left in the slot by an earlier use. -/
def stale_caller : srt :=
  { m_bind_socket := 5, m_epoll_connect := 3, m_epoll_io := 3, m_mode := CALLER,
    m_host := "10.0.0.1", m_port := 4200 }

/-- The endpoint the constructor makes of `caller_uri` under `demo_env`. -/
def caller_conn : srt :=
  { m_bind_socket := 7, m_epoll_connect := 3, m_epoll_io := 3, m_mode := CALLER,
    m_host := "10.0.0.1", m_port := 4200, m_options := [("latency", "120")] }

/-- Statistics every 100 ms into `stats.csv`. -/
def stats_on : stats_config := { stats_freq_ms := 100, stats_file := "stats.csv" }

/-- A callback that returns at once. -/
def idle_callback : isocket → M Unit := fun _ => M.pure ()

/-- A callback that fails at once with a transport error. -/
def throwing_callback : isocket → M Unit :=
  fun _ => M.throw (.socket_exception "write::send: Connection was broken")

/-! ## Reading and writing (srt_socket.cpp:499-553) -/

/-- Error codes of `srt.h`. -/
def SRT_EASYNCSND : Int := 6001

def SRT_EASYNCRCV : Int := 6002

def SRT_ETIMEOUT : Int := 6003

/-- The value an `int` takes for the mathematical value `x`: what does not
fit in 32 bits wraps around, as signed overflow does on the machines the
program is built for. -/
def wrap_int (x : Int) : Int := (x + 2147483648) % 4294967296 - 2147483648

/-- The conversion of an `int` to `size_t` (64 bits). -/
def to_size_t (x : Int) : Nat := (x % 18446744073709551616).toNat

/-- The buffer after `data` has been stored at its start. -/
def overwrite (buffer data : List Nat) : List Nat :=
  data.take buffer.length ++ buffer.drop data.length

/-- A receiving call on `buffer`: the call returns a count and stores that
many bytes of what the environment has received at the start of the buffer. -/
def recv_into (env : Env) (c : Call) (buffer : List Nat) : M (Int × List Nat) := fun w =>
  (.ok (env.ret w c, overwrite buffer ((env.received w c).take (env.ret w c).toNat)),
    { trace := w.trace ++ [(w.now, .call c (env.ret w c))], now := w.now + env.dur w c })

/-- The receiving part of `socket::srt::read` (srt_socket.cpp:516-526). -/
def srt.read_recv (env : Env) (self : srt) (buffer : List Nat) : M (Nat × List Nat) := do
  let (res, buffer1) ← recv_into env (.srt_recvmsg2 self.m_bind_socket buffer.length) buffer
  if SRT_ERROR == res then do
    let err ← call env .srt_getlasterror
    if err != SRT_EASYNCRCV then
      raise_exception env "read::recv"
    else
      pure (0, buffer1)
  else
    pure (to_size_t res, buffer1)

/-- The member `socket::srt::read(buffer, timeout_ms)` (srt_socket.cpp:499-527):
the count returned and the buffer afterwards. -/
def srt.read (env : Env) (self : srt) (buffer : List Nat) (timeout_ms : Int) :
    M (Nat × List Nat) :=
  if !self.m_blocking_mode then do
    let epoll_res ← call env (.srt_epoll_wait self.m_epoll_io true false timeout_ms)
    if epoll_res == SRT_ERROR then do
      let err ← call env .srt_getlasterror
      if err == SRT_ETIMEOUT then
        pure (0, buffer)
      else
        raise_exception env "read::epoll"
    else
      srt.read_recv env self buffer
  else
    srt.read_recv env self buffer

/-- The sending part of `socket::srt::write` (srt_socket.cpp:543-552). -/
def srt.write_send (env : Env) (self : srt) (data : List Nat) : M Int := do
  let res ← call env (.srt_sendmsg2 self.m_bind_socket data)
  if res == SRT_ERROR then do
    let err ← call env .srt_getlasterror
    if err == SRT_EASYNCSND then
      pure 0
    else do
      let message ← srt_getlasterror_str env
      raise_exception_reason "write::send" message
  else
    pure res

/-- The member `socket::srt::write(buffer, timeout_ms)` (srt_socket.cpp:529-553). -/
def srt.write (env : Env) (self : srt) (data : List Nat) (timeout_ms : Int) : M Int :=
  if !self.m_blocking_mode then do
    let res ← call env (.srt_epoll_wait self.m_epoll_io true true timeout_ms)
    if res == SRT_ERROR then
      raise_exception env "write::epoll"
    else
      srt.write_send env self data
  else
    srt.write_send env self data

/-- Modelled from the spec: `read` of `socket::udp` and `socket::srt_group`
(their sources are not available): a byte count, or a transport error. -/
def other_read (env : Env) (id : Int) (buffer : List Nat) (timeout_ms : Int) :
    M (Nat × List Nat) := do
  let (res, buffer1) ← recv_into env (.isocket_read id buffer.length timeout_ms) buffer
  if res < 0 then throw_lasterror env else pure (res.toNat, buffer1)

/-- Modelled from the spec: `write` of `socket::udp` and `socket::srt_group`. -/
def other_write (env : Env) (id : Int) (data : List Nat) (timeout_ms : Int) : M Int := do
  let res ← call env (.isocket_write id data timeout_ms)
  if res < 0 then throw_lasterror env else pure res

/-- The virtual `isocket::read` (socket.hpp:50), dispatched on the class of
the endpoint; the result is recorded when the call returns. -/
def isocket.read (env : Env) (sock : isocket) (buffer : List Nat) (timeout_ms : Int) :
    M (Nat × List Nat) := do
  let r ←
    (match sock with
     | .srt s => srt.read env s buffer timeout_ms
     | .srt_group g => other_read env g.id buffer timeout_ms
     | .udp u => other_read env u.id buffer timeout_ms)
  emit (.isocket_read sock.id r.1 (r.2.take r.1))
  pure r

/-- The virtual `isocket::write` (socket.hpp:58) on a `const_buffer` of `n`
bytes holding `data`; the call is recorded when it is made. -/
def isocket.write (env : Env) (sock : isocket) (n : Nat) (data : List Nat)
    (timeout_ms : Int) : M Int := do
  emit (.isocket_write sock.id n data)
  match sock with
  | .srt s => srt.write env s data timeout_ms
  | .srt_group g => other_write env g.id data timeout_ms
  | .udp u => other_write env u.id data timeout_ms

/-! ## The route pump (route.cpp:39-68) -/

/-- How a pump or a generator ends within the iterations granted. -/
inductive Ended where
  | returned (w : World)
  | thrown (e : Thrown) (w : World)
  /-- The loop wants a further iteration beyond those granted. -/
  | out_of_fuel (w : World)
  deriving DecidableEq, Repr

/-- The world where a pump or a generator ends. -/
def Ended.world : Ended → World
  | .returned w => w
  | .thrown _ w => w
  | .out_of_fuel w => w

/-- The `while (!force_break)` loop of `route::route` (route.cpp:49-67), for
at most `fuel` iterations. -/
def route_loop (env : Env) (src dst : isocket) (desc : String) :
    Nat → List Nat → World → Ended
  | 0, _, w => .out_of_fuel w
  | fuel + 1, buffer, w =>
    if env.forceBreak w then .returned w
    else
      match isocket.read env src buffer (-1) w with
      | (.error e, w1) => .thrown e w1
      | (.ok (bytes_read, buffer1), w1) =>
        if bytes_read == 0 then
          route_loop env src dst desc fuel buffer1
            (w1.record (.spdlog_info
              ("ROUTE " ++ desc ++ " read 0 bytes on a socket (spurious read-ready?). Retrying.")))
        else
          match isocket.write env dst bytes_read (buffer1.take bytes_read) (-1) w1 with
          | (.error e, w2) => .thrown e w2
          | (.ok bytes_sent, w2) =>
            if to_size_t bytes_sent != bytes_read then
              route_loop env src dst desc fuel buffer1
                (w2.record (.spdlog_info
                  (desc ++ " write returned " ++ toString bytes_sent ++ " bytes, expected " ++
                    toString bytes_read)))
            else
              route_loop env src dst desc fuel buffer1 w2

/-- The function `route::route(src, dst, cfg, desc, force_break)`
(route.cpp:39-68), for at most `fuel` iterations of its loop; `message_size`
is `cfg.message_size` (route.hpp is not among the sources). The exception
stands for the one the constructor of the vector throws for a size that does
not fit. -/
def route (env : Env) (src dst : isocket) (message_size : Int) (desc : String)
    (fuel : Nat) (w : World) : Ended :=
  if message_size < 0 then .thrown (.std_exception "std::length_error: vector") w
  else
    route_loop env src dst desc fuel (List.replicate message_size.toNat 0)
      (w.record (.spdlog_info ("ROUTE " ++ desc ++ " Started")))

/-! ## Forwarding (file-forward.cpp) -/

/-- Modelled from the spec: a node `SrtNode` (srt_node.hpp is not among the
sources), known by its bind socket; its operations are calls into the
environment. -/
structure SrtNode where
  m_bindsock : Int
  deriving DecidableEq, Repr

/-- The member `SrtNode::GetBindSocket()`. -/
def SrtNode.GetBindSocket (self : SrtNode) : Int := self.m_bindsock

/-- The fields of `forward::config` (forward.h is not among the sources)
that the forwarding code reads. -/
structure forward.config where
  message_size : Int
  one_way : Bool := false
  planck : Bool := false
  deriving DecidableEq, Repr

/-- The assignment `urlParser[key] = val` on the query parameters. -/
def StrMap.set (m : StrMap) (key val : String) : StrMap :=
  match m with
  | [] => [(key, val)]
  | (k, v) :: rest =>
    if k == key then (key, val) :: rest
    else if key < k then (key, val) :: (k, v) :: rest
    else (k, v) :: StrMap.set rest key val

/-- The function `createNode(cfg, uri, isCaller)` (file-forward.cpp:11-26);
the product `cfg.message_size * 1472` is an `int`. -/
def createNode (env : Env) (cfg : forward.config) (uri : String) (isCaller : Bool) :
    M SrtNode := do
  let urlParser := env.parse uri
  let p1 := StrMap.set urlParser.parameters "mode" (if isCaller then "caller" else "listener")
  let p2 : StrMap :=
    if cfg.planck then
      let p3 := StrMap.set (StrMap.set p1 "transtype" "file") "messageapi" "true"
      let p4 :=
        if !(p3.count "sndbuf" != 0) then
          StrMap.set p3 "sndbuf"
            (toString (3 * ((wrap_int (cfg.message_size * 1472)).tdiv 1456 + 1472)))
        else p3
      if !(p4.count "rcvbuf" != 0) then
        StrMap.set p4 "rcvbuf" (toString (3 * ((wrap_int (cfg.message_size * 1472)).tdiv 1456 + 1472)))
      else p4
    else p1
  let id ← call env (.SrtNode_ctor { urlParser with parameters := p2 })
  pure { m_bindsock := id }

/-- The call `src->Receive(data, size, &connectionId)`: the count returned,
the connection id left in the out-parameter (0 before the call) and the
buffer afterwards. -/
def SrtNode.Receive (env : Env) (self : SrtNode) (buffer : List Nat) :
    M (Int × Int × List Nat) := fun w =>
  (.ok (env.ret w (.SrtNode_Receive self.m_bindsock buffer.length),
      env.connection_id w (.SrtNode_Receive self.m_bindsock buffer.length),
      overwrite buffer ((env.received w (.SrtNode_Receive self.m_bindsock buffer.length)).take
        (env.ret w (.SrtNode_Receive self.m_bindsock buffer.length)).toNat)),
    w.after_call env (.SrtNode_Receive self.m_bindsock buffer.length))

/-- One pass through the body of the loop of `forwardMessage`
(file-forward.cpp:32-65): the buffer to go on with, or nothing after a `break`. -/
def forwardMessage_body (env : Env) (src dst : SrtNode) (dstSock : Int)
    (messageReceived : List Nat) : M (Option (List Nat)) := do
  let (recvRes, connectionId, buffer1) ← SrtNode.Receive env src messageReceived
  if recvRes ≤ 0 then
    if recvRes == 0 && connectionId == 0 then
      pure none
    else do
      let message ← srt_getlasterror_str env
      emit (.spdlog_error ("[FORWARD] ERROR: Receiving message resulted in " ++
        toString recvRes ++ " on connection ID " ++ toString connectionId ++ ". " ++ message))
      pure none
  else if recvRes > (messageReceived.length : Int) then do
    emit (.spdlog_error ("[FORWARD] ERROR: Size of the received message " ++
      toString recvRes ++ " exceeds the buffer size " ++ toString messageReceived.length ++
      " on connection ID " ++ toString connectionId))
    pure none
  else do
    let sendRes ← call env (.SrtNode_Send dst.m_bindsock (buffer1.take recvRes.toNat) dstSock)
    if sendRes ≤ 0 then do
      let message ← srt_getlasterror_str env
      emit (.spdlog_error ("[FORWARD] ERROR: Sending message resulted in " ++
        toString sendRes ++ " on connection ID " ++ toString dst.GetBindSocket ++
        ". Error message: " ++ message))
      pure none
    else
      pure (some buffer1)

/-- The `while (!forceBreak)` loop of `forwardMessage` (file-forward.cpp:31-66),
for at most `fuel` iterations. -/
def forwardMessage_loop (env : Env) (src dst : SrtNode) (dstSock : Int) :
    Nat → List Nat → World → Ended
  | 0, _, w => .out_of_fuel w
  | fuel + 1, messageReceived, w =>
    if env.forceBreak w then .returned w
    else
      match forwardMessage_body env src dst dstSock messageReceived w with
      | (.error e, w1) => .thrown e w1
      | (.ok none, w1) => .returned w1
      | (.ok (some buffer1), w1) => forwardMessage_loop env src dst dstSock fuel buffer1 w1

/-- The function `forwardMessage` (file-forward.cpp:28-75), for at most
`fuel` iterations of its loop. Its parameter `description` is not used by the
source. The exception stands for the one the constructor of the vector throws
for a size that does not fit. -/
def forwardMessage (env : Env) (src dst : SrtNode) (dstSock : Int) (cfg : forward.config)
    (fuel : Nat) (w : World) : Ended :=
  if cfg.message_size < 0 then .thrown (.std_exception "std::length_error: vector") w
  else
    match forwardMessage_loop env src dst dstSock fuel
        (List.replicate cfg.message_size.toNat 0) w with
    | .returned w1 =>
      .returned ((w1.after_call env (.SrtNode_Close src.m_bindsock)).after_call env
        (.SrtNode_Close dst.m_bindsock))
    | other => other

/-- The lambda `waitUndelivered` of `startForwarding` (file-forward.cpp:114-125). -/
def waitUndelivered (env : Env) (node : SrtNode) (waitMs : Int) : M Int := do
  let undelivered ← call env (.SrtNode_WaitUndelivered node.m_bindsock waitMs)
  let _ ←
    (if undelivered == -1 then do
      let message ← srt_getlasterror_str env
      emit (.spdlog_error
        ("[FORWARD] ERROR: waiting undelivered data resulted in " ++ message))
    else pure ())
  if undelivered != 0 then do
    emit (.spdlog_error
      ("[FORWARD] ERROR: still has " ++ toString undelivered ++ " bytes undelivered"))
    pure undelivered
  else
    pure undelivered

/-- What `startForwarding` leaves when it reaches the pumping stage. Each
thread keeps a trace of its own, which starts as a copy of the trace of the
thread that started it; how the events of concurrent threads interleave is
not modelled. -/
structure Forwarding where
  src : SrtNode
  dst : SrtNode
  /-- The thread `thSrcToDst`. -/
  thSrcToDst : Ended
  /-- The thread `thDstToSrc`. -/
  thDstToSrc : Ended
  /-- The main thread after both joins, when both threads have ended. -/
  joined : World
  /-- The two asynchronous drain waits. -/
  srcUndelivered : Except Thrown Int × World
  dstUndelivered : Except Thrown Int × World
  deriving DecidableEq, Repr

/-- How a call of `startForwarding` ends. -/
inductive Session where
  /-- A `return` before the pumping stage. -/
  | returned (code : Int) (w : World)
  | thrown (e : Thrown) (w : World)
  /-- The pumping stage was reached. -/
  | pumped (f : Forwarding)
  deriving DecidableEq, Repr

/-- Lines 108-133 of file-forward.cpp: the two pump threads, their joins and
the two drain waits. The environments `envA` and `envB` answer the calls of
the two pump threads. -/
def pumping_stage (env envA envB : Env) (cfg : forward.config) (src dst : SrtNode)
    (sockSrc : Int) (fuel : Nat) (w : World) : Forwarding :=
  let a := forwardMessage envA src dst dst.GetBindSocket cfg fuel w
  let b := forwardMessage envB dst src sockSrc cfg fuel w
  let joined : World := { w with now := max a.world.now b.world.now }
  { src := src, dst := dst, thSrcToDst := a, thDstToSrc := b, joined := joined,
    srcUndelivered := waitUndelivered env src 3000 joined,
    dstUndelivered := waitUndelivered env dst 3000 joined }

/-- The set-up of `startForwarding` (file-forward.cpp:78-106): the nodes and
the accepted source socket, or the value of an early `return`. -/
def startForwarding_setup (env : Env) (cfg : forward.config) (srcUri dstUri : String) :
    M (Except Int (SrtNode × SrtNode × Int)) := do
  let dst ← createNode env cfg dstUri true
  let src ← createNode env cfg srcUri false
  let sockDst ← call env (.SrtNode_Connect dst.m_bindsock)
  if sockDst == SRT_INVALID_SOCK then do
    emit (.spdlog_error "[FORWARD] ERROR! While setting up a caller.")
    pure (.error 1)
  else do
    let listened ← call env (.SrtNode_Listen src.m_bindsock 1)
    if listened != 0 then do
      let message ← srt_getlasterror_str env
      emit (.spdlog_error ("[FORWARD] ERROR! While setting up a listener: " ++ message ++ "."))
      pure (.error 1)
    else do
      let sockSrc ← call env (.SrtNode_AcceptConnection src.m_bindsock)
      if sockSrc == SRT_ERROR then do
        emit (.spdlog_error "[FORWARD] Wait for source connection canceled")
        pure (.error 0)
      else
        pure (.ok (src, dst, sockSrc))

/-- The function `startForwarding` (file-forward.cpp:77-134), with at most
`fuel` iterations for each pump. -/
def startForwarding (env envA envB : Env) (cfg : forward.config) (srcUri dstUri : String)
    (fuel : Nat) (w : World) : Session :=
  match startForwarding_setup env cfg srcUri dstUri w with
  | (.error e, w1) => .thrown e w1
  | (.ok (.error code), w1) => .returned code w1
  | (.ok (.ok (src, dst, sockSrc)), w1) =>
    .pumped (pumping_stage env envA envB cfg src dst sockSrc fuel w1)

/-! ## The generator (generate.cpp, generate.hpp) -/

/-- The structure `generate::config` (generate.hpp:16-29). The loss rate, a
`double` in the source, is a rational number here. -/
structure generate.config extends stats_config where
  sendrate : Int := 0
  num_messages : Int := -1
  duration : Int := 0
  message_size : Int := 1316
  two_way : Bool := false
  reconnect : Bool := false
  close_listener : Bool := false
  enable_metrics : Bool := false
  spin_wait : Bool := false
  playback_csv : String := ""
  lossRate : ℚ := 0
  deriving DecidableEq, Repr

/-- The local variables of `run_pipe` that change in its loop. The field
`draws` stands for the state of `generator`: the number of values drawn so far. -/
structure PipeState where
  i : Int
  stat_time : Nat
  prev_i : Int
  message_to_send : List Nat
  draws : Nat
  world : World
  deriving DecidableEq, Repr

/-- How one pass through the body of the loop of `run_pipe` ends. -/
inductive PipeStep where
  /-- The end of the body, or a `continue`. -/
  | next (st : PipeState)
  /-- The `break`. -/
  | broke (st : PipeState)
  | thrown (e : Thrown) (st : PipeState)
  deriving DecidableEq, Repr

/-- Whether `ratepacer` is non-null (generate.cpp:50-52). Modelled from the
spec: constructing a pacer (pacer.hpp is not among the sources) leaves no event. -/
def has_ratepacer (cfg : generate.config) : Bool :=
  cfg.sendrate != 0 || !cfg.playback_csv.isEmpty

/-- The value of `duration_cast<milliseconds>(elapsed).count()` in the
throughput report of `run_pipe` (generate.cpp:87-88), `elapsed` being
`tnow - stat_time`. -/
def elapsed_ms (st : PipeState) : Nat :=
  (st.world.now - st.stat_time) / 1000000

/-- The throughput report of `run_pipe` (generate.cpp:83-92) after a write
that ended at `st.world`. The product `8 * n * cfg.message_size` is an
`int`; the division by the count of milliseconds and the factor 1000 are
`long long`. -/
def run_pipe_report (cfg : generate.config) (st : PipeState) : PipeState :=
  if st.world.now > st.stat_time + seconds 1 then
    { st with
      stat_time := st.world.now
      prev_i := st.i
      world := st.world.record (.sending_at (st.i - st.prev_i)
        (((wrap_int (8 * (st.i - st.prev_i) * cfg.message_size)).tdiv (elapsed_ms st : Int) *
          1000).tdiv 1000)) }
  else st

/-- The part of the body of the loop of `run_pipe` that sends message `i`
(generate.cpp:78-92). Modelled from the spec: `generate_payload`
(metrics.hpp is not among the sources) fills the message and keeps its size. -/
def run_pipe_send (env : Env) (target : isocket) (cfg : generate.config) (st : PipeState) :
    PipeStep :=
  match isocket.write env target (overwrite st.message_to_send
      (env.received st.world .generate_payload)).length
      (overwrite st.message_to_send (env.received st.world .generate_payload)) (-1)
      (st.world.after_call env .generate_payload) with
  | (.error e, w1) =>
    .thrown e { st with
      message_to_send := overwrite st.message_to_send (env.received st.world .generate_payload)
      world := w1 }
  | (.ok _, w1) =>
    .next (run_pipe_report cfg { st with
      message_to_send := overwrite st.message_to_send (env.received st.world .generate_payload)
      world := w1 })

/-- The duration test of `run_pipe` (generate.cpp:68), `start_time` being
the time `run_pipe` started at. -/
def duration_elapsed (cfg : generate.config) (start_time : Nat) (st : PipeState) : Bool :=
  cfg.duration > 0 && ((st.world.now : Int) - start_time > cfg.duration * 1000000000)

/-- The body of the loop of `run_pipe` from the duration test on
(generate.cpp:68-92). -/
def run_pipe_paced (env : Env) (target : isocket) (cfg : generate.config) (start_time : Nat)
    (st : PipeState) : PipeStep :=
  if duration_elapsed cfg start_time st then
    .broke st
  else if env.random_value st.draws < cfg.lossRate then
    .next { st with draws := st.draws + 1 }
  else
    run_pipe_send env target cfg { st with draws := st.draws + 1 }

/-- The wait on the pacer that opens the body of the loop of `run_pipe`
(generate.cpp:62-65). -/
def run_pipe_waited (env : Env) (cfg : generate.config) (st : PipeState) : PipeState :=
  if has_ratepacer cfg then { st with world := st.world.after_call env .ipacer_wait } else st

/-- The body of the loop of `run_pipe` (generate.cpp:60-93). -/
def run_pipe_body (env : Env) (target : isocket) (cfg : generate.config) (start_time : Nat)
    (st : PipeState) : PipeStep :=
  run_pipe_paced env target cfg start_time (run_pipe_waited env cfg st)

/-- The end of `run_pipe` (generate.cpp:101-104). -/
def run_pipe_end (env : Env) (w : World) : Ended :=
  if env.forceBreak w then .returned (w.record (.spdlog_info "GENERATE interrupted by request!"))
  else .returned w

/-- The handler of `run_pipe` (generate.cpp:96-99). -/
def run_pipe_catch (env : Env) (e : Thrown) (w : World) : Ended :=
  match e with
  | .socket_exception what => run_pipe_end env (w.record (.spdlog_warn ("GENERATE " ++ what)))
  | other => .thrown other w

/-- The loop of `run_pipe` with its handler and the end of the function
(generate.cpp:56-104), for at most `fuel` iterations; `num_messages` is the
local constant of that name and `++i` is taken without overflow. -/
def run_pipe_loop (env : Env) (target : isocket) (cfg : generate.config) (start_time : Nat)
    (num_messages : Int) : Nat → PipeState → Ended
  | 0, st => .out_of_fuel st.world
  | fuel + 1, st =>
    if (num_messages < 0 || st.i < num_messages) && !env.forceBreak st.world then
      match run_pipe_body env target cfg start_time st with
      | .next st1 =>
        run_pipe_loop env target cfg start_time num_messages fuel { st1 with i := st1.i + 1 }
      | .broke st1 => run_pipe_end env st1.world
      | .thrown e st1 => run_pipe_catch env e st1.world
    else run_pipe_end env st.world

/-- The function `run_pipe` (generate.cpp:35-105), for at most `fuel`
iterations of its loop. The message starts as the bytes 0, 1, 2, ... of
`iota`. The exception stands for the one the constructor of the vector throws
for a size that does not fit. -/
def run_pipe (env : Env) (dst : isocket) (cfg : generate.config) (fuel : Nat) (w : World) :
    Ended :=
  if cfg.message_size < 0 then .thrown (.std_exception "std::length_error: vector") w
  else
    run_pipe_loop env dst cfg w.now (if cfg.duration > 0 then -1 else cfg.num_messages) fuel
      { i := 0, stat_time := w.now, prev_i := 0,
        message_to_send := (List.range cfg.message_size.toNat).map (fun k => k % 256),
        draws := 0, world := w }

/-! ## Observing the pumps and the generator -/

/-- The events that are calls into the environment. -/
def Event.is_call : Event → Bool
  | .call _ _ => true
  | _ => false

/-- The read of an endpoint that an event marks: the endpoint, the count
returned and the bytes. -/
def Event.read_message : Event → Option (Int × Nat × List Nat)
  | .isocket_read id n data => some (id, n, data)
  | _ => none

/-- The write to an endpoint that an event marks: the endpoint, the count
requested and the bytes. -/
def Event.written_message : Event → Option (Int × Nat × List Nat)
  | .isocket_write id n data => some (id, n, data)
  | _ => none

/-- The reads that returned, in order. -/
def reads (trace : List (Nat × Event)) : List (Int × Nat × List Nat) :=
  trace.filterMap (fun ev => ev.2.read_message)

/-- The writes performed, in order. -/
def writes (trace : List (Nat × Event)) : List (Int × Nat × List Nat) :=
  trace.filterMap (fun ev => ev.2.written_message)

/-- The events recorded after the world `w`. -/
def new_events (w w1 : World) : List (Nat × Event) :=
  w1.trace.drop w.trace.length

/-- The number of calls of `Close()` on a node. -/
def closes (node : Int) (trace : List (Nat × Event)) : Nat :=
  trace.countP (fun ev =>
    match ev.2 with
    | .call (.SrtNode_Close n) _ => n == node
    | _ => false)

/-- The throughput lines of a trace: the count `n` of each line, paired
with the number of writes performed since the line before it, `k` writes
having been performed so far. -/
def throughput_lines : List (Nat × Event) → Nat → List (Int × Nat)
  | [], _ => []
  | (_, .isocket_write _ _ _) :: rest, k => throughput_lines rest (k + 1)
  | (_, .sending_at n _) :: rest, k => (n, k) :: throughput_lines rest 0
  | _ :: rest, k => throughput_lines rest k

/-- The locals where one pass through the body of the loop of `run_pipe` ends. -/
def PipeStep.state : PipeStep → PipeState
  | .next st => st
  | .broke st => st
  | .thrown _ st => st

/-- No write to the endpoint fails. -/
def writes_succeed (env : Env) (target : isocket) : Prop :=
  ∀ n data w, ∃ r, (isocket.write env target n data (-1) w).1 = .ok r

/-- The calls that receive a message. -/
def Call.is_receive : Call → Bool
  | .isocket_read _ _ _ => true
  | .srt_recvmsg2 _ _ => true
  | .SrtNode_Receive _ _ => true
  | _ => false

/-- The calls that send a message. -/
def Call.is_send : Call → Bool
  | .isocket_write _ _ _ => true
  | .srt_sendmsg2 _ _ => true
  | .SrtNode_Send _ _ _ => true
  | _ => false

/-- The number of calls so far that satisfy `p`. -/
def calls_made (p : Call → Bool) (w : World) : Nat :=
  w.trace.countP (fun ev =>
    match ev.2 with
    | .call c _ => p c
    | _ => false)

/-- A peer that follows a script: the receiving calls yield the messages of
`incoming` in turn (nothing once they are used up), the sending calls
return the values of `sent` in turn (0 once they are used up), the last error is
`SRT_EASYNCSND`, and the cancellation flag is set once `stop` receiving calls
were made. Every other call is answered as in `demo_env`. -/
def scripted (incoming : List (List Nat)) (sent : List Int) (stop : Nat) : Env :=
  { demo_env with
    ret := fun w c =>
      if c.is_receive then ((incoming.getD (calls_made Call.is_receive w) []).length : Int)
      else if c.is_send then sent.getD (calls_made Call.is_send w) 0
      else match c with
        | .srt_getlasterror => SRT_EASYNCSND
        | other => demo_env.ret w other
    received := fun w _ => incoming.getD (calls_made Call.is_receive w) []
    forceBreak := fun w => decide (stop ≤ calls_made Call.is_receive w) }

/-- A UDP endpoint with id 11. -/
def udp_in : isocket := .udp ⟨11⟩

/-- A UDP endpoint with id 12. -/
def udp_out : isocket := .udp ⟨12⟩

/-- The world in which `srt::write` calls `srt_sendmsg2`: after the wait for
write-readiness when the endpoint is non-blocking. -/
def srt.world_at_send (env : Env) (self : srt) (w : World) : World :=
  if self.m_blocking_mode then w
  else w.after_call env (.srt_epoll_wait self.m_epoll_io true true (-1))

/-- The events of the loop of `forwardMessage`: anything but a call of `Close()`. -/
def Event.in_forward_loop : Event → Bool
  | .call (.SrtNode_Close _) _ => false
  | _ => true

/-- A computation that throws no exception. -/
def Returns {α : Type} (m : M α) : Prop :=
  ∀ w, ∃ a, (m w).1 = .ok a

/-- A forwarding peer: the node of a URI without a host gets bind socket 21,
any other node 22; the connection accepted on the source has socket 23;
`srt://:4200` parses to `listener_uri` and every other URL to `caller_uri`.
Messages and the flag follow the script as in `scripted`. -/
def forward_env (incoming : List (List Nat)) (sent : List Int) (stop : Nat) : Env :=
  { scripted incoming sent stop with
    ret := fun w c =>
      match c with
      | .SrtNode_ctor uri => if uri.host == "" then 21 else 22
      | .SrtNode_Connect _ => 22
      | .SrtNode_AcceptConnection _ => 23
      | other => (scripted incoming sent stop).ret w other
    parse := fun url => if url == "srt://:4200" then listener_uri else caller_uri }

/-- The calls of `ratepacer->wait`. -/
def Call.is_wait : Call → Bool
  | .ipacer_wait => true
  | _ => false

/-- An endpoint that takes every message in `write_ns` nanoseconds, with the
values `draws` for the loss injection; the cancellation flag is set once
`stop` pacer waits were made, never if `stop` is `none`. -/
def steady (write_ns : Nat) (draws : Nat → ℚ) (stop : Option Nat) : Env :=
  { demo_env with
    ret := fun w c =>
      match c with
      | .isocket_write _ data _ => data.length
      | other => demo_env.ret w other
    dur := fun _ c =>
      match c with
      | .isocket_write _ _ _ => write_ns
      | _ => 0
    random_value := draws
    forceBreak := fun w =>
      match stop with
      | some k => decide (k ≤ calls_made Call.is_wait w)
      | none => false }

/-- The locals of `run_pipe` at the first test of the loop condition, for a
message of two bytes and a start at time 0. -/
def first_test : PipeState :=
  { i := 0, stat_time := 0, prev_i := 0, message_to_send := [0, 1], draws := 0, world := {} }

/-! ## Observing reads, writes and binds of `socket::srt` -/

/-- The world after the calls `cs`, made one after the other. -/
def World.after_calls (env : Env) (w : World) (cs : List Call) : World :=
  cs.foldl (fun w1 c => w1.after_call env c) w

/-- The wait for readiness that opens `read` (`for_write` false) and `write`
(`for_write` true) on a non-blocking endpoint. -/
def srt.wait_call (self : srt) (for_write : Bool) (timeout_ms : Int) : Call :=
  .srt_epoll_wait self.m_epoll_io true for_write timeout_ms

/-- The world in which `read` or `write` asks the transport to move data:
after the wait for readiness when the endpoint is non-blocking. -/
def srt.world_after_wait (env : Env) (self : srt) (for_write : Bool) (timeout_ms : Int)
    (w : World) : World :=
  if self.m_blocking_mode then w else w.after_call env (self.wait_call for_write timeout_ms)

/-- The addresses `srt_bind` was called with, in order. -/
def bind_calls (trace : List (Nat × Event)) : List netaddr_any :=
  trace.filterMap (fun ev =>
    match ev.2 with
    | .call (.srt_bind _ sa) _ => some sa
    | _ => none)

/-- The local bind address as the specification gives it: from the "bind"
option when there is one (the host in lower case, the port after the ":" or
the URI port), else the wildcard address with the URI port in RENDEZVOUS
mode, else the URI host and port in LISTENER mode, else none. There is none
either when the text after the ":" is not a number. -/
def bind_address_by_rule (self : srt) : Option (String × Int) :=
  match self.m_options.find? (fun el => el.1 == "bind") with
  | some el =>
    match (split_colon (el.2.data.map Char.toLower)).2 with
    | some rest =>
      match stoi rest with
      | .ok bindport =>
        some (String.mk (split_colon (el.2.data.map Char.toLower)).1, bindport)
      | .error _ => none
    | none =>
      some (String.mk (split_colon (el.2.data.map Char.toLower)).1, self.m_port)
  | none =>
    if self.m_mode == RENDEZVOUS then some ("", self.m_port)
    else if self.m_mode == LISTENER then some (self.m_host, self.m_port)
    else none

/-- A transport whose waits for readiness fail, with `err` as the last error. -/
def wait_fails_env (err : Int) : Env :=
  { demo_env with
    ret := fun w c =>
      match c with
      | .srt_epoll_wait _ _ _ _ => SRT_ERROR
      | .srt_getlasterror => err
      | other => demo_env.ret w other }

/-- A transport whose moves of data fail, with `err` as the last error. -/
def transfer_fails_env (err : Int) : Env :=
  { demo_env with
    ret := fun w c =>
      match c with
      | .srt_recvmsg2 _ _ => SRT_ERROR
      | .srt_sendmsg2 _ _ => SRT_ERROR
      | .srt_getlasterror => err
      | other => demo_env.ret w other }

/-- An SRT endpoint in RENDEZVOUS mode with a "bind" option. -/
def bound_rendezvous : srt :=
  { m_bind_socket := 7, m_mode := RENDEZVOUS, m_host := "10.0.0.1", m_port := 4200,
    m_options := [("bind", "LocalHost:5000")] }

/-! ## Statistics (srt_socket.cpp:560-731) -/

/-- The macro `HAS_PKT_REORDER_TOL` (srt_socket.cpp:569). -/
def HAS_PKT_REORDER_TOL (env : Env) : Bool :=
  decide (env.SRT_VERSION_MAJOR ≥ 1) && decide (env.SRT_VERSION_MINOR ≥ 4) &&
    decide (env.SRT_VERSION_PATCH > 0)

/-- The macro `HAS_UNIQUE_PKTS` (srt_socket.cpp:571). -/
def HAS_UNIQUE_PKTS (env : Env) : Bool :=
  env.SRT_VERSION_MAJOR == 1 &&
    (decide (env.SRT_VERSION_MINOR > 4) ||
      (env.SRT_VERSION_MINOR == 4 && decide (env.SRT_VERSION_PATCH ≥ 2)))

/-- The static `socket::srt::stats_to_csv(socketid, stats, print_header)`
(srt_socket.cpp:565-654): the content of the stream `output`, one list
element for each insertion; `timepoint` is the text `print_timestamp_now()`
yields. An integer is written in decimal, a `double` as the environment says. -/
def stats_to_csv (env : Env) (timepoint : String) (socketid : Int) (stats : SRT_TRACEBSTATS)
    (print_header : Bool) : String :=
  if print_header then
    String.join (
      (if env.HAS_PUT_TIME then ["Timepoint,"] else []) ++
      ["Time,SocketID,weight,pktFlowWindow,pktCongestionWindow,pktFlightSize,",
       "msRTT,mbpsBandwidth,mbpsMaxBW,pktSent,"] ++
      (if HAS_UNIQUE_PKTS env then ["pktSentUnique,"] else []) ++
      ["pktSndLoss,pktSndDrop,pktRetrans,byteSent,",
       "byteAvailSndBuf,byteSndDrop,mbpsSendRate,usPktSndPeriod,msSndBuf,pktRecv,"] ++
      (if HAS_UNIQUE_PKTS env then ["pktRecvUnique,"] else []) ++
      ["pktRcvLoss,pktRcvDrop,pktRcvUndecrypt,pktRcvRetrans,pktRcvBelated,",
       "byteRecv,byteAvailRcvBuf,byteRcvLoss,byteRcvDrop,mbpsRecvRate,msRcvBuf,msRcvTsbPdDelay"] ++
      (if HAS_PKT_REORDER_TOL env then [",pktReorderTolerance"] else []) ++
      ["\n"])
  else
    String.join (
      (if env.HAS_PUT_TIME then [timepoint, ","] else []) ++
      [toString stats.msTimeStamp, ",",
       toString socketid, ",",
       toString (0 : Int), ",",
       toString stats.pktFlowWindow, ",",
       toString stats.pktCongestionWindow, ",",
       toString stats.pktFlightSize, ",",
       env.print_double stats.msRTT, ",",
       env.print_double stats.mbpsBandwidth, ",",
       env.print_double stats.mbpsMaxBW, ",",
       toString stats.pktSent, ","] ++
      (if HAS_UNIQUE_PKTS env then [toString stats.pktSentUnique, ","] else []) ++
      [toString stats.pktSndLoss, ",",
       toString stats.pktSndDrop, ",",
       toString stats.pktRetrans, ",",
       toString stats.byteSent, ",",
       toString stats.byteAvailSndBuf, ",",
       toString stats.byteSndDrop, ",",
       env.print_double stats.mbpsSendRate, ",",
       env.print_double stats.usPktSndPeriod, ",",
       toString stats.msSndBuf, ",",
       toString stats.pktRecv, ","] ++
      (if HAS_UNIQUE_PKTS env then [toString stats.pktRecvUnique, ","] else []) ++
      [toString stats.pktRcvLoss, ",",
       toString stats.pktRcvDrop, ",",
       toString stats.pktRcvUndecrypt, ",",
       toString stats.pktRcvRetrans, ",",
       toString stats.pktRcvBelated, ",",
       toString stats.byteRecv, ",",
       toString stats.byteAvailRcvBuf, ",",
       toString stats.byteRcvLoss, ",",
       toString stats.byteRcvDrop, ",",
       env.print_double stats.mbpsRecvRate, ",",
       toString stats.msRcvBuf, ",",
       toString stats.msRcvTsbPdDelay] ++
      (if HAS_PKT_REORDER_TOL env then [",", toString stats.pktReorderTolerance] else []) ++
      ["\n"])

/-- A value of `nlohmann::json` as the statistics functions build it. -/
inductive Json where
  | null
  | integer (v : Int)
  | number (v : ℚ)
  | object (members : List (String × Json))

/-- The order `std::less<std::string>` on the characters of two strings:
lexicographic, by character codes. -/
def string_less : List Char → List Char → Bool
  | _, [] => false
  | [], _ :: _ => true
  | a :: as, b :: bs =>
    if a.toNat < b.toNat then true
    else if b.toNat < a.toNat then false
    else string_less as bs

/-- The assignment `m[key] = val` on a `std::map` with string keys, whose
entries are kept in the order of their keys. -/
def map_set {α : Type} (m : List (String × α)) (key : String) (val : α) : List (String × α) :=
  match m with
  | [] => [(key, val)]
  | (k, v) :: rest =>
    if k == key then (key, val) :: rest
    else if string_less key.data k.data then (key, val) :: (k, v) :: rest
    else (k, v) :: map_set rest key val

/-- The assignment `j[key] = val` of `nlohmann::json`: a null value becomes an
object. -/
def Json.set (j : Json) (key : String) (val : Json) : Json :=
  match j with
  | .object members => .object (map_set members key val)
  | _ => .object [(key, val)]

mutual
/-- The text of `nlohmann::json::dump()`: no white space, the members of an
object in the order of their keys. -/
def Json.dump (env : Env) : Json → String
  | .null => "null"
  | .integer v => toString v
  | .number v => env.dump_double v
  | .object members => "\x7b" ++ Json.dump_members env members ++ "\x7d"
/-- The members of an object in `Json.dump`, separated by commas. -/
def Json.dump_members (env : Env) : List (String × Json) → String
  | [] => ""
  | [(k, v)] => "\"" ++ k ++ "\":" ++ Json.dump env v
  | (k, v) :: rest =>
    "\"" ++ k ++ "\":" ++ Json.dump env v ++ "," ++ Json.dump_members env rest
end

/-- The static `socket::srt::stats_to_json(socketid, stats)`
(srt_socket.cpp:656-704). `HAS_PUT_TIME` is not defined here, whatever the
build: line 652 removes it. -/
def stats_to_json (env : Env) (socketid : Int) (stats : SRT_TRACEBSTATS) : Json :=
  let root := Json.null
  let root := root.set "Time" (.integer stats.msTimeStamp)
  let root := root.set "SocketID" (.integer socketid)
  let root := root.set "pktFlowWindow" (.integer stats.pktFlowWindow)
  let root := root.set "pktCongestionWindow" (.integer stats.pktCongestionWindow)
  let root := root.set "pktFlightSize" (.integer stats.pktFlightSize)
  let root := root.set "msRTT" (.number stats.msRTT)
  let root := root.set "mbpsBandwidth" (.number stats.mbpsBandwidth)
  let root := root.set "mbpsMaxBW" (.number stats.mbpsMaxBW)
  let root := root.set "pktSent" (.integer stats.pktSent)
  let root := root.set "pktSndLoss" (.integer stats.pktSndLoss)
  let root := root.set "pktSndDrop" (.integer stats.pktSndDrop)
  let root := root.set "pktRetrans" (.integer stats.pktRetrans)
  let root := root.set "byteSent" (.integer stats.byteSent)
  let root := root.set "byteAvailSndBuf" (.integer stats.byteAvailSndBuf)
  let root := root.set "byteSndDrop" (.integer stats.byteSndDrop)
  let root := root.set "mbpsSendRate" (.number stats.mbpsSendRate)
  let root := root.set "usPktSndPeriod" (.number stats.usPktSndPeriod)
  let root := root.set "msSndBuf" (.integer stats.msSndBuf)
  let root := root.set "pktRecv" (.integer stats.pktRecv)
  let root := root.set "pktRcvLoss" (.integer stats.pktRcvLoss)
  let root := root.set "pktRcvDrop" (.integer stats.pktRcvDrop)
  let root := root.set "pktRcvUndecrypt" (.integer stats.pktRcvUndecrypt)
  let root := root.set "mbpsRecvRate" (.number stats.mbpsRecvRate)
  let root := root.set "msRcvBuf" (.integer stats.msRcvBuf)
  let root := root.set "msRcvTsbPdDelay" (.integer stats.msRcvTsbPdDelay)
  let root := if HAS_PKT_REORDER_TOL env then
    root.set "pktReorderTolerance" (.integer stats.pktReorderTolerance) else root
  let root := if HAS_UNIQUE_PKTS env then
    (root.set "pktSentUnique" (.integer stats.pktSentUnique)).set "pktRecvUnique"
      (.integer stats.pktRecvUnique) else root
  root

/-- The call `srt_bstats(sock, &stats, true)`: the value returned and the
snapshot filled in. -/
def bstats_call (env : Env) (sock : Int) : M (Int × SRT_TRACEBSTATS) := fun w =>
  (.ok (env.ret w (.srt_bstats sock), env.bstats w (.srt_bstats sock)),
    w.after_call env (.srt_bstats sock))

/-- Modelled from the spec: the function `print_timestamp_now()` (misc.hpp is
not among the sources), which reads the clock. -/
def print_timestamp_now (env : Env) : M String := fun w => (.ok (env.timestamp w), w)

/-- The JSON document of `get_statistics` (srt_socket.cpp:718-720). -/
def statistics_document (env : Env) (socketid : Int) (stats : SRT_TRACEBSTATS) : Json :=
  (Json.null.set "ConnStats" (stats_to_json env socketid stats)).set "LinksStats" .null

/-- The member `socket::srt::get_statistics(stats_format, print_header)`
(srt_socket.cpp:706-731). -/
def srt.get_statistics (env : Env) (self : srt) (stats_format : String) (print_header : Bool) :
    M String := do
  let (res, stats) ← bstats_call env self.m_bind_socket
  if SRT_ERROR == res then
    raise_exception env "statistics"
  else if stats_format == "json" then
    if print_header then
      pure ""
    else
      pure (Json.dump env (statistics_document env self.m_bind_socket stats) ++ "\n")
  else do
    let _ ←
      (if stats_format != "csv" then
        emit (.spdlog_warn ("SOCKET::SRT " ++ stats_format ++
          " format is not supported. csv format will be used instead"))
      else pure ())
    let timepoint ← print_timestamp_now env
    pure (stats_to_csv env timepoint self.m_bind_socket stats print_header)

/-- The fields of the configurations `file::send::config` and
`file::receive::config` that the file transfer reads, under the names the
functions use (file-receive.hpp declares them as `segment_size`,
`stats_freq_ms`, `stats_file` and `stats_format`). -/
structure file.config where
  segmentSize : Nat := 1456 * 1000
  statsFreqMs : Int := 0
  statsFile : String := ""
  statsFormat : String := "csv"
  deriving DecidableEq, Repr

/-- The call `this_thread::sleep_for(interval)`. -/
def sleep_for (interval : Nat) (w : World) : World :=
  { trace := w.trace ++ [(w.now, .sleep_for interval)], now := w.now + interval }

/-- The loop of the lambda `statsFunc` (file-receive.cpp:166-171,
file-send.cpp:149-154), for at most `fuel` iterations. -/
def statsFunc_loop (env : Env) (sock : srt) (cfg : file.config) : Nat → Bool → World → Ended
  | 0, _, w => .out_of_fuel w
  | fuel + 1, printHeader, w =>
    if !env.forceBreak w && !env.localBreak w then
      match srt.get_statistics env sock cfg.statsFormat printHeader
          (sleep_for (cfg.statsFreqMs * 1000000).toNat w) with
      | (.error e, w1) => .thrown e w1
      | (.ok text, w1) => statsFunc_loop env sock cfg fuel false (w1.record (.logfile_write text))
    else .returned w

/-- The lambda `statsFunc` of `startFileReceiver` (file-receive.cpp:150-172)
and of `startFileSender` (file-send.cpp:137-155), for at most `fuel`
iterations of its loop; what it writes to `cerr` is not recorded. -/
def statsFunc (env : Env) (sock : srt) (cfg : file.config) (fuel : Nat) (w : World) : Ended :=
  if cfg.statsFreqMs == 0 then .returned w
  else if cfg.statsFile.isEmpty then .returned w
  else if env.ret w (.ofstream_open cfg.statsFile) != 0 then
    .returned (w.after_call env (.ofstream_open cfg.statsFile))
  else
    statsFunc_loop env sock cfg fuel true (w.after_call env (.ofstream_open cfg.statsFile))

/-! ## Observing the statistics -/

/-- The fields of a line of text: the texts between the commas, up to the
end of the line. -/
def line_fields : List Char → List (List Char)
  | [] => [[]]
  | c :: cs =>
    if c == '\n' then [[]]
    else if c == ',' then [] :: line_fields cs
    else (c :: (line_fields cs).headD []) :: (line_fields cs).tail

/-- The comma-separated fields of the first line of a text. -/
def csv_fields (text : String) : List String :=
  (line_fields text.data).map String.mk

/-- A text without a comma and without a line end. -/
def plain (text : String) : Prop :=
  ∀ c ∈ text.data, c ≠ ',' ∧ c ≠ '\n'

/-- The counter a column of the CSV header names, as `stats_to_csv` prints
it: "Time" is the time stamp of the snapshot, "SocketID" the socket id,
"weight" is 0 and "Timepoint" the wall-clock time; no counter for any other
name. -/
def column_value (env : Env) (timepoint : String) (socketid : Int) (stats : SRT_TRACEBSTATS)
    (column : String) : Option String :=
  if column = "Timepoint" then some timepoint
  else if column = "Time" then some (toString stats.msTimeStamp)
  else if column = "SocketID" then some (toString socketid)
  else if column = "weight" then some "0"
  else if column = "pktFlowWindow" then some (toString stats.pktFlowWindow)
  else if column = "pktCongestionWindow" then some (toString stats.pktCongestionWindow)
  else if column = "pktFlightSize" then some (toString stats.pktFlightSize)
  else if column = "msRTT" then some (env.print_double stats.msRTT)
  else if column = "mbpsBandwidth" then some (env.print_double stats.mbpsBandwidth)
  else if column = "mbpsMaxBW" then some (env.print_double stats.mbpsMaxBW)
  else if column = "pktSent" then some (toString stats.pktSent)
  else if column = "pktSentUnique" then some (toString stats.pktSentUnique)
  else if column = "pktSndLoss" then some (toString stats.pktSndLoss)
  else if column = "pktSndDrop" then some (toString stats.pktSndDrop)
  else if column = "pktRetrans" then some (toString stats.pktRetrans)
  else if column = "byteSent" then some (toString stats.byteSent)
  else if column = "byteAvailSndBuf" then some (toString stats.byteAvailSndBuf)
  else if column = "byteSndDrop" then some (toString stats.byteSndDrop)
  else if column = "mbpsSendRate" then some (env.print_double stats.mbpsSendRate)
  else if column = "usPktSndPeriod" then some (env.print_double stats.usPktSndPeriod)
  else if column = "msSndBuf" then some (toString stats.msSndBuf)
  else if column = "pktRecv" then some (toString stats.pktRecv)
  else if column = "pktRecvUnique" then some (toString stats.pktRecvUnique)
  else if column = "pktRcvLoss" then some (toString stats.pktRcvLoss)
  else if column = "pktRcvDrop" then some (toString stats.pktRcvDrop)
  else if column = "pktRcvUndecrypt" then some (toString stats.pktRcvUndecrypt)
  else if column = "pktRcvRetrans" then some (toString stats.pktRcvRetrans)
  else if column = "pktRcvBelated" then some (toString stats.pktRcvBelated)
  else if column = "byteRecv" then some (toString stats.byteRecv)
  else if column = "byteAvailRcvBuf" then some (toString stats.byteAvailRcvBuf)
  else if column = "byteRcvLoss" then some (toString stats.byteRcvLoss)
  else if column = "byteRcvDrop" then some (toString stats.byteRcvDrop)
  else if column = "mbpsRecvRate" then some (env.print_double stats.mbpsRecvRate)
  else if column = "msRcvBuf" then some (toString stats.msRcvBuf)
  else if column = "msRcvTsbPdDelay" then some (toString stats.msRcvTsbPdDelay)
  else if column = "pktReorderTolerance" then some (toString stats.pktReorderTolerance)
  else none

/-- The texts written to the statistics file, in order. -/
def logfile_writes (trace : List (Nat × Event)) : List String :=
  trace.filterMap (fun ev =>
    match ev.2 with
    | .logfile_write text => some text
    | _ => none)

/-- The number of calls of `sleep_for` in a trace. -/
def periods (trace : List (Nat × Event)) : Nat :=
  trace.countP (fun ev =>
    match ev.2 with
    | .sleep_for _ => true
    | _ => false)

/-- A transport whose snapshots count the calls made so far as packets sent;
the SRT library is version 1.4.4 and the build has no `HAS_PUT_TIME`. -/
def counting_env : Env :=
  { demo_env with
    bstats := fun w _ =>
      { msTimeStamp := (w.now / 1000000 : Nat), pktSent := (w.trace.length : Int) } }

/-- Statistics every 100 ms into `stats.csv`. -/
def file_stats_on : file.config := { statsFreqMs := 100, statsFile := "stats.csv" }

/-! ## Sending a file (file-send.cpp:24-82) -/

/-- The C string that starts a sequence of bytes: what stands before the
first NUL. -/
def c_str (bytes : List Nat) : List Nat :=
  bytes.takeWhile (fun b => b != 0)

/-- The buffer after `data` has been stored from the position `offset` on;
what would go past the end of the buffer is left out. -/
def store_at (buf : List Nat) (offset : Nat) (data : List Nat) : List Nat :=
  buf.take offset ++ data.take (buf.length - offset) ++ buf.drop (offset + data.length)

/-- The statement `int hdrSize = snprintf(buf.data() + 1, buf.size(), "%s",
uploadName.c_str()) + 2` (file-send.cpp:37): the header size and the buffer
afterwards. -/
def sendFile_header (buf uploadName : List Nat) : Nat × List Nat :=
  ((c_str uploadName).length + 2,
    if buf.length = 0 then buf
    else store_at buf 1 ((c_str uploadName).take (buf.length - 1) ++ [0]))

/-- The bytes `ifile.read(s, count)` extracts at the position `pos` of the file. -/
def ifstream_read (content : List Nat) (pos count : Nat) : List Nat :=
  (content.drop pos).take count

/-- Whether `ifile.eof()` holds after that read: the file ended before
`count` bytes were extracted. -/
def ifstream_eof (content : List Nat) (pos count : Nat) : Bool :=
  decide (content.length - pos < count)

/-- The buffer after the read at `hdrSize` and the assignment of the flag
byte (file-send.cpp:40-43). -/
def sendFile_fill (buf : List Nat) (hdrSize : Nat) (data : List Nat) (isEof : Bool) :
    List Nat :=
  (store_at buf hdrSize data).set 0 ((if isEof then 2 else 0) ||| (if hdrSize > 1 then 1 else 0))

/-- The bytes of `const_buffer(buf.data() + shift, n + hdrSize)`
(file-send.cpp:47), `shift` being 0 there, after the read of `data`. -/
def sendFile_chunk (buf : List Nat) (hdrSize : Nat) (data : List Nat) (isEof : Bool) :
    List Nat :=
  (sendFile_fill buf hdrSize data isEof).take (data.length + hdrSize)

/-- How a file transfer ends within the iterations granted. -/
inductive Transfer where
  | returned (value : Bool) (w : World)
  | thrown (e : Thrown) (w : World)
  /-- The loop wants a further iteration beyond those granted. -/
  | out_of_fuel (w : World)
  deriving DecidableEq, Repr

/-- The world where a file transfer ends. -/
def Transfer.world : Transfer → World
  | .returned _ w => w
  | .thrown _ w => w
  | .out_of_fuel w => w

/-- The loop `while (n > 0)` of `sendFile` (file-send.cpp:46-63) on the
first `n + hdrSize` bytes of the buffer, for at most `fuel` iterations:
`returned true` when it is left by `break`, `returned false` when the
function returns false. -/
def sendFile_write (env : Env) (dst : srt) (count : Nat) (chunk : List Nat) :
    Nat → World → Transfer
  | 0, w => .out_of_fuel w
  | fuel + 1, w =>
    match isocket.write env (.srt dst) count chunk (-1) w with
    | (.error e, w1) => .thrown e w1
    | (.ok st, w1) =>
      if st = 0 then sendFile_write env dst count chunk fuel w1
      else if st = SRT_ERROR then .returned false (w1.after_call env .srt_getlasterror_str)
      else if st ≠ (count : Int) then .returned false w1
      else .returned true w1

/-- The loop `while (!forceBreak)` of `sendFile` (file-send.cpp:39-72) on a
file holding `content`, read up to the position `pos`, for at most `fuel`
iterations. The model covers buffers longer than the header. -/
def sendFile_loop (env : Env) (content : List Nat) (dst : srt) :
    Nat → Nat → Nat → List Nat → World → Transfer
  | 0, _, _, _, w => .out_of_fuel w
  | fuel + 1, hdrSize, pos, buf, w =>
    if env.forceBreak w then .returned true w
    else if 0 < (ifstream_read content pos (buf.length - hdrSize)).length then
      match sendFile_write env dst
          ((ifstream_read content pos (buf.length - hdrSize)).length + hdrSize)
          (sendFile_chunk buf hdrSize (ifstream_read content pos (buf.length - hdrSize))
            (ifstream_eof content pos (buf.length - hdrSize)))
          (fuel + 1) w with
      | .returned true w1 =>
        if ifstream_eof content pos (buf.length - hdrSize) then .returned true w1
        else
          sendFile_loop env content dst fuel 1
            (pos + (ifstream_read content pos (buf.length - hdrSize)).length)
            (sendFile_fill buf hdrSize (ifstream_read content pos (buf.length - hdrSize))
              (ifstream_eof content pos (buf.length - hdrSize))) w1
      | other => other
    else if ifstream_eof content pos (buf.length - hdrSize) then .returned true w
    else
      sendFile_loop env content dst fuel hdrSize pos
        (sendFile_fill buf hdrSize [] (ifstream_eof content pos (buf.length - hdrSize))) w

/-- The function `sendFile` (file-send.cpp:24-82) with a buffer holding
`buf`, for at most `fuel` iterations of its loops; what it writes to `cerr`
is not recorded. -/
def sendFile (env : Env) (filename : String) (uploadName : List Nat) (dst : srt)
    (buf : List Nat) (fuel : Nat) (w : World) : Transfer :=
  match env.file filename with
  | none => .returned false w
  | some content =>
    sendFile_loop env content dst fuel (sendFile_header buf uploadName).1 0
      (sendFile_header buf uploadName).2 w

/-! ## Receiving files (file-receive.cpp:22-138) -/

/-- The function `createFolder` (file-receive.cpp:22-35).
`fs::create_directory(path, ec)` answers a positive value when it created the
directory, 0 when it did not and left `ec` clear, and a negative value when
it set `ec`. -/
def createFolder (env : Env) (path : String) (w : World) : Bool × World :=
  if 0 < env.ret w (.create_directory path) then
    (true, w.after_call env (.create_directory path))
  else if env.ret w (.create_directory path) < 0 then
    (false, w.after_call env (.create_directory path))
  else
    (true, w.after_call env (.create_directory path))

/-- The C string that starts a sequence of characters. -/
def c_str_chars (s : List Char) : List Char :=
  s.takeWhile (fun c => c.toNat != 0)

/-- The member `find(needle)` of `std::string` on what is left of the string
from the position `i` on: the first position where `needle` occurs, `none`
for `npos`. -/
def find_from (needle : List Char) : List Char → Nat → Option Nat
  | [], i => if needle.isEmpty then some i else none
  | c :: cs, i =>
    if needle.isPrefixOf (c :: cs) then some i else find_from needle cs (i + 1)

/-- The member `find_first_of(set, pos)` of `std::string` on what is left
of the string from the position `i` on. -/
def find_first_of_from (set : List Char) : List Char → Nat → Nat → Option Nat
  | [], _, _ => none
  | c :: cs, i, pos =>
    if pos ≤ i && set.contains c then some i else find_first_of_from set cs (i + 1) pos

/-- The member `find_last_of(set)` of `std::string` on what is left of the
string from the position `i` on. -/
def find_last_of_from (set : List Char) : List Char → Nat → Option Nat
  | [], _ => none
  | c :: cs, i =>
    match find_last_of_from set cs (i + 1) with
    | some j => some j
    | none => if set.contains c then some i else none

/-- The member `substr(0, pos)` of `std::string`. -/
def substr_to (s : List Char) (pos : Option Nat) : List Char :=
  match pos with
  | none => s
  | some q => s.take q

/-- The position where `createSubfolders` starts (file-receive.cpp:38-43):
2 past the first "./", for want of one 2 past the first ".\", else 0. -/
def start_offset (path : List Char) : Nat :=
  match (match find_from ['.', '/'] path 0 with
         | some found => some found
         | none => find_from ['.', '\\'] path 0) with
  | some found => found + 2
  | none => 0

/-- The loop of `createSubfolders` (file-receive.cpp:50-55), for at most
`fuel` iterations; `none` when they are used up. -/
def createSubfolders_loop (env : Env) (path : List Char) (lastDelim : Nat) :
    Nat → Option Nat → World → Option Bool × World
  | 0, _, w => (none, w)
  | fuel + 1, pos, w =>
    match pos with
    | none => (some true, w)
    | some p =>
      if p = lastDelim then (some true, w)
      else
        match createFolder env
            (String.mk (c_str_chars (substr_to path
              (find_first_of_from ['\\', '/'] path 0 (p + 1))))) w with
        | (true, w1) =>
          createSubfolders_loop env path lastDelim fuel
            (find_first_of_from ['\\', '/'] path 0 (p + 1)) w1
        | (false, w1) => (some false, w1)

/-- The function `createSubfolders` (file-receive.cpp:37-58), for at most
`fuel` iterations of its loop. -/
def createSubfolders (env : Env) (path : String) (fuel : Nat) (w : World) :
    Option Bool × World :=
  match find_last_of_from ['/', '\\'] path.data 0 with
  | none => (some true, w)
  | some lastDelim =>
    if lastDelim < start_offset path.data then (some true, w)
    else createSubfolders_loop env path.data lastDelim fuel (some (start_offset path.data)) w

/-- What `receiveFiles` reads in the header of a message (file-receive.cpp:76-85). -/
structure ChunkHeader where
  isFirst : Bool
  isEof : Bool
  filename : List Nat
  hdrSize : Nat
  deriving DecidableEq, Repr

/-- The header of the message in the buffer (file-receive.cpp:76-78,81-85). A
name that no NUL ends within the buffer is outside the model. -/
def receiveFiles_header (buf : List Nat) : ChunkHeader :=
  if buf.headD 0 &&& 1 != 0 then
    { isFirst := true, isEof := buf.headD 0 &&& 2 != 0, filename := c_str (buf.drop 1),
      hdrSize := 1 + ((c_str (buf.drop 1)).length + 1) }
  else
    { isFirst := false, isEof := buf.headD 0 &&& 2 != 0, filename := [], hdrSize := 1 }

/-- The bytes `ofile.write(buf.data() + hdrSize, bytes - hdrSize)` writes
(file-receive.cpp:109). A message shorter than its header is outside the model. -/
def receiveFiles_payload (buf : List Nat) (bytes hdrSize : Nat) : List Nat :=
  (buf.drop hdrSize).take (bytes - hdrSize)

/-- The text a sequence of bytes stands for, a character for each byte. -/
def bytes_to_string (bytes : List Nat) : String :=
  String.mk (bytes.map Char.ofNat)

/-- An `ofstream`: whether a file is open and whether a failure bit is set. -/
structure ofstream where
  is_open : Bool := false
  fail : Bool := false
  deriving DecidableEq, Repr

/-- The member `close()`: on a stream with no file open it sets the failure bit. -/
def ofstream.close (ofile : ofstream) (w : World) : ofstream × World :=
  if ofile.is_open then ({ ofile with is_open := false }, w.record .ofile_close)
  else ({ ofile with fail := true }, w)

/-- The member `open(path, mode)`: the environment answers 0 when the file
opens, which clears the failure bits. -/
def ofstream.open (env : Env) (ofile : ofstream) (path : String) (w : World) :
    ofstream × World :=
  if ofile.is_open then ({ ofile with fail := true }, w)
  else if env.ret w (.ofstream_open path) = 0 then
    ({ is_open := true, fail := false }, w.after_call env (.ofstream_open path))
  else ({ ofile with fail := true }, w.after_call env (.ofstream_open path))

/-- The member `write(data, size)`. -/
def ofstream.write (ofile : ofstream) (data : List Nat) (w : World) : ofstream × World :=
  if ofile.is_open then (ofile, w.record (.ofile_write data))
  else ({ ofile with fail := true }, w)

/-- The end of the body of the loop of `receiveFiles` (file-receive.cpp:103-127). -/
def receiveFiles_store (ofile : ofstream) (buf : List Nat) (bytes hdrSize : Nat)
    (isEof : Bool) (w : World) : ofstream × World :=
  if ofile.fail then (ofile, w)
  else if isEof then
    (ofile.write (receiveFiles_payload buf bytes hdrSize) w).1.close
      (ofile.write (receiveFiles_payload buf bytes hdrSize) w).2
  else ofile.write (receiveFiles_payload buf bytes hdrSize) w

/-- The loop of `receiveFiles` (file-receive.cpp:69-135), for at most `fuel`
iterations. -/
def receiveFiles_loop (env : Env) (src : srt) (dstPath : String) :
    Nat → ofstream → List Nat → World → Transfer
  | 0, _, _, w => .out_of_fuel w
  | fuel + 1, ofile, buf, w =>
    if env.forceBreak w then .returned true w
    else
      match isocket.read env (.srt src) buf (-1) w with
      | (.error e, w1) => .thrown e w1
      | (.ok (bytes, buf1), w1) =>
        if bytes = 0 then receiveFiles_loop env src dstPath fuel ofile buf1 w1
        else if (receiveFiles_header buf1).isFirst then
          match createSubfolders env (dstPath ++ bytes_to_string (receiveFiles_header buf1).filename)
              ((dstPath ++ bytes_to_string (receiveFiles_header buf1).filename).length + 1)
              (ofile.close w1).2 with
          | (none, w2) => .out_of_fuel w2
          | (some false, w2) => .returned false w2
          | (some true, w2) =>
            if ((ofile.close w1).1.open env
                (String.mk (c_str_chars
                  (dstPath ++ bytes_to_string (receiveFiles_header buf1).filename).data))
                w2).1.fail then
              .returned true ((ofile.close w1).1.open env
                (String.mk (c_str_chars
                  (dstPath ++ bytes_to_string (receiveFiles_header buf1).filename).data))
                w2).2
            else
              receiveFiles_loop env src dstPath fuel
                (receiveFiles_store ((ofile.close w1).1.open env
                    (String.mk (c_str_chars
                      (dstPath ++ bytes_to_string (receiveFiles_header buf1).filename).data))
                    w2).1 buf1 bytes (receiveFiles_header buf1).hdrSize
                  (receiveFiles_header buf1).isEof
                  ((ofile.close w1).1.open env
                    (String.mk (c_str_chars
                      (dstPath ++ bytes_to_string (receiveFiles_header buf1).filename).data))
                    w2).2).1
                buf1
                (receiveFiles_store ((ofile.close w1).1.open env
                    (String.mk (c_str_chars
                      (dstPath ++ bytes_to_string (receiveFiles_header buf1).filename).data))
                    w2).1 buf1 bytes (receiveFiles_header buf1).hdrSize
                  (receiveFiles_header buf1).isEof
                  ((ofile.close w1).1.open env
                    (String.mk (c_str_chars
                      (dstPath ++ bytes_to_string (receiveFiles_header buf1).filename).data))
                    w2).2).2
        else
          receiveFiles_loop env src dstPath fuel
            (receiveFiles_store ofile buf1 bytes 1 (receiveFiles_header buf1).isEof w1).1 buf1
            (receiveFiles_store ofile buf1 bytes 1 (receiveFiles_header buf1).isEof w1).2

/-- The function `receiveFiles` (file-receive.cpp:60-138) with a buffer
holding `buf`, for at most `fuel` iterations of its loop; what it writes to
`cerr` is not recorded. -/
def receiveFiles (env : Env) (src : srt) (dstPath : String) (buf : List Nat) (fuel : Nat)
    (w : World) : Transfer :=
  receiveFiles_loop env src dstPath fuel {} buf w

/-! ## Observing a file transfer -/

/-- A file of the bytes `content` under every name, and a peer that takes
every message whole. -/
def upload_env (content : List Nat) : Env :=
  { demo_env with
    file := fun _ => some content
    ret := fun w c =>
      match c with
      | .srt_sendmsg2 _ data => data.length
      | other => demo_env.ret w other }

/-- A peer whose messages are `messages`, one for each read, and a
cancellation flag set once they are all read. -/
def download_env (messages : List (List Nat)) : Env :=
  { demo_env with
    ret := fun w c =>
      match c with
      | .srt_recvmsg2 _ _ => ((messages.getD (reads w.trace).length []).length : Int)
      | other => demo_env.ret w other
    received := fun w _ => messages.getD (reads w.trace).length []
    forceBreak := fun w => decide (messages.length ≤ (reads w.trace).length) }

/-- What a trace holds of folders and files: the folders and files opened,
the data written and the closings. -/
def file_events (trace : List (Nat × Event)) : List Event :=
  trace.filterMap (fun ev =>
    match ev.2 with
    | .call (.create_directory path) ret => some (.call (.create_directory path) ret)
    | .call (.ofstream_open path) ret => some (.call (.ofstream_open path) ret)
    | .ofile_write data => some (.ofile_write data)
    | .ofile_close => some .ofile_close
    | _ => none)

/-- Whether a character is one of the delimiters of `createSubfolders`. -/
def is_delimiter (c : Char) : Bool := c == '/' || c == '\\'

/-- The positions of the delimiters located after the position `start`, in
increasing order, in what is left of the path from the position `i` on. -/
def delimiters_from : List Char → Nat → Nat → List Nat
  | [], _, _ => []
  | c :: cs, i, start =>
    if start < i && is_delimiter c then i :: delimiters_from cs (i + 1) start
    else delimiters_from cs (i + 1) start

/-- The folders the rule names for a path: for each delimiter located after
the start offset, the C string of the prefix that ends just before it. -/
def folders_by_rule (path : String) : List String :=
  (delimiters_from path.data 0 (start_offset path.data)).map
    (fun q => String.mk (c_str_chars (path.data.take q)))

/-- The calls of `createFolder` on a list of folders in order, up to the
first that fails. -/
def createFolders (env : Env) : List String → World → Bool × World
  | [], w => (true, w)
  | folder :: rest, w =>
    match createFolder env folder w with
    | (true, w1) => createFolders env rest w1
    | (false, w1) => (false, w1)

/-- The folders `create_directory` was called on, in order. -/
def created_folders (trace : List (Nat × Event)) : List String :=
  trace.filterMap (fun ev =>
    match ev.2 with
    | .call (.create_directory path) _ => some path
    | _ => none)

/-! ## The generator as a processing callback (generate.cpp:107-112) -/

/-- The end of a function that is used as a processing callback: a run that
used up the iterations granted to it leaves with `out_of_fuel`. -/
def Ended.as_callback : Ended → Except Thrown Unit × World
  | .returned w => (.ok (), w)
  | .thrown e w => (.error e, w)
  | .out_of_fuel w => (.error .out_of_fuel, w)

/-- The callback `std::bind(run_pipe, _1, cfg, _2)` of `generate::run`
(generate.cpp:110); each invocation is granted `fuel` iterations of the loop
of `run_pipe`. -/
def generate.process_fn (env : Env) (cfg : generate.config) (fuel : Nat) : isocket → M Unit :=
  fun conn w => (run_pipe env conn cfg fuel w).as_callback

/-- The function `generate::run` (generate.cpp:107-112), for at most `fuel`
iterations of each loop. -/
def generate.run (env : Env) (dst_urls : List String) (cfg : generate.config) (fuel : Nat)
    (w : World) : Run :=
  common_run env dst_urls cfg.tostats_config cfg.reconnect cfg.close_listener
    (generate.process_fn env cfg fuel) fuel w

/-- Two messages of two bytes. -/
def two_messages : generate.config := { num_messages := 2, message_size := 2 }

/-- A listener whose URI has `bind=nohost:5000`, a name that `demo_env` does
not resolve. -/
def bound_unresolved : srt :=
  { m_bind_socket := 7, m_mode := LISTENER, m_host := "", m_port := 4200,
    m_options := [("bind", "nohost:5000")] }

/-! ## Theorems -/

theorem opt_found_iff (tbl : List SocketOption) (key : String) :
    opt_found tbl key = true ↔ ∃ o ∈ tbl, o.name = key := by
  induction tbl with
  | nil => simp [opt_found]
  | cons o rest ih =>
    by_cases h : o.name = key
    · simp [opt_found, h]
    · simp [opt_found, h, ih]

/-- A key is known when the table or the extra set has it. -/
theorem known_iff (tbl : List SocketOption) (extra : List String) (key : String) :
    (opt_found tbl key || extra.contains key) = true ↔
      ((∃ o ∈ tbl, o.name = key) ∨ key ∈ extra) := by
  simp [opt_found_iff]

theorem assert_options_valid_ok_iff (tbl : List SocketOption) (options : StrMap)
    (extra : List String) :
    assert_options_valid tbl options extra = .ok () ↔
      ∀ el ∈ options, (∃ o ∈ tbl, o.name = el.1) ∨ el.1 ∈ extra := by
  induction options with
  | nil => simp [assert_options_valid]
  | cons el rest ih =>
    obtain ⟨key, val⟩ := el
    by_cases hk : (opt_found tbl key || extra.contains key) = true
    · have h3 := (known_iff tbl extra key).1 hk
      simp only [assert_options_valid, hk, if_true, ih]
      simp [h3]
    · have h3 : ¬ ((∃ o ∈ tbl, o.name = key) ∨ key ∈ extra) :=
        fun h => hk ((known_iff tbl extra key).2 h)
      simp only [assert_options_valid, hk]
      simp [h3]

theorem assert_options_valid_error_iff (tbl : List SocketOption) (options : StrMap)
    (extra : List String) :
    (∃ msg, assert_options_valid tbl options extra = .error (.socket_exception msg)) ↔
      ∃ el ∈ options, (∀ o ∈ tbl, o.name ≠ el.1) ∧ el.1 ∉ extra := by
  induction options with
  | nil => simp [assert_options_valid]
  | cons el rest ih =>
    obtain ⟨key, val⟩ := el
    by_cases hk : (opt_found tbl key || extra.contains key) = true
    · have h3 := (known_iff tbl extra key).1 hk
      have h4 : ¬ ((∀ o ∈ tbl, o.name ≠ key) ∧ key ∉ extra) := by
        rintro ⟨h1, h2⟩
        rcases h3 with ⟨o, ho, hn⟩ | h
        · exact h1 o ho hn
        · exact h2 h
      simp only [assert_options_valid, hk, if_true, ih]
      simp [h4]
    · have h3 : (∀ o ∈ tbl, o.name ≠ key) ∧ key ∉ extra := by
        refine ⟨fun o ho hn => hk ((known_iff tbl extra key).2 (Or.inl ⟨o, ho, hn⟩)),
          fun h => hk ((known_iff tbl extra key).2 (Or.inr h))⟩
      simp only [assert_options_valid, hk]
      constructor
      · intro _
        exact ⟨(key, val), by simp, h3⟩
      · intro _
        exact ⟨_, rfl⟩

/-- C1: `assert_options_valid(options, extra)` throws a `socket::exception`
exactly when some key of the bag is neither the name of a table entry nor a
member of `extra`, and returns normally exactly when every key is known; the
endpoint's own check uses `extra = {"bind", "mode"}`. -/
theorem assert_options_valid_throws_iff (tbl : List SocketOption) (options : StrMap)
    (extra : List String) :
    ((∃ msg, assert_options_valid tbl options extra = .error (.socket_exception msg)) ↔
        ∃ el ∈ options, (∀ o ∈ tbl, o.name ≠ el.1) ∧ el.1 ∉ extra) ∧
    (assert_options_valid tbl options extra = .ok () ↔
        ∀ el ∈ options, (∃ o ∈ tbl, o.name = el.1) ∨ el.1 ∈ extra) ∧
    (assert_member_options_valid tbl options =
        assert_options_valid tbl options ["bind", "mode"]) :=
  ⟨assert_options_valid_error_iff tbl options extra,
    assert_options_valid_ok_iff tbl options extra, rfl⟩

/-! ### Stepping through computations -/

@[simp] theorem bind_eq_M {α β : Type} (m : M α) (f : α → M β) : (m >>= f) = M.bind m f := rfl

@[simp] theorem pure_eq_M {α : Type} (a : α) : (pure a : M α) = M.pure a := rfl

theorem StrMap.at_of_count (m : StrMap) (key : String) (h : m.count key ≠ 0) :
    ∃ v, m.at key = .ok v := by
  unfold StrMap.count at h
  unfold StrMap.at
  cases hf : List.find? (fun el => el.1 == key) m with
  | some el => exact ⟨el.2, rfl⟩
  | none =>
    exfalso
    apply h
    rw [List.find?_eq_none] at hf
    have : m.any (fun el => el.1 == key) = false := by
      rw [List.any_eq_false]
      intro x hx
      simpa using hf x hx
    simp [this]

/-! ### What the factory appends to the trace -/

theorem Ext.refl (P : Event → Bool) (w : World) : Ext P w w :=
  ⟨[], by simp, by simp⟩

theorem Ext.trans {P : Event → Bool} {w w1 w2 : World} (h1 : Ext P w w1) (h2 : Ext P w1 w2) :
    Ext P w w2 := by
  obtain ⟨n1, e1, p1⟩ := h1
  obtain ⟨n2, e2, p2⟩ := h2
  refine ⟨n1 ++ n2, by rw [e2, e1, List.append_assoc], ?_⟩
  intro ev hev
  rcases List.mem_append.1 hev with h | h
  · exact p1 ev h
  · exact p2 ev h

theorem Ext.mono {P Q : Event → Bool} (hPQ : ∀ e, P e = true → Q e = true) {w w1 : World}
    (h : Ext P w w1) : Ext Q w w1 := by
  obtain ⟨n, e, p⟩ := h
  exact ⟨n, e, fun ev hev => hPQ _ (p ev hev)⟩

theorem Ext.record {P : Event → Bool} (w : World) (e : Event) (h : P e = true) :
    Ext P w (w.record e) :=
  ⟨[(w.now, e)], rfl, by simpa using h⟩

theorem Appends.weaken {α : Type} {P Q : Event → Bool} (hPQ : ∀ e, P e = true → Q e = true)
    {m : M α} (h : Appends P m) : Appends Q m :=
  fun w => (h w).mono hPQ

theorem Appends.pure {α : Type} (P : Event → Bool) (a : α) : Appends P (pure a : M α) :=
  fun w => Ext.refl P w

theorem Appends.throw {α : Type} (P : Event → Bool) (e : Thrown) : Appends P (M.throw e : M α) :=
  fun w => Ext.refl P w

theorem Appends.lift {α : Type} (P : Event → Bool) (x : Except Thrown α) :
    Appends P (M.lift x) :=
  fun w => Ext.refl P w

theorem Appends.bind {α β : Type} {P : Event → Bool} {m : M α} {f : α → M β}
    (hm : Appends P m) (hf : ∀ a, Appends P (f a)) : Appends P (m >>= f) := by
  intro w
  have h1 := hm w
  show Ext P w (M.bind m f w).2
  unfold M.bind
  cases hmw : m w with
  | mk r w1 =>
    rw [hmw] at h1
    cases r with
    | error e => exact h1
    | ok a => exact h1.trans (hf a w1)

theorem Appends.call {P : Event → Bool} (env : Env) (c : Call)
    (h : ∀ r, P (.call c r) = true) : Appends P (call env c) :=
  fun w => ⟨[(w.now, .call c (env.ret w c))], rfl, by simpa using h _⟩

theorem Appends.call_failures {P : Event → Bool} (env : Env) (c : Call)
    (h : ∀ r, P (.call c r) = true) : Appends P (call_failures env c) :=
  fun w => ⟨[(w.now, .call c (env.ret w c))], rfl, by simpa using h _⟩

theorem Appends.emit {P : Event → Bool} (e : Event) (h : P e = true) : Appends P (emit e) :=
  fun w => Ext.record w e h

theorem Appends.srt_getlasterror_str {P : Event → Bool} (env : Env)
    (h : ∀ r, P (.call .srt_getlasterror_str r) = true) : Appends P (srt_getlasterror_str env) :=
  fun w => ⟨[(w.now, .call .srt_getlasterror_str 0)], rfl, by simpa using h _⟩

theorem Appends.ite {α : Type} {P : Event → Bool} {c : Prop} [Decidable c] {m1 m2 : M α}
    (h1 : Appends P m1) (h2 : Appends P m2) : Appends P (if c then m1 else m2) := by
  split
  · exact h1
  · exact h2

theorem raise_exception_appends {α : Type} (P : Event → Bool) (env : Env) (place : String)
    (h1 : ∀ r, P (.call .srt_getlasterror r) = true)
    (h2 : ∀ r, P (.call .srt_getlasterror_str r) = true) :
    Appends P (raise_exception env place : M α) := by
  unfold raise_exception
  exact Appends.bind (Appends.call env _ h1) fun _ =>
    Appends.bind (Appends.srt_getlasterror_str env h2) fun _ => Appends.throw _ _

theorem throw_lasterror_appends {α : Type} (P : Event → Bool) (env : Env)
    (h2 : ∀ r, P (.call .srt_getlasterror_str r) = true) :
    Appends P (throw_lasterror env : M α) := by
  unfold throw_lasterror
  exact Appends.bind (Appends.srt_getlasterror_str env h2) fun _ => Appends.throw _ _

theorem configure_post_appends (env : Env) (self : srt) (sock : Int) :
    Appends Event.of_accept (srt.configure_post env self sock) := by
  unfold srt.configure_post
  refine Appends.bind (Appends.call env _ (fun _ => rfl)) fun r => ?_
  refine Appends.ite (Appends.pure _ _) ?_
  refine Appends.bind (Appends.call env _ (fun _ => rfl)) fun r2 => ?_
  refine Appends.ite (Appends.pure _ _) ?_
  refine Appends.bind (Appends.call_failures env _ (fun _ => rfl)) fun x => ?_
  obtain ⟨a, failures⟩ := x
  refine Appends.ite ?_ (Appends.pure _ _)
  exact Appends.bind (Appends.emit _ rfl) fun _ => Appends.pure _ _


theorem of_accept_of_factory (e : Event) (h : Event.of_accept e = true) :
    Event.of_factory e = true := by
  cases e with
  | call c r => cases c <;> simp_all [Event.of_accept, Event.of_factory]
  | _ => simp_all [Event.of_accept, Event.of_factory]

theorem ctor_accepted_appends (env : Env) (sock : Int) (blocking : Bool) :
    Appends Event.of_accept (srt.ctor_accepted env sock blocking) := by
  unfold srt.ctor_accepted
  refine Appends.ite ?_ (Appends.pure _ _)
  refine Appends.bind (Appends.call env _ (fun _ => rfl)) fun eid => ?_
  refine Appends.bind (Appends.call env _ (fun _ => rfl)) fun added => ?_
  exact Appends.ite (throw_lasterror_appends _ env (fun _ => rfl)) (Appends.pure _ _)

theorem accept_ready_appends (env : Env) (self : srt) :
    Appends Event.of_accept (srt.accept_ready env self) := by
  unfold srt.accept_ready
  refine Appends.bind (Appends.call env _ (fun _ => rfl)) fun sock => ?_
  refine Appends.ite (raise_exception_appends _ env _ (fun _ => rfl) (fun _ => rfl)) ?_
  refine Appends.bind (configure_post_appends env self sock) fun res => ?_
  exact Appends.ite (raise_exception_appends _ env _ (fun _ => rfl) (fun _ => rfl))
    (ctor_accepted_appends env sock _)

theorem accept_appends (env : Env) (self : srt) :
    Appends Event.of_accept (srt.accept env self) := by
  unfold srt.accept
  refine Appends.ite ?_ (accept_ready_appends env self)
  refine Appends.bind (Appends.call env _ (fun _ => rfl)) fun waited => ?_
  exact Appends.ite (raise_exception_appends _ env _ (fun _ => rfl) (fun _ => rfl))
    (accept_ready_appends env self)

theorem configure_pre_appends (env : Env) (self : srt) (sock : Int) :
    Appends Event.of_factory (srt.configure_pre env self sock) := by
  unfold srt.configure_pre
  refine Appends.bind (Appends.call env _ (fun _ => rfl)) fun r => ?_
  refine Appends.ite (Appends.pure _ _) ?_
  refine Appends.bind (Appends.call_failures env _ (fun _ => rfl)) fun x => ?_
  obtain ⟨conmode, failures⟩ := x
  refine Appends.ite (Appends.throw _ _) ?_
  refine Appends.ite ?_ (Appends.pure _ _)
  refine Appends.bind (Appends.call env _ (fun _ => rfl)) fun r2 => ?_
  exact Appends.ite (Appends.pure _ _) (Appends.pure _ _)

theorem bind_me_appends (env : Env) (self : srt) (sa : netaddr_any) :
    Appends Event.of_factory (srt.bind_me env self sa) := by
  unfold srt.bind_me
  refine Appends.bind (Appends.call env _ (fun _ => rfl)) fun r => ?_
  refine Appends.ite ?_ (Appends.pure _ _)
  refine Appends.bind (Appends.call env _ (fun _ => rfl)) fun _ => ?_
  exact raise_exception_appends _ env _ (fun _ => rfl) (fun _ => rfl)

theorem handle_hosts_appends (env : Env) (self : srt) :
    Appends Event.of_factory (srt.handle_hosts env self) := by
  unfold srt.handle_hosts
  refine Appends.ite ?_ (Appends.ite ?_ (Appends.ite ?_ (Appends.pure _ _)))
  · refine Appends.bind (Appends.lift _ _) fun value => ?_
    refine Appends.bind (Appends.lift _ _) fun bindport => ?_
    exact Appends.bind (bind_me_appends env _ _) fun _ => Appends.pure _ _
  · exact Appends.bind (bind_me_appends env _ _) fun _ => Appends.pure _ _
  · exact Appends.bind (bind_me_appends env _ _) fun _ => Appends.pure _ _

theorem ctor_appends (env : Env) (src_uri : UriParser) :
    Appends Event.of_factory (srt.ctor env src_uri) := by
  unfold srt.ctor
  refine Appends.bind (Appends.call env _ (fun _ => rfl)) fun sock => ?_
  refine Appends.ite (throw_lasterror_appends _ env (fun _ => rfl)) ?_
  refine Appends.bind ?_ fun self2 => ?_
  · refine Appends.ite ?_ (Appends.pure _ _)
    exact Appends.bind (Appends.lift _ _) fun _ => Appends.pure _ _
  refine Appends.bind (Appends.lift _ _) fun _ => ?_
  refine Appends.bind (configure_pre_appends env _ _) fun x => ?_
  obtain ⟨pre, self3⟩ := x
  refine Appends.ite (throw_lasterror_appends _ env (fun _ => rfl)) ?_
  refine Appends.ite ?_ (handle_hosts_appends env _)
  refine Appends.bind (Appends.call env _ (fun _ => rfl)) fun eid => ?_
  refine Appends.ite (throw_lasterror_appends _ env (fun _ => rfl)) ?_
  refine Appends.bind (Appends.call env _ (fun _ => rfl)) fun added => ?_
  refine Appends.ite (throw_lasterror_appends _ env (fun _ => rfl)) ?_
  refine Appends.bind (Appends.call env _ (fun _ => rfl)) fun eid2 => ?_
  refine Appends.bind (Appends.call env _ (fun _ => rfl)) fun added2 => ?_
  exact Appends.ite (throw_lasterror_appends _ env (fun _ => rfl)) (handle_hosts_appends env _)

theorem listen_appends (env : Env) (self : srt) :
    Appends Event.of_factory (srt.listen env self) := by
  unfold srt.listen
  refine Appends.bind (Appends.call env _ (fun _ => rfl)) fun res => ?_
  refine Appends.ite ?_ ?_
  · refine Appends.bind (Appends.call env _ (fun _ => rfl)) fun _ => ?_
    exact raise_exception_appends _ env _ (fun _ => rfl) (fun _ => rfl)
  · refine Appends.bind ((configure_post_appends env self _).weaken of_accept_of_factory) fun r => ?_
    exact Appends.ite (raise_exception_appends _ env _ (fun _ => rfl) (fun _ => rfl))
      (Appends.pure _ _)

theorem connect_ready_appends (env : Env) (self : srt) :
    Appends Event.of_factory (srt.connect_ready env self) := by
  unfold srt.connect_ready
  refine Appends.bind ((configure_post_appends env self _).weaken of_accept_of_factory) fun r => ?_
  exact Appends.ite (raise_exception_appends _ env _ (fun _ => rfl) (fun _ => rfl))
    (Appends.pure _ _)

theorem connect_appends (env : Env) (self : srt) :
    Appends Event.of_factory (srt.connect env self) := by
  unfold srt.connect
  refine Appends.bind (Appends.call env _ (fun _ => rfl)) fun res => ?_
  refine Appends.ite ?_ (Appends.ite ?_ (connect_ready_appends env self))
  · refine Appends.bind (Appends.call env _ (fun _ => rfl)) fun reason => ?_
    refine Appends.bind (Appends.call env _ (fun _ => rfl)) fun _ => ?_
    refine Appends.bind (Appends.srt_getlasterror_str env (fun _ => rfl)) fun message => ?_
    exact Appends.throw _ _
  · refine Appends.bind (Appends.call env _ (fun _ => rfl)) fun waited => ?_
    refine Appends.ite ?_ (raise_exception_appends _ env _ (fun _ => rfl) (fun _ => rfl))
    refine Appends.bind (Appends.call env _ (fun _ => rfl)) fun state => ?_
    refine Appends.ite ?_ (connect_ready_appends env self)
    refine Appends.bind (Appends.call env _ (fun _ => rfl)) fun reason => ?_
    exact Appends.throw _ _


theorem udp_ctor_appends (env : Env) (uri : UriParser) :
    Appends Event.of_factory (udp.ctor env uri) := by
  unfold udp.ctor
  refine Appends.bind (Appends.call env _ (fun _ => rfl)) fun id => ?_
  exact Appends.ite (throw_lasterror_appends _ env (fun _ => rfl)) (Appends.pure _ _)

theorem group_ctor_appends (env : Env) (uris : List UriParser) :
    Appends Event.of_factory (srt_group.ctor env uris) := by
  unfold srt_group.ctor
  refine Appends.bind (Appends.call env _ (fun _ => rfl)) fun id => ?_
  refine Appends.ite (throw_lasterror_appends _ env (fun _ => rfl)) ?_
  exact Appends.bind (Appends.call env _ (fun _ => rfl)) fun _ => Appends.pure _ _

theorem group_listen_appends (env : Env) (g : srt_group) :
    Appends Event.of_factory (srt_group.listen env g) := by
  unfold srt_group.listen
  refine Appends.bind (Appends.call env _ (fun _ => rfl)) fun id => ?_
  exact Appends.ite (throw_lasterror_appends _ env (fun _ => rfl)) (Appends.pure _ _)

theorem group_accept_appends (env : Env) (g : srt_group) :
    Appends Event.of_factory (srt_group.accept env g) := by
  unfold srt_group.accept
  refine Appends.bind (Appends.call env _ (fun _ => rfl)) fun id => ?_
  exact Appends.ite (throw_lasterror_appends _ env (fun _ => rfl)) (Appends.pure _ _)

theorem group_connect_appends (env : Env) (g : srt_group) :
    Appends Event.of_factory (srt_group.connect env g) := by
  unfold srt_group.connect
  refine Appends.bind (Appends.call env _ (fun _ => rfl)) fun id => ?_
  exact Appends.ite (throw_lasterror_appends _ env (fun _ => rfl)) (Appends.pure _ _)

theorem held_or_new_srt_appends (env : Env) (uri : UriParser) (slot : shared_sock_t) :
    Appends Event.of_factory (held_or_new_srt env uri slot) := by
  unfold held_or_new_srt
  refine Appends.ite ?_ (Appends.pure _ _)
  exact Appends.bind (ctor_appends env uri) fun _ => Appends.pure _ _

theorem held_or_new_group_appends (env : Env) (uris : List UriParser) (slot : shared_sock_t) :
    Appends Event.of_factory (held_or_new_group env uris slot) := by
  unfold held_or_new_group
  refine Appends.ite ?_ (Appends.pure _ _)
  exact Appends.bind (group_ctor_appends env uris) fun _ => Appends.pure _ _

theorem listen_step_ext (env : Env) (s : srt) (b : Bool) (w : World) :
    Ext Event.of_factory w (if b then srt.listen env s w else (Except.ok (), w)).2 := by
  split
  · exact listen_appends env s w
  · exact Ext.refl _ _

theorem accept_connect_step_ext (env : Env) (s : srt) (b : Bool) (w : World) :
    Ext Event.of_factory w (if b then srt.accept env s w else srt.connect env s w).2 := by
  split
  · exact (accept_appends env s w).mono of_accept_of_factory
  · exact connect_appends env s w

theorem create_connection_srt_on_ext (env : Env) (s : srt) (isListening : Bool) (w : World) :
    Ext Event.of_factory w (create_connection_srt_on env s isListening w).world := by
  unfold create_connection_srt_on
  dsimp only
  have hl := listen_step_ext env s (s.mode == LISTENER && !isListening) w
  split
  · rename_i e w1 heq
    rw [heq] at hl
    exact hl
  · rename_i w1 heq
    rw [heq] at hl
    have ha := accept_connect_step_ext env s (s.mode == LISTENER) w1
    split
    · rename_i what w2 heq2
      rw [heq2] at ha
      exact hl.trans ha
    · rename_i e w2 _ heq2
      rw [heq2] at ha
      exact hl.trans ha
    · rename_i c w2 heq2
      rw [heq2] at ha
      split <;> exact hl.trans ha

theorem group_listen_step_ext (env : Env) (s : srt_group) (b : Bool) (w : World) :
    Ext Event.of_factory w (if b then srt_group.listen env s w else (Except.ok (), w)).2 := by
  split
  · exact group_listen_appends env s w
  · exact Ext.refl _ _

theorem group_accept_connect_step_ext (env : Env) (s : srt_group) (b : Bool) (w : World) :
    Ext Event.of_factory w
      (if b then srt_group.accept env s w else srt_group.connect env s w).2 := by
  split
  · exact group_accept_appends env s w
  · exact group_connect_appends env s w

theorem create_connection_group_on_ext (env : Env) (s : srt_group) (w : World) :
    Ext Event.of_factory w (create_connection_group_on env s w).world := by
  unfold create_connection_group_on
  dsimp only
  have hl := group_listen_step_ext env s (s.m_mode == LISTENER) w
  split
  · rename_i e w1 heq
    rw [heq] at hl
    exact hl
  · rename_i w1 heq
    rw [heq] at hl
    have ha := group_accept_connect_step_ext env s (s.m_mode == LISTENER) w1
    split
    · rename_i e w2 heq2
      rw [heq2] at ha
      exact hl.trans ha
    · rename_i c w2 heq2
      rw [heq2] at ha
      split <;> exact hl.trans ha

theorem create_connection_srt_ext (env : Env) (uri : UriParser) (slot : shared_sock_t)
    (w : World) : Ext Event.of_factory w (create_connection_srt env uri slot w).world := by
  unfold create_connection_srt
  dsimp only
  have h := held_or_new_srt_appends env uri slot w
  split
  · rename_i e w1 heq
    rw [heq] at h
    exact h
  · rename_i s w1 heq
    rw [heq] at h
    exact h.trans (create_connection_srt_on_ext env s _ w1)
  · rename_i sl w1 _ heq
    rw [heq] at h
    exact h

theorem create_connection_group_ext (env : Env) (urls : List UriParser) (slot : shared_sock_t)
    (w : World) : Ext Event.of_factory w (create_connection_group env urls slot w).world := by
  unfold create_connection_group
  split
  · have h := held_or_new_group_appends env urls slot w
    split
    · rename_i e w1 heq
      rw [heq] at h
      exact h
    · rename_i s w1 heq
      rw [heq] at h
      exact h.trans (create_connection_group_on_ext env s w1)
    · rename_i sl w1 _ heq
      rw [heq] at h
      exact h
  · exact Ext.refl _ _

theorem create_connection_ext (env : Env) (urls : List UriParser) (slot : shared_sock_t)
    (w : World) : Ext Event.of_factory w (create_connection env urls slot w).world := by
  unfold create_connection
  cases urls with
  | nil => exact Ext.refl _ _
  | cons uri more =>
    dsimp only
    split
    · exact create_connection_group_ext env _ slot w
    · split
      · have h := udp_ctor_appends env uri w
        split
        · rename_i u w1 heq
          rw [heq] at h
          exact h
        · rename_i e w1 heq
          rw [heq] at h
          exact h
      · split
        · exact create_connection_srt_ext env uri slot w
        · exact Ext.refl _ _

/-! ### The endpoint constructor -/

/-- The exception of the option check names an entry of the bag whose key is
not known. -/
theorem assert_options_valid_error_form (tbl : List SocketOption) (options : StrMap)
    (extra : List String) (e : Thrown) (h : assert_options_valid tbl options extra = .error e) :
    ∃ el ∈ options, ((∀ o ∈ tbl, o.name ≠ el.1) ∧ el.1 ∉ extra) ∧
      e = .socket_exception
        ("Invalid URI query option '" ++ el.1 ++ "=" ++ el.2 ++ " (not recognized)!") := by
  induction options with
  | nil => simp [assert_options_valid] at h
  | cons el rest ih =>
    obtain ⟨key, val⟩ := el
    by_cases hk : (opt_found tbl key || extra.contains key) = true
    · simp only [assert_options_valid, hk, if_true] at h
      obtain ⟨el2, hel2, h2⟩ := ih h
      exact ⟨el2, List.mem_cons_of_mem _ hel2, h2⟩
    · have h3 : (∀ o ∈ tbl, o.name ≠ key) ∧ key ∉ extra := by
        refine ⟨fun o ho hn => hk ((known_iff tbl extra key).2 (Or.inl ⟨o, ho, hn⟩)),
          fun h => hk ((known_iff tbl extra key).2 (Or.inr h))⟩
      simp only [assert_options_valid, hk] at h
      refine ⟨(key, val), List.mem_cons_self _ _, h3, ?_⟩
      simpa using h.symm

/-- An unknown key other than "blocking" makes the endpoint's option check
fail, whether "blocking" was erased from the bag or not. -/
theorem assert_member_options_invalid (tbl : List SocketOption) (options : StrMap)
    (el : String × String) (hel : el ∈ options) (hb : el.1 ≠ "blocking")
    (htbl : ∀ o ∈ tbl, o.name ≠ el.1) (hextra : el.1 ≠ "bind" ∧ el.1 ≠ "mode") :
    (∃ bad ∈ options, assert_member_options_valid tbl options = .error (.socket_exception
      ("Invalid URI query option '" ++ bad.1 ++ "=" ++ bad.2 ++ " (not recognized)!"))) ∧
    (∃ bad ∈ options, assert_member_options_valid tbl (StrMap.erase options "blocking") =
      .error (.socket_exception
        ("Invalid URI query option '" ++ bad.1 ++ "=" ++ bad.2 ++ " (not recognized)!"))) := by
  unfold assert_member_options_valid
  constructor
  · obtain ⟨msg, hmsg⟩ := (assert_options_valid_error_iff tbl options ["bind", "mode"]).2
      ⟨el, hel, htbl, by simp [hextra.1, hextra.2]⟩
    obtain ⟨bad, hbad, _, hform⟩ := assert_options_valid_error_form _ _ _ _ hmsg
    exact ⟨bad, hbad, by rw [hmsg, hform]⟩
  · have hmem : el ∈ StrMap.erase options "blocking" := by
      unfold StrMap.erase
      rw [List.mem_filter]
      exact ⟨hel, by simpa using hb⟩
    obtain ⟨msg, hmsg⟩ := (assert_options_valid_error_iff tbl
      (StrMap.erase options "blocking") ["bind", "mode"]).2
      ⟨el, hmem, htbl, by simp [hextra.1, hextra.2]⟩
    obtain ⟨bad, hbad, _, hform⟩ := assert_options_valid_error_form _ _ _ _ hmsg
    refine ⟨bad, ?_, by rw [hmsg, hform]⟩
    unfold StrMap.erase at hbad
    exact (List.mem_filter.1 hbad).1

/-- C2 (as amended): when the option bag has a key other than "blocking"
that is neither in the option table nor "bind" or "mode", and the socket
handle can be created, the constructor fails with the configuration error
after exactly one transport call, `srt_create_socket`: the handle exists,
and no option has been set, no epoll created and nothing bound. -/
theorem srt_ctor_invalid_option (env : Env) (src_uri : UriParser) (w : World)
    (el : String × String) (hel : el ∈ src_uri.parameters) (hb : el.1 ≠ "blocking")
    (htbl : ∀ o ∈ env.srt_options, o.name ≠ el.1)
    (hextra : el.1 ≠ "bind" ∧ el.1 ≠ "mode")
    (hsock : env.ret w .srt_create_socket ≠ SRT_INVALID_SOCK) :
    ∃ bad ∈ src_uri.parameters, srt.ctor env src_uri w =
      (.error (.socket_exception
          ("Invalid URI query option '" ++ bad.1 ++ "=" ++ bad.2 ++ " (not recognized)!")),
        { trace := w.trace ++ [(w.now, .call .srt_create_socket (env.ret w .srt_create_socket))],
          now := w.now + env.dur w .srt_create_socket }) := by
  obtain ⟨⟨b1, hb1, h1⟩, ⟨b2, hb2, h2⟩⟩ :=
    assert_member_options_invalid env.srt_options src_uri.parameters el hel hb htbl hextra
  by_cases hc : StrMap.count src_uri.parameters "blocking" = 0
  · refine ⟨b1, hb1, ?_⟩
    simp [srt.ctor, M.bind, call, hsock, hc, M.pure, M.lift, h1]
  · obtain ⟨v, hv⟩ := StrMap.at_of_count _ _ hc
    refine ⟨b2, hb2, ?_⟩
    simp [srt.ctor, M.bind, call, hsock, hc, M.pure, M.lift, h2, hv]

/-- C2 (counterexample): the URI `srt://10.0.0.1:4200?foo=1&latency=120` has
a key outside every allow-list, and at the moment the configuration error is
raised the transport has already been called: `srt_create_socket` returned
the handle 7. -/
theorem srt_ctor_socket_exists_at_option_error :
    srt.ctor demo_env bad_option_uri {} =
      (.error (.socket_exception "Invalid URI query option 'foo=1 (not recognized)!"),
        { trace := [(0, .call .srt_create_socket 7)], now := 0 }) := by
  decide

/-- C2 at `bad_option_uri`: the key `foo` makes the constructor fail right
after `srt_create_socket`. -/
theorem srt_ctor_invalid_option_witness :
    ∃ bad ∈ bad_option_uri.parameters, srt.ctor demo_env bad_option_uri {} =
      (.error (.socket_exception
          ("Invalid URI query option '" ++ bad.1 ++ "=" ++ bad.2 ++ " (not recognized)!")),
        { trace := [(0, .call .srt_create_socket 7)], now := 0 }) :=
  srt_ctor_invalid_option demo_env bad_option_uri {} ("foo", "1") (by decide) (by decide)
    (by decide) (by decide) (by decide)

/-! ### The held-listener slot -/

theorem create_connection_srt_on_clears (env : Env) (s : srt) (isListening : Bool) (w : World)
    (hne : s.mode ≠ LISTENER)
    (hok : ∃ conn, (create_connection_srt_on env s isListening w).result = .ok conn) :
    (create_connection_srt_on env s isListening w).listeningSock = none := by
  obtain ⟨conn, hok⟩ := hok
  revert hok
  unfold create_connection_srt_on
  have hb : (s.mode == LISTENER) = false := by simpa using hne
  simp only [hb, Bool.false_and, Bool.false_eq_true, if_false]
  cases hc : srt.connect env s w with
  | mk r w2 =>
    cases r with
    | error e => cases e <;> simp
    | ok c => simp [hne]

theorem create_connection_group_on_clears (env : Env) (s : srt_group) (w : World)
    (hne : s.m_mode ≠ LISTENER)
    (hok : ∃ conn, (create_connection_group_on env s w).result = .ok conn) :
    (create_connection_group_on env s w).listeningSock = none := by
  obtain ⟨conn, hok⟩ := hok
  revert hok
  unfold create_connection_group_on
  have hb : (s.m_mode == LISTENER) = false := by simpa using hne
  simp only [hb, Bool.false_eq_true, if_false]
  cases hc : srt_group.connect env s w with
  | mk r w2 =>
    cases r with
    | error e => simp
    | ok c => simp [hne]

/-- C3: a successful call of `create_connection` whose resolved connection
mode is not LISTENER leaves the held-listener slot empty, whatever the slot
held on entry. -/
theorem create_connection_clears_slot (env : Env) (urls : List UriParser)
    (slot : shared_sock_t) (w : World) (m : Int)
    (hm : resolved_mode env urls slot w = some m) (hne : m ≠ LISTENER)
    (hok : ∃ conn, (create_connection env urls slot w).result = .ok conn) :
    (create_connection env urls slot w).listeningSock = none := by
  cases urls with
  | nil => simp [resolved_mode] at hm
  | cons uri more =>
    unfold resolved_mode at hm
    unfold create_connection at hok ⊢
    dsimp only at hm hok ⊢
    by_cases hg : (decide (more.length + 1 > 1) || uri.parameters.count "grouptype" != 0) = true
    · rw [if_pos hg] at hm hok ⊢
      unfold create_connection_group at hok ⊢
      by_cases hbond : env.ENABLE_BONDING = true
      · rw [if_pos hbond] at hm hok ⊢
        cases hh : held_or_new_group env (uri :: more) slot w with
        | mk r w1 =>
          rw [hh] at hm hok
          cases r with
          | error e => simp at hm
          | ok sl =>
            cases sl with
            | none => simp at hm
            | some sock =>
              cases sock with
              | srt_group g =>
                simp only [Option.some.injEq] at hm
                exact create_connection_group_on_clears env g w1 (by rw [hm]; exact hne) hok
              | srt s => simp at hm
              | udp u => simp at hm
      · rw [if_neg hbond] at hm
        simp at hm
    · rw [if_neg hg] at hm hok ⊢
      by_cases hudp : (uri.type == UriType.UDP) = true
      · rw [if_pos hudp] at hm
        simp at hm
      · rw [if_neg hudp] at hm hok ⊢
        by_cases hsrt : (uri.type == UriType.SRT) = true
        · rw [if_pos hsrt] at hm hok ⊢
          unfold create_connection_srt at hok ⊢
          dsimp only at hok ⊢
          cases hh : held_or_new_srt env uri slot w with
          | mk r w1 =>
            rw [hh] at hm hok
            cases r with
            | error e => simp at hm
            | ok sl =>
              cases sl with
              | none => simp at hm
              | some sock =>
                cases sock with
                | srt s =>
                  simp only [Option.some.injEq] at hm
                  exact create_connection_srt_on_clears env s _ w1 (by rw [hm]; exact hne) hok
                | srt_group g => simp at hm
                | udp u => simp at hm
        · rw [if_neg hsrt] at hm
          simp at hm

/-- The datagram branch (misc.cpp:47-50) resolves no connection mode and
leaves the slot as it found it. -/
theorem create_connection_udp_keeps_slot (env : Env) (uri : UriParser) (slot : shared_sock_t)
    (w : World) (ht : uri.type = UriType.UDP) (hg : uri.parameters.count "grouptype" = 0) :
    resolved_mode env [uri] slot w = none ∧
      (create_connection env [uri] slot w).listeningSock = slot := by
  constructor
  · simp [resolved_mode, hg, ht]
  · simp only [create_connection, hg, ht]
    cases udp.ctor env uri w with
    | mk r w1 => cases r <;> simp

/-- C3 at a caller URI with a stale endpoint in the slot: the connection
succeeds and the slot is empty afterwards. -/
theorem create_connection_clears_slot_witness :
    resolved_mode demo_env [caller_uri] (some (.srt stale_caller)) {} = some CALLER ∧
    (∃ conn, (create_connection demo_env [caller_uri] (some (.srt stale_caller)) {}).result
      = .ok conn) ∧
    (create_connection demo_env [caller_uri] (some (.srt stale_caller)) {}).listeningSock = none :=
  ⟨by decide, ⟨_, rfl⟩,
    create_connection_clears_slot demo_env [caller_uri] (some (.srt stale_caller)) {} CALLER
      (by decide) (by decide) ⟨_, rfl⟩⟩

theorem of_accept_not_create_listen (e : Event) (h : Event.of_accept e = true) :
    (∀ r, e ≠ .call .srt_create_socket r) ∧
    (∀ sock backlog r, e ≠ .call (.srt_listen sock backlog) r) := by
  constructor
  · intro r he
    rw [he] at h
    simp [Event.of_accept] at h
  · intro sock backlog r he
    rw [he] at h
    simp [Event.of_accept] at h

/-- C4: with a single SRT target and a slot that already holds a
LISTENER-mode endpoint, `create_connection` does exactly what `accept()` on
the held endpoint does: no socket is created and `listen()` is not called
again, and after a successful accept the slot still holds that endpoint. -/
theorem create_connection_reuses_held_listener (env : Env) (uri : UriParser) (s : srt)
    (w : World) (ht : uri.type = UriType.SRT)
    (hg : uri.parameters.count "grouptype" = 0) (hm : s.mode = LISTENER) :
    create_connection env [uri] (some (.srt s)) w =
      (match srt.accept env s w with
       | (.ok connection, w1) => ⟨.ok (some (.srt connection)), some (.srt s), w1⟩
       | (.error (.socket_exception what), w1) => ⟨.error (.socket_exception what), none, w1⟩
       | (.error e, w1) => ⟨.error e, some (.srt s), w1⟩) ∧
    (∃ new, (create_connection env [uri] (some (.srt s)) w).world.trace = w.trace ++ new ∧
      ∀ ev ∈ new, (∀ r, ev.2 ≠ .call .srt_create_socket r) ∧
        (∀ sock backlog r, ev.2 ≠ .call (.srt_listen sock backlog) r)) ∧
    (∀ conn, (create_connection env [uri] (some (.srt s)) w).result = .ok conn →
      (create_connection env [uri] (some (.srt s)) w).listeningSock = some (.srt s)) := by
  have heq : create_connection env [uri] (some (.srt s)) w =
      (match srt.accept env s w with
       | (.ok connection, w1) => ⟨.ok (some (.srt connection)), some (.srt s), w1⟩
       | (.error (.socket_exception what), w1) => ⟨.error (.socket_exception what), none, w1⟩
       | (.error e, w1) => ⟨.error e, some (.srt s), w1⟩) := by
    simp only [create_connection, hg, ht, create_connection_srt, held_or_new_srt,
      create_connection_srt_on, hm]
    simp [M.pure, hm]
    cases srt.accept env s w with
    | mk r w1 =>
      cases r with
      | error e => cases e <;> rfl
      | ok c => rfl
  refine ⟨heq, ?_, ?_⟩
  · rw [heq]
    obtain ⟨new, hnew, hP⟩ := accept_appends env s w
    refine ⟨new, ?_, fun ev hev => of_accept_not_create_listen _ (hP ev hev)⟩
    rw [← hnew]
    cases srt.accept env s w with
    | mk r w1 =>
      cases r with
      | error e => cases e <;> rfl
      | ok c => rfl
  · intro conn
    rw [heq]
    cases srt.accept env s w with
    | mk r w1 =>
      cases r with
      | error e => cases e <;> simp
      | ok c => simp

/-- C4 at `listener_uri` with `held_listener` in the slot: the call is the
`accept()` of the held endpoint, which stays in the slot. -/
theorem create_connection_reuses_held_listener_witness :
    create_connection demo_env [listener_uri] (some (.srt held_listener)) {} =
      (match srt.accept demo_env held_listener {} with
       | (.ok connection, w1) => ⟨.ok (some (.srt connection)), some (.srt held_listener), w1⟩
       | (.error (.socket_exception what), w1) => ⟨.error (.socket_exception what), none, w1⟩
       | (.error e, w1) => ⟨.error e, some (.srt held_listener), w1⟩) ∧
    (create_connection demo_env [listener_uri] (some (.srt held_listener)) {}).listeningSock =
      some (.srt held_listener) :=
  ⟨(create_connection_reuses_held_listener demo_env listener_uri held_listener {}
      rfl (by decide) rfl).1,
   (create_connection_reuses_held_listener demo_env listener_uri held_listener {}
      rfl (by decide) rfl).2.2 _ rfl⟩

/-- C5 (the failing input): a listener URI, an empty slot and a transport
whose `srt_listen` fails. The exception of `listen()` leaves
`create_connection` with the slot still holding the endpoint that was just
constructed. -/
theorem create_connection_listen_failure_keeps_slot :
    (create_connection listen_fails_env [listener_uri] none {}).result =
      .error (.socket_exception "listen: Operation not supported") ∧
    (create_connection listen_fails_env [listener_uri] none {}).listeningSock =
      some (.srt held_listener) := by
  decide

/-- The part of the slot discipline that holds: an exception of class
`socket::exception` from `accept()` or `connect()` empties the slot. -/
theorem create_connection_srt_on_error_after_listen (env : Env) (s : srt) (isListening : Bool)
    (w w1 : World)
    (hl : (if (s.mode == LISTENER && !isListening) = true then srt.listen env s w
            else (Except.ok (), w)) = (.ok (), w1))
    (what : String)
    (he : (create_connection_srt_on env s isListening w).result =
      .error (.socket_exception what)) :
    (create_connection_srt_on env s isListening w).listeningSock = none := by
  revert he
  unfold create_connection_srt_on
  dsimp only
  rw [hl]
  dsimp only
  split
  · intro _; rfl
  · rename_i e w2 hne heq
    intro he
    exact (hne what (by simpa using he)).elim
  · split <;> simp

/-! ### The reconnect loop on concrete runs -/

/-- C6 (the failing input): a caller whose peer refuses each connection after
0.3 s, with reconnect on. The first three attempts begin at 0 s, 1 s and
1.3 s: the third follows the second by 0.3 s. -/
theorem common_run_attempts_closer_than_a_second :
    ∃ st, common_run refusing_env ["srt://10.0.0.1:4200"] {} true false idle_callback 3 {} =
        .out_of_fuel st ∧
      attempts st.world.trace = [0, 1000000000, 1300000000] :=
  ⟨_, rfl, by decide⟩

/-- C8 (counterexample): with an unsupported scheme, reconnect on and the
flag unset, the loop does not stop: three attempts are made within three
iterations and a fourth is wanted. -/
theorem common_run_retries_unsupported_scheme :
    ∃ st, common_run file_env ["file://out.bin"] {} true false idle_callback 3 {} =
        .out_of_fuel st ∧
      attempts st.world.trace = [0, 1000000000, 1000000000] ∧
      st.world.trace.getLast? = some (1000000000, .spdlog_warn "CONN Unknown protocol 'file'.") :=
  ⟨_, rfl, by decide, by decide⟩

/-- C9 (counterexample): with an empty URL list, a non-empty statistics path
and a period of 100 ms, `common_run` returns without constructing a
statistics writer. -/
theorem common_run_no_urls_no_writer :
    (!(stats_on.stats_file == "") && stats_on.stats_freq_ms > 0) = true ∧
    common_run demo_env [] stats_on true false idle_callback 3 {} =
      .returned { nextReconnect := 0,
                  world := { trace := [(0, .spdlog_error "CONN URL was not provided")], now := 0 } } := by
  decide

/-- C10 (counterexample): a callback that ends with a `socket::exception`.
The endpoint attached before the callback is still attached when
`common_run` returns, and `remove_socket` was never called. -/
theorem common_run_throwing_callback_stays_attached :
    ∃ st conn, common_run caller_env ["srt://10.0.0.1:4200"] stats_on false false
        throwing_callback 1 {} = .returned st ∧
      st.stats = some { m_sock := [(7, conn)] } ∧
      (0, Event.add_socket conn) ∈ st.world.trace ∧
      (0, Event.remove_socket 7) ∉ st.world.trace :=
  ⟨_, _, rfl, rfl, by decide, by decide⟩

/-! ### What the reconnect loop appends to the trace -/

theorem of_factory_in_loop (b : Bool) (e : Event) (h : Event.of_factory e = true) :
    Event.in_loop b e = true := by
  cases e with
  | call c r => cases c <;> simp_all [Event.of_factory, Event.in_loop]
  | _ => simp_all [Event.of_factory, Event.in_loop]

theorem of_callback_in_loop (b : Bool) (e : Event) (h : Event.of_callback e = true) :
    Event.in_loop b e = true := by
  cases e with
  | call c r => cases c <;> simp_all [Event.of_callback, Event.in_loop]
  | _ => simp_all [Event.of_callback, Event.in_loop]

theorem attempt_world_ext (b : Bool) (st : LoopState) :
    Ext (Event.in_loop b) st.world (attempt_world st) := by
  unfold attempt_world
  dsimp only
  split
  · refine Ext.trans ?_ (Ext.record _ _ rfl)
    exact ⟨[(st.world.now, .sleep_until st.nextReconnect)], rfl, by simp [Event.in_loop]⟩
  · exact Ext.record _ _ rfl

theorem common_run_catch_ext (b : Bool) (e : Thrown) (st : LoopState) :
    Ext (Event.in_loop b) st.world (common_run_catch e st).state.world ∧
      (common_run_catch e st).state.stats = st.stats := by
  unfold common_run_catch
  cases e with
  | socket_exception what => exact ⟨Ext.record _ _ rfl, rfl⟩
  | std_exception what => exact ⟨Ext.refl _ _, rfl⟩
  | null_dereference => exact ⟨Ext.refl _ _, rfl⟩
  | out_of_fuel => exact ⟨Ext.refl _ _, rfl⟩

theorem common_run_process_ext (closeListener : Bool) (processingFn : isocket → M Unit)
    (hcb : well_behaved processingFn) (conn : isocket) (st : LoopState) :
    Ext (Event.in_loop st.stats.isSome) st.world
        (common_run_process closeListener processingFn conn st).state.world ∧
      (common_run_process closeListener processingFn conn st).state.stats.isSome
        = st.stats.isSome := by
  unfold common_run_process
  dsimp only
  cases hs : st.stats with
  | none =>
    dsimp only
    have h1 : Ext (Event.in_loop false) st.world (st.world.record (.processingFn conn)) :=
      Ext.record _ _ rfl
    have h2 := (hcb conn (st.world.record (.processingFn conn))).mono (of_callback_in_loop false)
    split
    · rename_i e w1 heq
      rw [heq] at h2
      have h3 := common_run_catch_ext false e
        { st with listeningSock := if closeListener = true then none else st.listeningSock,
                  stats := none, world := w1 }
      exact ⟨(h1.trans h2).trans h3.1, by rw [h3.2]⟩
    · rename_i w1 heq
      rw [heq] at h2
      exact ⟨h1.trans h2, rfl⟩
  | some sw =>
    dsimp only
    have h0 : Ext (Event.in_loop true) st.world (st.world.record (.add_socket conn)) :=
      Ext.record _ _ rfl
    have h1 : Ext (Event.in_loop true) (st.world.record (.add_socket conn))
        ((st.world.record (.add_socket conn)).record (.processingFn conn)) :=
      Ext.record _ _ rfl
    have h2 := (hcb conn ((st.world.record (.add_socket conn)).record (.processingFn conn))).mono
      (of_callback_in_loop true)
    split
    · rename_i e w1 heq
      rw [heq] at h2
      have h3 := common_run_catch_ext true e
        { st with listeningSock := if closeListener = true then none else st.listeningSock,
                  stats := some (sw.add_socket conn), world := w1 }
      exact ⟨((h0.trans h1).trans h2).trans h3.1, by rw [h3.2]; rfl⟩
    · rename_i w1 heq
      rw [heq] at h2
      exact ⟨((h0.trans h1).trans h2).trans (Ext.record _ _ rfl), rfl⟩

theorem common_run_iteration_ext (env : Env) (urls : List String) (parsedUrls : List UriParser)
    (closeListener : Bool) (processingFn : isocket → M Unit) (hcb : well_behaved processingFn)
    (st : LoopState) :
    Ext (Event.in_loop st.stats.isSome) st.world
        (common_run_iteration env urls parsedUrls closeListener processingFn st).state.world ∧
      (common_run_iteration env urls parsedUrls closeListener processingFn st).state.stats.isSome
        = st.stats.isSome := by
  unfold common_run_iteration
  dsimp only
  have h1 := attempt_world_ext st.stats.isSome st
  have h2 := (create_connection_ext env parsedUrls st.listeningSock (attempt_world st)).mono
    (of_factory_in_loop st.stats.isSome)
  have h12 := h1.trans h2
  split
  · rename_i e heq
    have h3 := common_run_catch_ext st.stats.isSome e
      { st with
        listeningSock := (create_connection env parsedUrls st.listeningSock (attempt_world st)).listeningSock,
        nextReconnect := st.world.now + seconds 1,
        world := (create_connection env parsedUrls st.listeningSock (attempt_world st)).world }
    exact ⟨h12.trans h3.1, by rw [h3.2]⟩
  · exact ⟨h12.trans (Ext.record _ _ rfl), rfl⟩
  · rename_i conn heq
    have h3 := common_run_process_ext closeListener processingFn hcb conn
      { st with
        listeningSock := (create_connection env parsedUrls st.listeningSock (attempt_world st)).listeningSock,
        nextReconnect := st.world.now + seconds 1,
        world := (create_connection env parsedUrls st.listeningSock (attempt_world st)).world }
    exact ⟨h12.trans h3.1, h3.2⟩

theorem common_run_loop_ext (env : Env) (urls : List String) (parsedUrls : List UriParser)
    (reconnect closeListener : Bool) (processingFn : isocket → M Unit)
    (hcb : well_behaved processingFn) (fuel : Nat) (st : LoopState) :
    Ext (Event.in_loop st.stats.isSome) st.world
      (common_run_loop env urls parsedUrls reconnect closeListener processingFn fuel st).state.world := by
  induction fuel generalizing st with
  | zero => exact Ext.refl _ _
  | succ fuel ih =>
    unfold common_run_loop
    have h := common_run_iteration_ext env urls parsedUrls closeListener processingFn hcb st
    split
    · rename_i st1 heq
      rw [heq] at h
      split
      · have h2 := ih st1
        have hs : st1.stats.isSome = st.stats.isSome := h.2
        rw [hs] at h2
        exact h.1.trans h2
      · exact h.1
    · rename_i st1 heq
      rw [heq] at h
      exact h.1
    · rename_i e st1 heq
      rw [heq] at h
      exact h.1

/-! ### Exceptions of the factory inside the loop -/

theorem attempts_append (a b : List (Nat × Event)) :
    attempts (a ++ b) = attempts a ++ attempts b := by
  simp [attempts]

theorem attempts_of_factory (new : List (Nat × Event))
    (h : ∀ ev ∈ new, Event.of_factory ev.2 = true) : attempts new = [] := by
  unfold attempts
  rw [List.map_eq_nil_iff, List.filter_eq_nil_iff]
  intro ev hev hcc
  have h1 := h ev hev
  have h2 : ev.2 = Event.create_connection := by simpa using hcc
  rw [h2] at h1
  simp [Event.of_factory] at h1

/-- The world in which the factory is called extends the world at the top of
the iteration by an optional `sleep_until` and the mark of the attempt. -/
theorem attempt_world_trace (st : LoopState) :
    ∃ pre, (attempt_world st).trace = st.world.trace ++ pre ∧
      (attempts pre).length = 1 ∧ ∀ ev ∈ pre, ∀ conn, ev.2 ≠ .processingFn conn := by
  unfold attempt_world
  dsimp only
  split
  · refine ⟨[(st.world.now, .sleep_until st.nextReconnect),
      ((sleep_until st.nextReconnect st.world).now, .create_connection)], ?_, ?_, ?_⟩
    · simp [World.record, sleep_until]
    · simp [attempts]
    · simp
  · refine ⟨[(st.world.now, .create_connection)], ?_, ?_, ?_⟩
    · simp [World.record]
    · simp [attempts]
    · simp

/-- C7: when `create_connection` throws a `socket::exception` in an
iteration, the iteration ends at the loop condition (the exception does not
leave `common_run`), one attempt and no invocation of the callback are
recorded in it, and a further iteration follows exactly when `reconnect` is
true and the flag is unset; with `reconnect` false the run returns after
this one attempt. -/
theorem common_run_socket_exception_handled (env : Env) (urls : List String)
    (parsedUrls : List UriParser) (reconnect closeListener : Bool)
    (processingFn : isocket → M Unit) (st : LoopState) (what : String) (fuel : Nat)
    (h : (create_connection env parsedUrls st.listeningSock (attempt_world st)).result =
      .error (.socket_exception what)) :
    ∃ st1 new,
      common_run_iteration env urls parsedUrls closeListener processingFn st = .next st1 ∧
      st1.world.trace = st.world.trace ++ new ∧
      (∀ ev ∈ new, ∀ conn, ev.2 ≠ .processingFn conn) ∧
      (attempts new).length = 1 ∧
      common_run_loop env urls parsedUrls reconnect closeListener processingFn (fuel + 1) st =
        (if reconnect && !env.forceBreak st1.world then
          common_run_loop env urls parsedUrls reconnect closeListener processingFn fuel st1
        else .returned st1) ∧
      (reconnect = false →
        common_run_loop env urls parsedUrls reconnect closeListener processingFn (fuel + 1) st =
          .returned st1) := by
  obtain ⟨pre, hpre, hatt, hnp⟩ := attempt_world_trace st
  obtain ⟨fac, hfac, hP⟩ := create_connection_ext env parsedUrls st.listeningSock (attempt_world st)
  have hit : common_run_iteration env urls parsedUrls closeListener processingFn st =
      .next { listeningSock :=
                (create_connection env parsedUrls st.listeningSock (attempt_world st)).listeningSock,
              nextReconnect := st.world.now + seconds 1,
              stats := st.stats,
              world := (create_connection env parsedUrls st.listeningSock
                (attempt_world st)).world.record (.spdlog_warn ("CONN " ++ what)) } := by
    unfold common_run_iteration
    dsimp only
    rw [h]
    rfl
  refine ⟨_, pre ++ fac ++
    [((create_connection env parsedUrls st.listeningSock (attempt_world st)).world.now,
      .spdlog_warn ("CONN " ++ what))], hit, ?_, ?_, ?_, ?_, ?_⟩
  · simp [World.record, hfac, hpre]
  · intro ev hev conn
    simp only [List.mem_append, List.mem_singleton] at hev
    rcases hev with (hev | hev) | hev
    · exact hnp ev hev conn
    · intro hc
      have := hP ev hev
      rw [hc] at this
      simp [Event.of_factory] at this
    · rw [hev]
      simp
  · rw [attempts_append, attempts_append, attempts_of_factory fac hP]
    simpa [attempts] using hatt
  · rw [common_run_loop, hit]
  · intro hr
    rw [common_run_loop, hit, hr]
    rfl

/-- C7 at a refused connection with `reconnect` false: one attempt, then the
run returns. -/
theorem common_run_socket_exception_handled_witness :
    ∃ st1,
      common_run_iteration refusing_env ["srt://10.0.0.1:4200"] [caller_uri] false idle_callback
        { nextReconnect := 0, world := {} } = .next st1 ∧
      (attempts st1.world.trace).length = 1 ∧
      common_run_loop refusing_env ["srt://10.0.0.1:4200"] [caller_uri] false false idle_callback
        1 { nextReconnect := 0, world := {} } = .returned st1 := by
  obtain ⟨st1, new, h1, h2, _, h4, _, h6⟩ :=
    common_run_socket_exception_handled refusing_env ["srt://10.0.0.1:4200"] [caller_uri] false
      false idle_callback { nextReconnect := 0, world := {} }
      "connect failed: Operation not supported. Reject reason: Unknown" 0 (by decide)
  refine ⟨st1, h1, ?_, h6 rfl⟩
  rw [h2]
  simpa using h4

/-- The branch `Unknown protocol` of the factory (misc.cpp:78). -/
theorem create_connection_unknown_protocol (env : Env) (uri : UriParser)
    (slot : shared_sock_t) (w : World) (hg : uri.parameters.count "grouptype" = 0)
    (hudp : uri.type ≠ UriType.UDP) (hsrt : uri.type ≠ UriType.SRT) :
    create_connection env [uri] slot w =
      ⟨.error (.socket_exception ("Unknown protocol '" ++ uri.proto ++ "'.")), slot, w⟩ := by
  simp [create_connection, hg, hudp, hsrt]

/-- C8 (as amended): an empty URL list makes `common_run` return before any
attempt; an unsupported scheme makes the factory throw a
`socket::exception`, after which a further iteration follows exactly when
`reconnect` is true and the flag is unset. -/
theorem common_run_factory_failure (env : Env) (urls : List String) (cfg : stats_config)
    (reconnect closeListener : Bool) (processingFn : isocket → M Unit) (fuel : Nat)
    (w : World) (st : LoopState) (uri : UriParser)
    (hg : uri.parameters.count "grouptype" = 0)
    (hudp : uri.type ≠ UriType.UDP) (hsrt : uri.type ≠ UriType.SRT) :
    common_run env [] cfg reconnect closeListener processingFn fuel w =
      .returned { nextReconnect := w.now,
                  world := w.record (.spdlog_error "CONN URL was not provided") } ∧
    create_connection env [uri] st.listeningSock (attempt_world st) =
      ⟨.error (.socket_exception ("Unknown protocol '" ++ uri.proto ++ "'.")),
        st.listeningSock, attempt_world st⟩ ∧
    common_run_loop env urls [uri] reconnect closeListener processingFn (fuel + 1) st =
      (if reconnect && !env.forceBreak ((attempt_world st).record
            (.spdlog_warn ("CONN Unknown protocol '" ++ uri.proto ++ "'."))) then
        common_run_loop env urls [uri] reconnect closeListener processingFn fuel
          { st with nextReconnect := st.world.now + seconds 1,
                    world := (attempt_world st).record
                      (.spdlog_warn ("CONN Unknown protocol '" ++ uri.proto ++ "'.")) }
      else
        .returned
          { st with nextReconnect := st.world.now + seconds 1,
                    world := (attempt_world st).record
                      (.spdlog_warn ("CONN Unknown protocol '" ++ uri.proto ++ "'.")) }) := by
  have hcc := create_connection_unknown_protocol env uri st.listeningSock (attempt_world st)
    hg hudp hsrt
  refine ⟨rfl, hcc, ?_⟩
  rw [common_run_loop]
  unfold common_run_iteration
  dsimp only
  rw [hcc]
  rfl

/-- C8 at a `file` URI with `reconnect` true: after the failed attempt the
loop goes on to its next iteration. -/
theorem common_run_factory_failure_witness :
    common_run_loop file_env ["file://out.bin"] [⟨.FILE, "file", "", 0, []⟩] true false
        idle_callback (1 + 1) { nextReconnect := 0, world := {} } =
      common_run_loop file_env ["file://out.bin"] [⟨.FILE, "file", "", 0, []⟩] true false
        idle_callback 1
        { nextReconnect := 1000000000,
          world := { trace := [(0, .create_connection),
                               (0, .spdlog_warn "CONN Unknown protocol 'file'.")], now := 0 } } :=
  (common_run_factory_failure file_env ["file://out.bin"] {} true false idle_callback 1 {}
    { nextReconnect := 0, world := {} } ⟨.FILE, "file", "", 0, []⟩
    (by decide) (by decide) (by decide)).2.2

/-! ### The statistics writer -/

theorem common_run_process_attach_ext (closeListener : Bool) (processingFn : isocket → M Unit)
    (hcb : well_behaved processingFn) (conn : isocket) (st : LoopState) (sw : stats_writer)
    (hs : st.stats = some sw) :
    Ext (Event.in_loop true) (st.world.record (.add_socket conn))
        (common_run_process closeListener processingFn conn st).state.world := by
  unfold common_run_process
  dsimp only
  rw [hs]
  dsimp only
  have h1 : Ext (Event.in_loop true) (st.world.record (.add_socket conn))
      ((st.world.record (.add_socket conn)).record (.processingFn conn)) :=
    Ext.record _ _ rfl
  have h2 := (hcb conn ((st.world.record (.add_socket conn)).record (.processingFn conn))).mono
    (of_callback_in_loop true)
  split
  · rename_i e w1 heq
    rw [heq] at h2
    have h3 := common_run_catch_ext true e
      { st with listeningSock := if closeListener = true then none else st.listeningSock,
                stats := some (sw.add_socket conn), world := w1 }
    exact (h1.trans h2).trans h3.1
  · rename_i w1 heq
    rw [heq] at h2
    exact (h1.trans h2).trans (Ext.record _ _ rfl)

theorem common_run_loop_ext_from_iteration (env : Env) (urls : List String)
    (parsedUrls : List UriParser) (reconnect closeListener : Bool)
    (processingFn : isocket → M Unit) (hcb : well_behaved processingFn) (fuel : Nat)
    (st : LoopState) :
    Ext (Event.in_loop st.stats.isSome)
      (common_run_iteration env urls parsedUrls closeListener processingFn st).state.world
      (common_run_loop env urls parsedUrls reconnect closeListener processingFn
        (fuel + 1) st).state.world := by
  have h := common_run_iteration_ext env urls parsedUrls closeListener processingFn hcb st
  rw [common_run_loop]
  split
  · rename_i st1 heq
    rw [heq] at h ⊢
    split
    · have h2 := common_run_loop_ext env urls parsedUrls reconnect closeListener processingFn
        hcb fuel st1
      have hs : st1.stats.isSome = st.stats.isSome := h.2
      rw [hs] at h2
      exact h2
    · exact Ext.refl _ _
  · rename_i st1 heq
    rw [heq]
    exact Ext.refl _ _
  · rename_i e st1 heq
    rw [heq]
    exact Ext.refl _ _

theorem stats_writer_ctor_ok (env : Env) (cfg : stats_config) (w : World)
    (h : 0 ≤ env.ret w (writer_call cfg)) :
    stats_writer.ctor env cfg w = (.ok {}, w.after_call env (writer_call cfg)) := by
  unfold writer_call at h
  simp [stats_writer.ctor, M.bind, call, M.pure, not_lt.2 h, World.after_call, writer_call]

theorem stats_writer_ctor_fails (env : Env) (cfg : stats_config) (w : World)
    (h : env.ret w (writer_call cfg) < 0) :
    stats_writer.ctor env cfg w =
      (.error (.socket_exception (env.lasterror_str (w.after_call env (writer_call cfg)))),
        (srt_getlasterror_str env (w.after_call env (writer_call cfg))).2) := by
  unfold writer_call at h
  simp [stats_writer.ctor, M.bind, call, h, throw_lasterror,
    srt_getlasterror_str, M.throw, World.after_call, writer_call]

theorem writeStats_iff (cfg : stats_config) :
    writeStats cfg = true ↔ (cfg.stats_file ≠ "" ∧ 0 < cfg.stats_freq_ms) := by
  simp [writeStats]

theorem common_run_enters_loop_with_writer (env : Env) (urls : List String) (cfg : stats_config)
    (reconnect closeListener : Bool) (processingFn : isocket → M Unit) (fuel : Nat) (w : World)
    (hurls : urls ≠ []) (hw : writeStats cfg = true) (hret : 0 ≤ env.ret w (writer_call cfg)) :
    common_run env urls cfg reconnect closeListener processingFn fuel w =
      common_run_loop env urls (urls.map env.parse) reconnect closeListener processingFn fuel
        (entry_with_writer env cfg w) := by
  have he : urls.isEmpty = false := by
    cases urls with
    | nil => exact absurd rfl hurls
    | cons a b => rfl
  unfold common_run entry_with_writer
  rw [he, hw, stats_writer_ctor_ok env cfg w hret]
  rfl

theorem common_run_enters_loop_without_writer (env : Env) (urls : List String)
    (cfg : stats_config) (reconnect closeListener : Bool) (processingFn : isocket → M Unit)
    (fuel : Nat) (w : World) (hurls : urls ≠ []) (hw : writeStats cfg = false) :
    common_run env urls cfg reconnect closeListener processingFn fuel w =
      common_run_loop env urls (urls.map env.parse) reconnect closeListener processingFn fuel
        { listeningSock := none, nextReconnect := w.now, stats := none, world := w } := by
  have he : urls.isEmpty = false := by
    cases urls with
    | nil => exact absurd rfl hurls
    | cons a b => rfl
  unfold common_run
  rw [he, hw]
  rfl

theorem common_run_writer_fails (env : Env) (urls : List String)
    (cfg : stats_config) (reconnect closeListener : Bool) (processingFn : isocket → M Unit)
    (fuel : Nat) (w : World) (hurls : urls ≠ []) (hw : writeStats cfg = true)
    (hret : env.ret w (writer_call cfg) < 0) :
    ∃ more, (common_run env urls cfg reconnect closeListener processingFn fuel w).state.world.trace
      = w.trace ++ (w.now, .call (writer_call cfg) (env.ret w (writer_call cfg))) :: more := by
  have he : urls.isEmpty = false := by
    cases urls with
    | nil => exact absurd rfl hurls
    | cons a b => rfl
  unfold common_run
  rw [he, hw, stats_writer_ctor_fails env cfg w hret]
  simp only [Bool.false_eq_true, if_false, if_true, Run.state, World.record,
    srt_getlasterror_str, World.after_call, List.append_assoc, List.singleton_append]
  exact ⟨_, rfl⟩

/-- In an iteration that starts with a writer and in which the factory yields
a connection, `add_socket` is among the events the run records from there on. -/
theorem common_run_loop_attaches (env : Env) (urls : List String)
    (parsedUrls : List UriParser) (reconnect closeListener : Bool)
    (processingFn : isocket → M Unit) (hcb : well_behaved processingFn) (fuel : Nat)
    (st : LoopState) (sw : stats_writer) (hs : st.stats = some sw) (conn : isocket)
    (hc : (create_connection env parsedUrls st.listeningSock (attempt_world st)).result =
      .ok (some conn)) :
    ∃ a b t, (common_run_loop env urls parsedUrls reconnect closeListener processingFn
        (fuel + 1) st).state.world.trace = st.world.trace ++ (a ++ (t, .add_socket conn) :: b) := by
  have h1 := attempt_world_ext true st
  have h2 := (create_connection_ext env parsedUrls st.listeningSock (attempt_world st)).mono
    (of_factory_in_loop true)
  have hit : common_run_iteration env urls parsedUrls closeListener processingFn st =
      common_run_process closeListener processingFn conn
        { st with
          listeningSock :=
            (create_connection env parsedUrls st.listeningSock (attempt_world st)).listeningSock,
          nextReconnect := st.world.now + seconds 1,
          world := (create_connection env parsedUrls st.listeningSock (attempt_world st)).world } := by
    unfold common_run_iteration
    dsimp only
    rw [hc]
  have h3 := common_run_process_attach_ext closeListener processingFn hcb conn
    { st with
      listeningSock :=
        (create_connection env parsedUrls st.listeningSock (attempt_world st)).listeningSock,
      nextReconnect := st.world.now + seconds 1,
      world := (create_connection env parsedUrls st.listeningSock (attempt_world st)).world }
    sw hs
  rw [← hit] at h3
  have h4 := common_run_loop_ext_from_iteration env urls parsedUrls reconnect closeListener
    processingFn hcb fuel st
  rw [hs] at h4
  obtain ⟨a, ha, _⟩ := h1.trans h2
  obtain ⟨b, hb, _⟩ := h3.trans h4
  refine ⟨a, b,
    (create_connection env parsedUrls st.listeningSock (attempt_world st)).world.now, ?_⟩
  rw [hb]
  simp only [World.record, ha, List.append_assoc, List.singleton_append]

/-! ### The generator as a callback -/

theorem srt_write_send_sampler_free (env : Env) (self : srt) (data : List Nat) :
    Appends Event.of_callback (srt.write_send env self data) := by
  unfold srt.write_send
  refine Appends.bind (Appends.call env _ (fun _ => rfl)) fun r => ?_
  refine Appends.ite ?_ (Appends.pure _ _)
  refine Appends.bind (Appends.call env _ (fun _ => rfl)) fun err => ?_
  refine Appends.ite (Appends.pure _ _) ?_
  refine Appends.bind (Appends.srt_getlasterror_str env (fun _ => rfl)) fun msg => ?_
  unfold raise_exception_reason
  exact Appends.throw _ _

theorem srt_write_sampler_free (env : Env) (self : srt) (data : List Nat) (timeout_ms : Int) :
    Appends Event.of_callback (srt.write env self data timeout_ms) := by
  unfold srt.write
  refine Appends.ite ?_ (srt_write_send_sampler_free env self data)
  refine Appends.bind (Appends.call env _ (fun _ => rfl)) fun r => ?_
  exact Appends.ite (raise_exception_appends _ env _ (fun _ => rfl) (fun _ => rfl))
    (srt_write_send_sampler_free env self data)

theorem other_write_sampler_free (env : Env) (id : Int) (data : List Nat) (timeout_ms : Int) :
    Appends Event.of_callback (other_write env id data timeout_ms) := by
  unfold other_write
  refine Appends.bind (Appends.call env _ (fun _ => rfl)) fun r => ?_
  exact Appends.ite (throw_lasterror_appends _ env (fun _ => rfl)) (Appends.pure _ _)

theorem isocket_write_sampler_free (env : Env) (sock : isocket) (n : Nat) (data : List Nat)
    (timeout_ms : Int) : Appends Event.of_callback (isocket.write env sock n data timeout_ms) := by
  unfold isocket.write
  refine Appends.bind (Appends.emit _ rfl) fun _ => ?_
  cases sock with
  | srt s => exact srt_write_sampler_free env s data timeout_ms
  | srt_group g => exact other_write_sampler_free env g.id data timeout_ms
  | udp u => exact other_write_sampler_free env u.id data timeout_ms

theorem run_pipe_report_sampler_free (cfg : generate.config) (st : PipeState) :
    Ext Event.of_callback st.world (run_pipe_report cfg st).world := by
  unfold run_pipe_report
  split
  · exact Ext.record _ _ rfl
  · exact Ext.refl _ _

theorem after_call_sampler_free (env : Env) (w : World) (c : Call)
    (h : ∀ r, Event.of_callback (.call c r) = true) :
    Ext Event.of_callback w (w.after_call env c) :=
  ⟨[(w.now, .call c (env.ret w c))], rfl, by simpa using h _⟩

theorem run_pipe_body_sampler_free (env : Env) (target : isocket) (cfg : generate.config)
    (start_time : Nat) (st : PipeState) :
    Ext Event.of_callback st.world (run_pipe_body env target cfg start_time st).state.world := by
  have hw : Ext Event.of_callback st.world (run_pipe_waited env cfg st).world := by
    unfold run_pipe_waited
    split
    · exact after_call_sampler_free env _ _ (fun _ => rfl)
    · exact Ext.refl _ _
  unfold run_pipe_body
  refine hw.trans ?_
  generalize run_pipe_waited env cfg st = st0
  unfold run_pipe_paced
  split
  · exact Ext.refl _ _
  · split
    · exact Ext.refl _ _
    · unfold run_pipe_send
      have h1 : Ext Event.of_callback st0.world (st0.world.after_call env .generate_payload) :=
        after_call_sampler_free env _ _ (fun _ => rfl)
      have h2 := isocket_write_sampler_free env target
        (overwrite st0.message_to_send (env.received st0.world .generate_payload)).length
        (overwrite st0.message_to_send (env.received st0.world .generate_payload)) (-1)
        (st0.world.after_call env .generate_payload)
      split
      · rename_i e w1 heq
        dsimp only at heq
        rw [heq] at h2
        exact h1.trans h2
      · rename_i r w1 heq
        dsimp only at heq
        rw [heq] at h2
        exact (h1.trans h2).trans (run_pipe_report_sampler_free cfg _)

theorem run_pipe_end_sampler_free (env : Env) (w : World) :
    Ext Event.of_callback w (run_pipe_end env w).world := by
  unfold run_pipe_end
  split
  · exact Ext.record _ _ rfl
  · exact Ext.refl _ _

theorem run_pipe_catch_sampler_free (env : Env) (e : Thrown) (w : World) :
    Ext Event.of_callback w (run_pipe_catch env e w).world := by
  unfold run_pipe_catch
  cases e with
  | socket_exception what =>
    exact (Ext.record w _ rfl).trans (run_pipe_end_sampler_free env _)
  | std_exception what => exact Ext.refl _ _
  | null_dereference => exact Ext.refl _ _
  | out_of_fuel => exact Ext.refl _ _

theorem run_pipe_loop_sampler_free (env : Env) (target : isocket) (cfg : generate.config)
    (start_time : Nat) (num_messages : Int) (fuel : Nat) (st : PipeState) :
    Ext Event.of_callback st.world
      (run_pipe_loop env target cfg start_time num_messages fuel st).world := by
  induction fuel generalizing st with
  | zero => exact Ext.refl _ _
  | succ fuel ih =>
    rw [run_pipe_loop]
    split
    · have hb := run_pipe_body_sampler_free env target cfg start_time st
      split
      · rename_i st1 heq
        rw [heq] at hb
        exact hb.trans (ih { st1 with i := st1.i + 1 })
      · rename_i st1 heq
        rw [heq] at hb
        exact hb.trans (run_pipe_end_sampler_free env _)
      · rename_i e st1 heq
        rw [heq] at hb
        exact hb.trans (run_pipe_catch_sampler_free env e _)
    · exact run_pipe_end_sampler_free env _

/-- The generator adds no event of the sampler to the trace. -/
theorem run_pipe_sampler_free (env : Env) (dst : isocket) (cfg : generate.config) (fuel : Nat)
    (w : World) : Ext Event.of_callback w (run_pipe env dst cfg fuel w).world := by
  unfold run_pipe
  split
  · exact Ext.refl _ _
  · exact run_pipe_loop_sampler_free env dst cfg w.now _ fuel _

/-- The callback of `generate::run` is among those the theorems on
`common_run` are about. -/
theorem generate_process_fn_well_behaved (env : Env) (cfg : generate.config) (fuel : Nat) :
    well_behaved (generate.process_fn env cfg fuel) := by
  intro conn w
  have h := run_pipe_sampler_free env conn cfg fuel w
  unfold generate.process_fn
  cases hr : run_pipe env conn cfg fuel w with
  | returned w1 => rw [hr] at h; exact h
  | thrown e w1 => rw [hr] at h; exact h
  | out_of_fuel w1 => rw [hr] at h; exact h

/-- C9 (as amended): with a non-empty URL list, `common_run` constructs a
statistics writer exactly when the statistics path is non-empty and the
period is greater than zero; endpoints are attached only in that case, and
then the endpoint of the first connection is attached once the writer is
constructed; with an empty path or a zero period no writer is constructed
and no endpoint is ever attached. -/
theorem common_run_stats_writer (env : Env) (urls : List String) (cfg : stats_config)
    (reconnect closeListener : Bool) (processingFn : isocket → M Unit) (fuel : Nat) (w : World)
    (hurls : urls ≠ []) (hcb : well_behaved processingFn) :
    ∃ new,
      (common_run env urls cfg reconnect closeListener processingFn fuel w).state.world.trace
        = w.trace ++ new ∧
      ((∃ ev ∈ new, ∃ r, ev.2 = .call (writer_call cfg) r) ↔
        (cfg.stats_file ≠ "" ∧ 0 < cfg.stats_freq_ms)) ∧
      ((∃ ev ∈ new, ∃ conn, ev.2 = .add_socket conn) →
        (cfg.stats_file ≠ "" ∧ 0 < cfg.stats_freq_ms)) ∧
      (cfg.stats_file ≠ "" ∧ 0 < cfg.stats_freq_ms →
        0 ≤ env.ret w (writer_call cfg) → 0 < fuel →
        ∀ conn, (create_connection env (urls.map env.parse) none
            (attempt_world (entry_with_writer env cfg w))).result = .ok (some conn) →
          ∃ ev ∈ new, ev.2 = .add_socket conn) := by
  by_cases hw : writeStats cfg = true
  · have hen := (writeStats_iff cfg).1 hw
    by_cases hret : 0 ≤ env.ret w (writer_call cfg)
    · have hrun := common_run_enters_loop_with_writer env urls cfg reconnect closeListener
        processingFn fuel w hurls hw hret
      have hentry : (entry_with_writer env cfg w).world = w.after_call env (writer_call cfg) := by
        unfold entry_with_writer
        rw [stats_writer_ctor_ok env cfg w hret]
      obtain ⟨new1, hnew1, _⟩ := common_run_loop_ext env urls (urls.map env.parse) reconnect
        closeListener processingFn hcb fuel (entry_with_writer env cfg w)
      rw [← hrun, hentry] at hnew1
      refine ⟨(w.now, .call (writer_call cfg) (env.ret w (writer_call cfg))) :: new1, ?_, ?_, ?_, ?_⟩
      · rw [hnew1]
        simp [World.after_call]
      · exact ⟨fun _ => hen, fun _ => ⟨_, List.mem_cons_self _ _, _, rfl⟩⟩
      · exact fun _ => hen
      · intro _ _ hfuel conn hc
        obtain ⟨k, rfl⟩ : ∃ k, fuel = k + 1 := ⟨fuel - 1, by omega⟩
        obtain ⟨a, b, t, hab⟩ := common_run_loop_attaches env urls (urls.map env.parse) reconnect
          closeListener processingFn hcb k (entry_with_writer env cfg w) {} rfl conn hc
        rw [← hrun, hentry, hnew1] at hab
        have hcancel : new1 = a ++ (t, .add_socket conn) :: b := by
          have : (w.after_call env (writer_call cfg)).trace ++ new1 =
              (w.after_call env (writer_call cfg)).trace ++ (a ++ (t, .add_socket conn) :: b) := hab
          exact List.append_cancel_left this
        refine ⟨(t, .add_socket conn), ?_, rfl⟩
        rw [hcancel]
        simp
    · obtain ⟨more, hmore⟩ := common_run_writer_fails env urls cfg reconnect closeListener
        processingFn fuel w hurls hw (not_le.1 hret)
      refine ⟨_, hmore, ?_, fun _ => hen, ?_⟩
      · exact ⟨fun _ => hen, fun _ => ⟨_, List.mem_cons_self _ _, _, rfl⟩⟩
      · intro _ h0
        exact absurd h0 hret
  · have hwf : writeStats cfg = false := by simpa using hw
    have hnen : ¬ (cfg.stats_file ≠ "" ∧ 0 < cfg.stats_freq_ms) :=
      fun h => hw ((writeStats_iff cfg).2 h)
    have hrun := common_run_enters_loop_without_writer env urls cfg reconnect closeListener
      processingFn fuel w hurls hwf
    obtain ⟨new, hnew, hP⟩ := common_run_loop_ext env urls (urls.map env.parse) reconnect
      closeListener processingFn hcb fuel
      { listeningSock := none, nextReconnect := w.now, stats := none, world := w }
    rw [← hrun] at hnew
    refine ⟨new, hnew, ?_, ?_, ?_⟩
    · constructor
      · rintro ⟨ev, hev, r, hr⟩
        have := hP ev hev
        rw [hr] at this
        simp [Event.in_loop, writer_call] at this
      · exact fun h => absurd h hnen
    · rintro ⟨ev, hev, conn, hr⟩
      have := hP ev hev
      rw [hr] at this
      simp [Event.in_loop] at this
    · exact fun h => absurd h hnen

theorem idle_callback_well_behaved : well_behaved idle_callback :=
  fun _ w => Ext.refl _ w

/-- C9 at a caller URI with statistics every 100 ms into `stats.csv` and the
generator, set to two messages, as the callback. -/
theorem common_run_stats_writer_witness :
    ∃ new,
      (common_run caller_env ["srt://10.0.0.1:4200"] stats_on false false
          (generate.process_fn caller_env two_messages 5) 1 {}).state.world.trace = new ∧
      (∃ ev ∈ new, ∃ r, ev.2 = .call (writer_call stats_on) r) ∧
      (∃ ev ∈ new, ev.2 = .add_socket (.srt caller_conn)) := by
  obtain ⟨new, h1, h2, _, h4⟩ :=
    common_run_stats_writer caller_env ["srt://10.0.0.1:4200"] stats_on false false
      (generate.process_fn caller_env two_messages 5) 1 {} (by decide)
      (generate_process_fn_well_behaved _ _ _)
  exact ⟨new, by simpa using h1, h2.2 (by decide),
    h4 (by decide) (by decide) (by decide) _ (by decide)⟩

/-! ### Attaching and detaching endpoints -/

theorem remove_socket_not_mem (sw : stats_writer) (id : Int) :
    ∀ el ∈ (sw.remove_socket id).m_sock, el.1 ≠ id := by
  intro el hel
  unfold stats_writer.remove_socket at hel
  simp only [List.mem_filter] at hel
  simpa using hel.2

theorem add_remove_empty (sw : stats_writer) (conn : isocket) (h : sw.m_sock = []) :
    (sw.add_socket conn).remove_socket conn.id = {} := by
  unfold stats_writer.add_socket stats_writer.remove_socket
  simp [h]

theorem common_run_process_returns (closeListener : Bool) (processingFn : isocket → M Unit)
    (conn : isocket) (st : LoopState) (sw : stats_writer) (w1 : World)
    (hs : st.stats = some sw)
    (hp : processingFn conn ((st.world.record (.add_socket conn)).record (.processingFn conn)) =
      (.ok (), w1)) :
    common_run_process closeListener processingFn conn st =
      .next { st with listeningSock := if closeListener then none else st.listeningSock,
                      stats := some ((sw.add_socket conn).remove_socket conn.id),
                      world := w1.record (.remove_socket conn.id) } := by
  unfold common_run_process
  dsimp only
  rw [hs]
  dsimp only
  rw [hp]

/-- Without a callback that throws, an empty sampler stays empty across
iterations. -/
theorem common_run_loop_sampler_empty (env : Env) (urls : List String)
    (parsedUrls : List UriParser) (reconnect closeListener : Bool)
    (processingFn : isocket → M Unit)
    (hret : ∀ conn w, ∃ w1, processingFn conn w = (.ok (), w1)) (fuel : Nat) (st : LoopState)
    (hs : st.stats = some {}) :
    (common_run_loop env urls parsedUrls reconnect closeListener processingFn fuel st).state.stats
      = some {} := by
  induction fuel generalizing st with
  | zero => exact hs
  | succ fuel ih =>
    have hit : (∃ st1, common_run_iteration env urls parsedUrls closeListener processingFn st
          = .next st1 ∧ st1.stats = some {}) ∨
        (∃ st1, common_run_iteration env urls parsedUrls closeListener processingFn st
          = .returned st1 ∧ st1.stats = some {}) ∨
        (∃ e st1, common_run_iteration env urls parsedUrls closeListener processingFn st
          = .thrown e st1 ∧ st1.stats = some {}) := by
      unfold common_run_iteration
      dsimp only
      split
      · rename_i e heq
        unfold common_run_catch
        cases e with
        | socket_exception what => exact Or.inl ⟨_, rfl, hs⟩
        | std_exception what => exact Or.inr (Or.inr ⟨_, _, rfl, hs⟩)
        | null_dereference => exact Or.inr (Or.inr ⟨_, _, rfl, hs⟩)
        | out_of_fuel => exact Or.inr (Or.inr ⟨_, _, rfl, hs⟩)
      · exact Or.inr (Or.inl ⟨_, rfl, hs⟩)
      · rename_i conn heq
        obtain ⟨w1, hw1⟩ := hret conn
          (((create_connection env parsedUrls st.listeningSock (attempt_world st)).world.record
            (.add_socket conn)).record (.processingFn conn))
        refine Or.inl ⟨_, common_run_process_returns closeListener processingFn conn _ {} w1 hs hw1, ?_⟩
        dsimp only
        rw [add_remove_empty _ _ rfl]
    rw [common_run_loop]
    rcases hit with ⟨st1, h1, h2⟩ | ⟨st1, h1, h2⟩ | ⟨e, st1, h1, h2⟩
    · rw [h1]
      dsimp only
      split
      · exact ih st1 h2
      · exact h2
    · rw [h1]
      exact h2
    · rw [h1]
      exact h2

/-- C10 (as amended): in an iteration with a sampler in which the factory
yields a connection and the callback returns normally, the trace continues
with `add_socket`, the invocation of the callback, the callback's own events
and `remove_socket`, in this order; the endpoint is not attached when the
iteration ends, and a sampler that was empty is empty again. When no
invocation of the callback throws, the sampler is empty wherever the run
ends. -/
theorem common_run_attach_process_detach (env : Env) (urls : List String)
    (parsedUrls : List UriParser) (closeListener : Bool) (processingFn : isocket → M Unit)
    (st : LoopState) (sw : stats_writer) (conn : isocket) (w1 : World)
    (hcb : well_behaved processingFn) (hs : st.stats = some sw)
    (hc : (create_connection env parsedUrls st.listeningSock (attempt_world st)).result =
      .ok (some conn))
    (hp : processingFn conn
      (((create_connection env parsedUrls st.listeningSock (attempt_world st)).world.record
        (.add_socket conn)).record (.processingFn conn)) = (.ok (), w1)) :
    ∃ st1 cb,
      common_run_iteration env urls parsedUrls closeListener processingFn st = .next st1 ∧
      st1.world.trace =
        (create_connection env parsedUrls st.listeningSock (attempt_world st)).world.trace ++
          [((create_connection env parsedUrls st.listeningSock (attempt_world st)).world.now,
              .add_socket conn),
            ((create_connection env parsedUrls st.listeningSock (attempt_world st)).world.now,
              .processingFn conn)] ++ cb ++ [(w1.now, .remove_socket conn.id)] ∧
      (∀ ev ∈ cb, Event.of_callback ev.2 = true) ∧
      st1.stats = some ((sw.add_socket conn).remove_socket conn.id) ∧
      (∀ el ∈ ((sw.add_socket conn).remove_socket conn.id).m_sock, el.1 ≠ conn.id) ∧
      (sw.m_sock = [] → st1.stats = some {}) ∧
      ((∀ c w2, ∃ w3, processingFn c w2 = (.ok (), w3)) →
        ∀ (reconnect : Bool) (fuel : Nat) (st2 : LoopState), st2.stats = some {} →
          (common_run_loop env urls parsedUrls reconnect closeListener processingFn fuel
            st2).state.stats = some {}) := by
  obtain ⟨cb, hcb1, hcb2⟩ := hcb conn
    (((create_connection env parsedUrls st.listeningSock (attempt_world st)).world.record
      (.add_socket conn)).record (.processingFn conn))
  rw [hp] at hcb1
  have hit : common_run_iteration env urls parsedUrls closeListener processingFn st =
      common_run_process closeListener processingFn conn
        { st with
          listeningSock :=
            (create_connection env parsedUrls st.listeningSock (attempt_world st)).listeningSock,
          nextReconnect := st.world.now + seconds 1,
          world := (create_connection env parsedUrls st.listeningSock (attempt_world st)).world } := by
    unfold common_run_iteration
    dsimp only
    rw [hc]
  have hpr := common_run_process_returns closeListener processingFn conn
    { st with
      listeningSock :=
        (create_connection env parsedUrls st.listeningSock (attempt_world st)).listeningSock,
      nextReconnect := st.world.now + seconds 1,
      world := (create_connection env parsedUrls st.listeningSock (attempt_world st)).world }
    sw w1 hs hp
  rw [hit, hpr]
  refine ⟨_, cb, rfl, ?_, hcb2, rfl, remove_socket_not_mem _ _, ?_, ?_⟩
  · dsimp only at hcb1 ⊢
    simp only [World.record, hcb1, List.append_assoc, List.cons_append, List.nil_append]
  · intro hempty
    dsimp only
    rw [add_remove_empty sw conn hempty]
  · intro hret reconnect fuel st2 hs2
    exact common_run_loop_sampler_empty env urls parsedUrls reconnect closeListener processingFn
      hret fuel st2 hs2

/-- C10 at a caller URI with an empty sampler and the generator, set to two
messages, as the callback: the iteration ends with `remove_socket` and an
empty sampler. -/
theorem common_run_attach_process_detach_witness :
    ∃ st1,
      common_run_iteration caller_env ["srt://10.0.0.1:4200"] [caller_uri] false
        (generate.process_fn caller_env two_messages 5)
        { nextReconnect := 0, stats := some {}, world := {} } = .next st1 ∧
      st1.stats = some {} ∧
      (0, Event.remove_socket 7) ∈ st1.world.trace ∧
      (writes st1.world.trace).length = 2 := by
  obtain ⟨st1, cb, h1, h2, _, _, _, h6, _⟩ :=
    common_run_attach_process_detach caller_env ["srt://10.0.0.1:4200"] [caller_uri] false
      (generate.process_fn caller_env two_messages 5)
      { nextReconnect := 0, stats := some {}, world := {} } {}
      (.srt caller_conn) _ (generate_process_fn_well_behaved _ _ _) rfl (by decide) rfl
  refine ⟨st1, h1, h6 rfl, ?_, ?_⟩
  · rw [h2]
    exact List.mem_append_right _ (by decide)
  · have hv : common_run_iteration caller_env ["srt://10.0.0.1:4200"] [caller_uri] false
        (generate.process_fn caller_env two_messages 5)
        { nextReconnect := 0, stats := some {}, world := {} } = .next st1 := h1
    have hs : st1 = (common_run_iteration caller_env ["srt://10.0.0.1:4200"] [caller_uri] false
        (generate.process_fn caller_env two_messages 5)
        { nextReconnect := 0, stats := some {}, world := {} }).state := by
      rw [hv]; rfl
    rw [hs]
    decide

/-- The generator behind `common_run` with statistics: the writer is made,
the endpoint attached, two messages are written, and the endpoint is
detached before `common_run` returns. -/
theorem generate_run_example :
    ∃ st, generate.run caller_env ["srt://10.0.0.1:4200"]
        { two_messages with stats_freq_ms := 100, stats_file := "stats.csv" } 5 {} =
        .returned st ∧
      st.stats = some {} ∧
      (writes st.world.trace).length = 2 ∧
      st.world.trace.getLast? = some (0, .remove_socket 7) :=
  ⟨_, rfl, by decide, by decide, by decide⟩

/-! ### What reading and writing append to the trace -/

theorem recv_into_appends {P : Event → Bool} (env : Env) (c : Call) (buffer : List Nat)
    (h : ∀ r, P (.call c r) = true) : Appends P (recv_into env c buffer) :=
  fun w => ⟨[(w.now, .call c (env.ret w c))], rfl, by simpa using h _⟩

theorem srt_read_recv_appends (env : Env) (self : srt) (buffer : List Nat) :
    Appends Event.is_call (srt.read_recv env self buffer) := by
  unfold srt.read_recv
  refine Appends.bind (recv_into_appends env _ _ (fun _ => rfl)) fun x => ?_
  obtain ⟨res, buffer1⟩ := x
  refine Appends.ite ?_ (Appends.pure _ _)
  refine Appends.bind (Appends.call env _ (fun _ => rfl)) fun err => ?_
  exact Appends.ite (raise_exception_appends _ env _ (fun _ => rfl) (fun _ => rfl))
    (Appends.pure _ _)

theorem srt_read_appends (env : Env) (self : srt) (buffer : List Nat) (timeout_ms : Int) :
    Appends Event.is_call (srt.read env self buffer timeout_ms) := by
  unfold srt.read
  refine Appends.ite ?_ (srt_read_recv_appends env self buffer)
  refine Appends.bind (Appends.call env _ (fun _ => rfl)) fun r => ?_
  refine Appends.ite ?_ (srt_read_recv_appends env self buffer)
  refine Appends.bind (Appends.call env _ (fun _ => rfl)) fun err => ?_
  exact Appends.ite (Appends.pure _ _)
    (raise_exception_appends _ env _ (fun _ => rfl) (fun _ => rfl))

theorem srt_write_send_appends (env : Env) (self : srt) (data : List Nat) :
    Appends Event.is_call (srt.write_send env self data) := by
  unfold srt.write_send
  refine Appends.bind (Appends.call env _ (fun _ => rfl)) fun r => ?_
  refine Appends.ite ?_ (Appends.pure _ _)
  refine Appends.bind (Appends.call env _ (fun _ => rfl)) fun err => ?_
  refine Appends.ite (Appends.pure _ _) ?_
  refine Appends.bind (Appends.srt_getlasterror_str env (fun _ => rfl)) fun msg => ?_
  unfold raise_exception_reason
  exact Appends.throw _ _

theorem srt_write_appends (env : Env) (self : srt) (data : List Nat) (timeout_ms : Int) :
    Appends Event.is_call (srt.write env self data timeout_ms) := by
  unfold srt.write
  refine Appends.ite ?_ (srt_write_send_appends env self data)
  refine Appends.bind (Appends.call env _ (fun _ => rfl)) fun r => ?_
  exact Appends.ite (raise_exception_appends _ env _ (fun _ => rfl) (fun _ => rfl))
    (srt_write_send_appends env self data)

theorem other_read_appends (env : Env) (id : Int) (buffer : List Nat) (timeout_ms : Int) :
    Appends Event.is_call (other_read env id buffer timeout_ms) := by
  unfold other_read
  refine Appends.bind (recv_into_appends env _ _ (fun _ => rfl)) fun x => ?_
  obtain ⟨res, buffer1⟩ := x
  exact Appends.ite (throw_lasterror_appends _ env (fun _ => rfl)) (Appends.pure _ _)

theorem other_write_appends (env : Env) (id : Int) (data : List Nat) (timeout_ms : Int) :
    Appends Event.is_call (other_write env id data timeout_ms) := by
  unfold other_write
  refine Appends.bind (Appends.call env _ (fun _ => rfl)) fun r => ?_
  exact Appends.ite (throw_lasterror_appends _ env (fun _ => rfl)) (Appends.pure _ _)

/-- A read appends calls and, when it returns, the mark of what it returned. -/
theorem isocket_read_trace (env : Env) (sock : isocket) (buffer : List Nat) (timeout_ms : Int)
    (w : World) :
    ∃ calls, (∀ ev ∈ calls, Event.is_call ev.2 = true) ∧
      ((∃ e w1, isocket.read env sock buffer timeout_ms w = (.error e, w1) ∧
          w1.trace = w.trace ++ calls) ∨
        (∃ r w1, isocket.read env sock buffer timeout_ms w = (.ok r, w1) ∧
          w1.trace = w.trace ++ calls ++ [(w1.now, .isocket_read sock.id r.1 (r.2.take r.1))])) := by
  have key : ∀ m : M (Nat × List Nat), Appends Event.is_call m →
      ∃ calls, (∀ ev ∈ calls, Event.is_call ev.2 = true) ∧
        ((∃ e w1, (m >>= fun r => (emit (.isocket_read sock.id r.1 (r.2.take r.1)) >>=
              fun _ => pure r)) w = (.error e, w1) ∧ w1.trace = w.trace ++ calls) ∨
          (∃ r w1, (m >>= fun r => (emit (.isocket_read sock.id r.1 (r.2.take r.1)) >>=
              fun _ => pure r)) w = (.ok r, w1) ∧
            w1.trace = w.trace ++ calls ++
              [(w1.now, .isocket_read sock.id r.1 (r.2.take r.1))])) := by
    intro m hm
    obtain ⟨calls, he, hp⟩ := hm w
    refine ⟨calls, hp, ?_⟩
    simp only [bind_eq_M, pure_eq_M, M.bind]
    cases hmw : m w with
    | mk r w1 =>
      rw [hmw] at he
      cases r with
      | error e => exact Or.inl ⟨e, w1, rfl, he⟩
      | ok a =>
        refine Or.inr ⟨a, w1.record (.isocket_read sock.id a.1 (a.2.take a.1)), ?_, ?_⟩
        · simp [emit, M.pure]
        · have he2 : w1.trace = w.trace ++ calls := he
          simp [World.record, he2]
  unfold isocket.read
  cases sock with
  | srt s => exact key _ (srt_read_appends env s buffer timeout_ms)
  | srt_group g => exact key _ (other_read_appends env g.id buffer timeout_ms)
  | udp u => exact key _ (other_read_appends env u.id buffer timeout_ms)

/-- A write appends the mark of what it was given, and then calls. -/
theorem isocket_write_trace (env : Env) (sock : isocket) (n : Nat) (data : List Nat)
    (timeout_ms : Int) (w : World) :
    ∃ calls, (∀ ev ∈ calls, Event.is_call ev.2 = true) ∧
      (isocket.write env sock n data timeout_ms w).2.trace =
        w.trace ++ [(w.now, .isocket_write sock.id n data)] ++ calls := by
  have key : ∀ m : M Int, Appends Event.is_call m →
      ∃ calls, (∀ ev ∈ calls, Event.is_call ev.2 = true) ∧
        ((emit (.isocket_write sock.id n data) >>= fun _ => m) w).2.trace =
          w.trace ++ [(w.now, .isocket_write sock.id n data)] ++ calls := by
    intro m hm
    obtain ⟨calls, he, hp⟩ := hm (w.record (.isocket_write sock.id n data))
    refine ⟨calls, hp, ?_⟩
    simp only [bind_eq_M, M.bind, emit]
    rw [he]
    simp [World.record]
  unfold isocket.write
  cases sock with
  | srt s => exact key _ (srt_write_appends env s data timeout_ms)
  | srt_group g => exact key _ (other_write_appends env g.id data timeout_ms)
  | udp u => exact key _ (other_write_appends env u.id data timeout_ms)

/-! ### The route pump -/

theorem reads_append (a b : List (Nat × Event)) : reads (a ++ b) = reads a ++ reads b := by
  simp [reads]

theorem writes_append (a b : List (Nat × Event)) : writes (a ++ b) = writes a ++ writes b := by
  simp [writes]

theorem reads_of_calls (calls : List (Nat × Event))
    (h : ∀ ev ∈ calls, Event.is_call ev.2 = true) : reads calls = [] := by
  unfold reads
  rw [List.filterMap_eq_nil_iff]
  intro ev hev
  have h1 := h ev hev
  cases hv : ev.2 <;> simp_all [Event.is_call, Event.read_message]

theorem writes_of_calls (calls : List (Nat × Event))
    (h : ∀ ev ∈ calls, Event.is_call ev.2 = true) : writes calls = [] := by
  unfold writes
  rw [List.filterMap_eq_nil_iff]
  intro ev hev
  have h1 := h ev hev
  cases hv : ev.2 <;> simp_all [Event.is_call, Event.written_message]

theorem new_events_append (w w1 : World) (new : List (Nat × Event))
    (h : w1.trace = w.trace ++ new) : new_events w w1 = new := by
  simp [new_events, h]

/-- The writes of the loop of the route pump are its non-empty reads. -/
theorem route_loop_messages (env : Env) (src dst : isocket) (desc : String) (fuel : Nat) :
    ∀ (buffer : List Nat) (w : World),
      ∃ new, (route_loop env src dst desc fuel buffer w).world.trace = w.trace ++ new ∧
        writes new = ((reads new).filter (fun r => r.2.1 != 0)).map (fun r => (dst.id, r.2)) ∧
        ∀ r ∈ reads new, r.1 = src.id := by
  induction fuel with
  | zero =>
    intro buffer w
    exact ⟨[], by simp [route_loop, Ended.world], by simp [reads, writes], by simp [reads]⟩
  | succ fuel ih =>
    intro buffer w
    unfold route_loop
    by_cases hfb : env.forceBreak w = true
    · simp only [hfb, if_true]
      exact ⟨[], by simp [Ended.world], by simp [reads, writes], by simp [reads]⟩
    · have hfb2 : env.forceBreak w = false := by simpa using hfb
      simp only [hfb2, Bool.false_eq_true, if_false]
      obtain ⟨calls, hc, hread⟩ := isocket_read_trace env src buffer (-1) w
      rcases hread with ⟨e, w1, heq, ht⟩ | ⟨r, w1, heq, ht⟩
      · rw [heq]
        refine ⟨calls, by simpa [Ended.world] using ht, ?_, ?_⟩
        · simp [reads_of_calls calls hc, writes_of_calls calls hc]
        · simp [reads_of_calls calls hc]
      · obtain ⟨bytes_read, buffer1⟩ := r
        rw [heq]
        by_cases hz : (bytes_read == 0) = true
        · simp only [hz, if_true]
          obtain ⟨new, hn, hw, hr⟩ := ih buffer1 (w1.record (.spdlog_info
            ("ROUTE " ++ desc ++ " read 0 bytes on a socket (spurious read-ready?). Retrying.")))
          have hz0 : bytes_read = 0 := by simpa using hz
          refine ⟨calls ++ [(w1.now, .isocket_read src.id bytes_read (buffer1.take bytes_read))]
            ++ [(w1.now, .spdlog_info
              ("ROUTE " ++ desc ++ " read 0 bytes on a socket (spurious read-ready?). Retrying."))]
            ++ new, ?_, ?_, ?_⟩
          · rw [hn]
            simp [World.record, ht]
          · simp only [reads_append, writes_append, reads_of_calls calls hc,
              writes_of_calls calls hc, hw]
            simp [reads, writes, Event.read_message, Event.written_message, hz0]
          · simp only [reads_append, reads_of_calls calls hc]
            intro r hr2
            simp [reads, Event.read_message] at hr2
            rcases hr2 with h | h
            · rw [h]
            · exact hr r (by simpa [reads] using h)
        · have hz2 : (bytes_read == 0) = false := by simpa using hz
          simp only [hz2, Bool.false_eq_true, if_false]
          obtain ⟨calls2, hc2, hwt⟩ :=
            isocket_write_trace env dst bytes_read (buffer1.take bytes_read) (-1) w1
          have hz0 : bytes_read ≠ 0 := by simpa using hz
          have hbase : ∀ new : List (Nat × Event),
              (writes new = ((reads new).filter (fun r => r.2.1 != 0)).map
                  (fun r => (dst.id, r.2)) ∧ ∀ r ∈ reads new, r.1 = src.id) →
              (writes (calls ++
                  [(w1.now, .isocket_read src.id bytes_read (buffer1.take bytes_read))] ++
                  [(w1.now, .isocket_write dst.id bytes_read (buffer1.take bytes_read))] ++
                  calls2 ++ new) =
                ((reads (calls ++
                  [(w1.now, .isocket_read src.id bytes_read (buffer1.take bytes_read))] ++
                  [(w1.now, .isocket_write dst.id bytes_read (buffer1.take bytes_read))] ++
                  calls2 ++ new)).filter (fun r => r.2.1 != 0)).map
                  (fun r => (dst.id, r.2)) ∧
                ∀ r ∈ reads (calls ++
                  [(w1.now, .isocket_read src.id bytes_read (buffer1.take bytes_read))] ++
                  [(w1.now, .isocket_write dst.id bytes_read (buffer1.take bytes_read))] ++
                  calls2 ++ new), r.1 = src.id) := by
            intro new ⟨hw, hr⟩
            constructor
            · simp only [reads_append, writes_append, reads_of_calls calls hc,
                writes_of_calls calls hc, reads_of_calls calls2 hc2,
                writes_of_calls calls2 hc2, hw]
              simp [reads, writes, Event.read_message, Event.written_message, hz0]
            · simp only [reads_append, reads_of_calls calls hc, reads_of_calls calls2 hc2]
              intro r hr2
              simp [reads, Event.read_message] at hr2
              rcases hr2 with h | h
              · rw [h]
              · exact hr r (by simpa [reads] using h)
          cases hwr : isocket.write env dst bytes_read (buffer1.take bytes_read) (-1) w1 with
          | mk res w2 =>
            rw [hwr] at hwt
            have hwt2 : w2.trace = w.trace ++ (calls ++
                  [(w1.now, .isocket_read src.id bytes_read (buffer1.take bytes_read))] ++
                  [(w1.now, .isocket_write dst.id bytes_read (buffer1.take bytes_read))] ++
                  calls2) := by
              have : w2.trace = w1.trace ++
                  [(w1.now, .isocket_write dst.id bytes_read (buffer1.take bytes_read))] ++
                  calls2 := hwt
              rw [this, ht]
              simp
            cases res with
            | error e =>
              have h0 := hbase [] ⟨by simp [reads, writes], by simp [reads]⟩
              simp only [List.append_nil] at h0
              exact ⟨_, by simpa [Ended.world] using hwt2, h0.1, h0.2⟩
            | ok bytes_sent =>
              simp only
              by_cases hs : (to_size_t bytes_sent != bytes_read) = true
              · simp only [hs, if_true]
                obtain ⟨new, hn, hw, hr⟩ := ih buffer1 (w2.record (.spdlog_info
                  (desc ++ " write returned " ++ toString bytes_sent ++ " bytes, expected " ++
                    toString bytes_read)))
                have h0 := hbase ([(w2.now, .spdlog_info
                  (desc ++ " write returned " ++ toString bytes_sent ++ " bytes, expected " ++
                    toString bytes_read))] ++ new) ⟨by
                      simp only [reads_append, writes_append, hw]
                      simp [reads, writes, Event.read_message, Event.written_message], by
                      intro r hr2
                      exact hr r (by simpa [reads, Event.read_message] using hr2)⟩
                refine ⟨_, ?_, h0.1, h0.2⟩
                rw [hn]
                simp [World.record, hwt2]
              · have hs2 : (to_size_t bytes_sent != bytes_read) = false := by simpa using hs
                simp only [hs2, Bool.false_eq_true, if_false]
                obtain ⟨new, hn, hw, hr⟩ := ih buffer1 w2
                have h0 := hbase new ⟨hw, hr⟩
                refine ⟨_, ?_, h0.1, h0.2⟩
                rw [hn, hwt2]
                simp

/-- C11: whatever the reads on the source return, the writes the route pump
performs are exactly its reads that returned a non-zero count, in the order
they were read, each passed to the destination with the count the read
returned and the bytes it produced; every read is on the source. -/
theorem route_writes_what_it_reads (env : Env) (src dst : isocket) (message_size : Int)
    (desc : String) (fuel : Nat) (w : World) :
    writes (new_events w (route env src dst message_size desc fuel w).world) =
      ((reads (new_events w (route env src dst message_size desc fuel w).world)).filter
        (fun r => r.2.1 != 0)).map (fun r => (dst.id, r.2)) ∧
    ∀ r ∈ reads (new_events w (route env src dst message_size desc fuel w).world),
      r.1 = src.id := by
  unfold route
  by_cases hneg : message_size < 0
  · simp [hneg, Ended.world, new_events, reads, writes]
  · simp only [hneg, if_false]
    obtain ⟨new, hn, hw, hr⟩ := route_loop_messages env src dst desc fuel
      (List.replicate message_size.toNat 0)
      (w.record (.spdlog_info ("ROUTE " ++ desc ++ " Started")))
    have hne : new_events w (route_loop env src dst desc fuel
        (List.replicate message_size.toNat 0)
        (w.record (.spdlog_info ("ROUTE " ++ desc ++ " Started")))).world =
          [(w.now, .spdlog_info ("ROUTE " ++ desc ++ " Started"))] ++ new := by
      apply new_events_append
      rw [hn]
      simp [World.record]
    rw [hne]
    simp only [reads_append, writes_append]
    have h1 : reads [(w.now, Event.spdlog_info ("ROUTE " ++ desc ++ " Started"))] = [] := by
      simp [reads, Event.read_message]
    have h2 : writes [(w.now, Event.spdlog_info ("ROUTE " ++ desc ++ " Started"))] = [] := by
      simp [writes, Event.written_message]
    rw [h1, h2]
    exact ⟨by simpa using hw, by simpa using hr⟩

/-- A run of the route pump: two messages with an empty read between them. -/
theorem route_relays_two_messages :
    writes (new_events {}
      (route (scripted [[1, 2], [], [3, 4]] [2, 2] 3) udp_in udp_out 2 "[SRC->DST]" 4 {}).world) =
      [(12, 2, [1, 2]), (12, 2, [3, 4])] ∧
    reads (new_events {}
      (route (scripted [[1, 2], [], [3, 4]] [2, 2] 3) udp_in udp_out 2 "[SRC->DST]" 4 {}).world) =
      [(11, 2, [1, 2]), (11, 0, []), (11, 2, [3, 4])] := by
  decide

/-- C13 (counterexample): the first `srt_sendmsg2` fails with
`SRT_EASYNCSND`, so the write of the message `[1, 2]` returns 0; the pump
logs it and reads the next message: `[1, 2]` is never written again. -/
theorem route_drops_message_on_would_block :
    route (scripted [[1, 2], [3, 4]] [-1, 2] 2) udp_in (.srt caller_conn) 2 "[SRC->DST]" 3 {} =
      .returned
        { trace := [(0, .spdlog_info "ROUTE [SRC->DST] Started"),
                    (0, .call (.isocket_read 11 2 (-1)) 2),
                    (0, .isocket_read 11 2 [1, 2]),
                    (0, .isocket_write 7 2 [1, 2]),
                    (0, .call (.srt_epoll_wait 3 true true (-1)) 0),
                    (0, .call (.srt_sendmsg2 7 [1, 2]) (-1)),
                    (0, .call .srt_getlasterror 6001),
                    (0, .spdlog_info "[SRC->DST] write returned 0 bytes, expected 2"),
                    (0, .call (.isocket_read 11 2 (-1)) 2),
                    (0, .isocket_read 11 2 [3, 4]),
                    (0, .isocket_write 7 2 [3, 4]),
                    (0, .call (.srt_epoll_wait 3 true true (-1)) 0),
                    (0, .call (.srt_sendmsg2 7 [3, 4]) 2)],
          now := 0 } := by
  decide

theorem call_run (env : Env) (c : Call) (w : World) :
    call env c w = (.ok (env.ret w c), w.after_call env c) := rfl

/-- The value of `srt::write` when `srt_sendmsg2` fails with `SRT_EASYNCSND`. -/
theorem srt_write_would_block (env : Env) (s : srt) (data : List Nat) (w : World)
    (hepoll : s.m_blocking_mode = false →
      env.ret w (.srt_epoll_wait s.m_epoll_io true true (-1)) ≠ SRT_ERROR)
    (hsend : env.ret (s.world_at_send env w) (.srt_sendmsg2 s.m_bind_socket data) = SRT_ERROR)
    (herr : env.ret ((s.world_at_send env w).after_call env (.srt_sendmsg2 s.m_bind_socket data))
      .srt_getlasterror = SRT_EASYNCSND) :
    srt.write env s data (-1) w =
      (.ok 0, ((s.world_at_send env w).after_call env
        (.srt_sendmsg2 s.m_bind_socket data)).after_call env .srt_getlasterror) := by
  have hsend_at : ∀ w0, env.ret w0 (.srt_sendmsg2 s.m_bind_socket data) = SRT_ERROR →
      env.ret (w0.after_call env (.srt_sendmsg2 s.m_bind_socket data)) .srt_getlasterror =
        SRT_EASYNCSND →
      srt.write_send env s data w0 =
        (.ok 0, (w0.after_call env (.srt_sendmsg2 s.m_bind_socket data)).after_call env
          .srt_getlasterror) := by
    intro w0 h1 h2
    simp only [srt.write_send, bind_eq_M, pure_eq_M, M.bind, call_run, h1, h2, beq_self_eq_true,
      if_true, M.pure]
  unfold srt.write
  cases hb : s.m_blocking_mode with
  | true =>
    simp only [srt.world_at_send, hb, if_true] at hsend herr ⊢
    simpa using hsend_at w hsend herr
  | false =>
    have he := hepoll hb
    simp only [srt.world_at_send, hb, Bool.false_eq_true, if_false] at hsend herr ⊢
    have hne : (env.ret w (.srt_epoll_wait s.m_epoll_io true true (-1)) == SRT_ERROR) = false := by
      simpa using he
    have h3 := hsend_at _ hsend herr
    simp only [Bool.not_false, if_true, bind_eq_M, M.bind, call_run, hne, Bool.false_eq_true,
      if_false, h3]

/-- C13 (as amended): when the destination is an SRT endpoint and
`srt_sendmsg2` fails with `SRT_EASYNCSND`, the write returns 0 and the route
pump does not write the message again: it logs the two counts and goes on
with the next iteration of its loop, whose read overwrites the buffer. -/
theorem route_would_block_not_retried (env : Env) (src : isocket) (s : srt) (desc : String)
    (fuel : Nat) (buffer : List Nat) (w : World) (bytes_read : Nat) (buffer1 : List Nat)
    (w1 : World)
    (hflag : env.forceBreak w = false)
    (hread : isocket.read env src buffer (-1) w = (.ok (bytes_read, buffer1), w1))
    (hn : bytes_read ≠ 0)
    (hepoll : s.m_blocking_mode = false →
      env.ret (w1.record (.isocket_write s.m_bind_socket bytes_read (buffer1.take bytes_read)))
        (.srt_epoll_wait s.m_epoll_io true true (-1)) ≠ SRT_ERROR)
    (hsend : env.ret (s.world_at_send env
        (w1.record (.isocket_write s.m_bind_socket bytes_read (buffer1.take bytes_read))))
      (.srt_sendmsg2 s.m_bind_socket (buffer1.take bytes_read)) = SRT_ERROR)
    (herr : env.ret ((s.world_at_send env
        (w1.record (.isocket_write s.m_bind_socket bytes_read (buffer1.take bytes_read)))).after_call
          env (.srt_sendmsg2 s.m_bind_socket (buffer1.take bytes_read)))
      .srt_getlasterror = SRT_EASYNCSND) :
    route_loop env src (.srt s) desc (fuel + 1) buffer w =
      route_loop env src (.srt s) desc fuel buffer1
        ((((s.world_at_send env
            (w1.record (.isocket_write s.m_bind_socket bytes_read
              (buffer1.take bytes_read)))).after_call env
            (.srt_sendmsg2 s.m_bind_socket (buffer1.take bytes_read))).after_call env
            .srt_getlasterror).record
          (.spdlog_info (desc ++ " write returned " ++ toString (0 : Int) ++
            " bytes, expected " ++ toString bytes_read))) := by
  have hz : (bytes_read == 0) = false := by simpa using hn
  have hs : (to_size_t 0 != bytes_read) = true := by
    have : to_size_t 0 = 0 := by decide
    rw [this]
    simpa using fun h => hn h.symm
  have hwrite : isocket.write env (.srt s) bytes_read (buffer1.take bytes_read) (-1) w1 =
      (.ok 0, ((s.world_at_send env
            (w1.record (.isocket_write s.m_bind_socket bytes_read
              (buffer1.take bytes_read)))).after_call env
            (.srt_sendmsg2 s.m_bind_socket (buffer1.take bytes_read))).after_call env
            .srt_getlasterror) := by
    have h := srt_write_would_block env s (buffer1.take bytes_read)
      (w1.record (.isocket_write s.m_bind_socket bytes_read (buffer1.take bytes_read)))
      hepoll hsend herr
    simp only [isocket.write, bind_eq_M, M.bind, emit, isocket.id]
    exact h
  rw [route_loop]
  simp only [hflag, Bool.false_eq_true, if_false, hread, hz, hwrite, hs, if_true]

/-- C13 at the run of the counterexample. -/
theorem route_would_block_not_retried_witness :
    route_loop (scripted [[1, 2], [3, 4]] [-1, 2] 2) udp_in (.srt caller_conn) "[SRC->DST]"
        (2 + 1) [0, 0] {} =
      route_loop (scripted [[1, 2], [3, 4]] [-1, 2] 2) udp_in (.srt caller_conn) "[SRC->DST]" 2
        [1, 2]
        { trace := [(0, .call (.isocket_read 11 2 (-1)) 2),
                    (0, .isocket_read 11 2 [1, 2]),
                    (0, .isocket_write 7 2 [1, 2]),
                    (0, .call (.srt_epoll_wait 3 true true (-1)) 0),
                    (0, .call (.srt_sendmsg2 7 [1, 2]) (-1)),
                    (0, .call .srt_getlasterror 6001),
                    (0, .spdlog_info "[SRC->DST] write returned 0 bytes, expected 2")],
          now := 0 } :=
  route_would_block_not_retried (scripted [[1, 2], [3, 4]] [-1, 2] 2) udp_in caller_conn
    "[SRC->DST]" 2 [0, 0] {} 2 [1, 2]
    { trace := [(0, .call (.isocket_read 11 2 (-1)) 2), (0, .isocket_read 11 2 [1, 2])], now := 0 }
    (by decide) (by decide) (by decide) (by decide) (by decide) (by decide)

/-! ### The forwarding pumps -/

/-- A `Receive` that returns 0 after a message was forwarded: the message is
sent, the second `Receive` ends the loop and both nodes are closed. -/
theorem forwardMessage_ends_at_later_zero_read :
    forwardMessage (scripted [[3, 4], []] [2] 5) ⟨21⟩ ⟨22⟩ 22 { message_size := 2 } 4 {} =
      .returned
        { trace := [(0, .call (.SrtNode_Receive 21 2) 2),
                    (0, .call (.SrtNode_Send 22 [3, 4] 22) 2),
                    (0, .call (.SrtNode_Receive 21 2) 0),
                    (0, .call (.SrtNode_Close 21) 0),
                    (0, .call (.SrtNode_Close 22) 0)],
          now := 0 } := by
  decide

theorem Returns.of_pure {α : Type} (a : α) : Returns (pure a : M α) :=
  fun _ => ⟨a, rfl⟩

theorem Returns.of_bind {α β : Type} {m : M α} {f : α → M β} (hm : Returns m)
    (hf : ∀ a, Returns (f a)) : Returns (m >>= f) := by
  intro w
  obtain ⟨a, ha⟩ := hm w
  show ∃ b, (M.bind m f w).1 = .ok b
  unfold M.bind
  cases hmw : m w with
  | mk r w1 =>
    rw [hmw] at ha
    simp only at ha
    subst ha
    exact hf a w1

theorem Returns.of_call (env : Env) (c : Call) : Returns (call env c) :=
  fun _ => ⟨_, rfl⟩

theorem Returns.of_emit (e : Event) : Returns (emit e) :=
  fun _ => ⟨_, rfl⟩

theorem Returns.of_srt_getlasterror_str (env : Env) : Returns (srt_getlasterror_str env) :=
  fun _ => ⟨_, rfl⟩

theorem Returns.of_ite {α : Type} {c : Prop} [Decidable c] {m1 m2 : M α}
    (h1 : Returns m1) (h2 : Returns m2) : Returns (if c then m1 else m2) := by
  split
  · exact h1
  · exact h2

theorem forwardMessage_body_returns (env : Env) (src dst : SrtNode) (dstSock : Int)
    (messageReceived : List Nat) :
    Returns (forwardMessage_body env src dst dstSock messageReceived) := by
  unfold forwardMessage_body
  have hrecv : Returns (SrtNode.Receive env src messageReceived) := fun _ => ⟨_, rfl⟩
  refine Returns.of_bind hrecv fun x => ?_
  obtain ⟨recvRes, connectionId, buffer1⟩ := x
  refine Returns.of_ite (Returns.of_ite (Returns.of_pure _) ?_) (Returns.of_ite ?_ ?_)
  · exact Returns.of_bind (Returns.of_srt_getlasterror_str env) fun _ =>
      Returns.of_bind (Returns.of_emit _) fun _ => Returns.of_pure _
  · exact Returns.of_bind (Returns.of_emit _) fun _ => Returns.of_pure _
  · refine Returns.of_bind (Returns.of_call env _) fun sendRes => ?_
    refine Returns.of_ite ?_ (Returns.of_pure _)
    exact Returns.of_bind (Returns.of_srt_getlasterror_str env) fun _ =>
      Returns.of_bind (Returns.of_emit _) fun _ => Returns.of_pure _

theorem forwardMessage_body_appends (env : Env) (src dst : SrtNode) (dstSock : Int)
    (messageReceived : List Nat) :
    Appends Event.in_forward_loop (forwardMessage_body env src dst dstSock messageReceived) := by
  unfold forwardMessage_body
  have hrecv : Appends Event.in_forward_loop (SrtNode.Receive env src messageReceived) :=
    fun w => ⟨[(w.now, .call (.SrtNode_Receive src.m_bindsock messageReceived.length)
      (env.ret w (.SrtNode_Receive src.m_bindsock messageReceived.length)))], rfl, by
        simp [Event.in_forward_loop]⟩
  refine Appends.bind hrecv fun x => ?_
  obtain ⟨recvRes, connectionId, buffer1⟩ := x
  refine Appends.ite (Appends.ite (Appends.pure _ _) ?_) (Appends.ite ?_ ?_)
  · exact Appends.bind (Appends.srt_getlasterror_str env (fun _ => rfl)) fun _ =>
      Appends.bind (Appends.emit _ rfl) fun _ => Appends.pure _ _
  · exact Appends.bind (Appends.emit _ rfl) fun _ => Appends.pure _ _
  · refine Appends.bind (Appends.call env _ (fun _ => rfl)) fun sendRes => ?_
    refine Appends.ite ?_ (Appends.pure _ _)
    exact Appends.bind (Appends.srt_getlasterror_str env (fun _ => rfl)) fun _ =>
      Appends.bind (Appends.emit _ rfl) fun _ => Appends.pure _ _

/-- The loop of `forwardMessage` does not throw and calls no `Close()`. -/
theorem forwardMessage_loop_ext (env : Env) (src dst : SrtNode) (dstSock : Int) (fuel : Nat) :
    ∀ (messageReceived : List Nat) (w : World),
      Ext Event.in_forward_loop w
        (forwardMessage_loop env src dst dstSock fuel messageReceived w).world ∧
      ∀ e w1, forwardMessage_loop env src dst dstSock fuel messageReceived w ≠ .thrown e w1 := by
  induction fuel with
  | zero =>
    intro messageReceived w
    exact ⟨by simpa [forwardMessage_loop, Ended.world] using Ext.refl _ w, by
      simp [forwardMessage_loop]⟩
  | succ fuel ih =>
    intro messageReceived w
    rw [forwardMessage_loop]
    by_cases hfb : env.forceBreak w = true
    · simp only [hfb, if_true]
      exact ⟨by simpa [Ended.world] using Ext.refl _ w, by simp⟩
    · have hfb2 : env.forceBreak w = false := by simpa using hfb
      simp only [hfb2, Bool.false_eq_true, if_false]
      have hb := forwardMessage_body_appends env src dst dstSock messageReceived w
      have hne : ∀ e w1, forwardMessage_body env src dst dstSock messageReceived w ≠
          (.error e, w1) := by
        intro e w1 he
        obtain ⟨a, ha⟩ := forwardMessage_body_returns env src dst dstSock messageReceived w
        rw [he] at ha
        simp at ha
      cases hbw : forwardMessage_body env src dst dstSock messageReceived w with
      | mk r w1 =>
        rw [hbw] at hb
        cases r with
        | error e => exact absurd hbw (hne e w1)
        | ok o =>
          cases o with
          | none => exact ⟨by simpa [Ended.world] using hb, by simp⟩
          | some buffer1 =>
            obtain ⟨h1, h2⟩ := ih buffer1 w1
            exact ⟨Ext.trans hb h1, h2⟩

theorem closes_append (node : Int) (a b : List (Nat × Event)) :
    closes node (a ++ b) = closes node a + closes node b := by
  simp [closes]

theorem closes_in_forward_loop (node : Int) (new : List (Nat × Event))
    (h : ∀ ev ∈ new, Event.in_forward_loop ev.2 = true) : closes node new = 0 := by
  unfold closes
  rw [List.countP_eq_zero]
  intro ev hev
  have h1 := h ev hev
  cases hv : ev.2 with
  | call c r => cases c <;> simp_all [Event.in_forward_loop]
  | _ => simp

/-- A run of `forwardMessage` that returns has called `Close()` once on
each of its two nodes. -/
theorem forwardMessage_closes (env : Env) (src dst : SrtNode) (dstSock : Int)
    (cfg : forward.config) (fuel : Nat) (w w1 : World)
    (h : forwardMessage env src dst dstSock cfg fuel w = .returned w1)
    (hne : src.m_bindsock ≠ dst.m_bindsock) :
    closes src.m_bindsock (new_events w w1) = 1 ∧ closes dst.m_bindsock (new_events w w1) = 1 := by
  unfold forwardMessage at h
  by_cases hneg : cfg.message_size < 0
  · simp [hneg] at h
  · simp only [hneg, if_false] at h
    obtain ⟨hext, _⟩ := forwardMessage_loop_ext env src dst dstSock fuel
      (List.replicate cfg.message_size.toNat 0) w
    cases hl : forwardMessage_loop env src dst dstSock fuel
        (List.replicate cfg.message_size.toNat 0) w with
    | returned w2 =>
      rw [hl] at h hext
      simp only [Ended.returned.injEq] at h
      obtain ⟨new, hn, hp⟩ := hext
      have hn2 : w2.trace = w.trace ++ new := hn
      have hw1 : new_events w w1 = new ++
          [(w2.now, .call (.SrtNode_Close src.m_bindsock)
              (env.ret w2 (.SrtNode_Close src.m_bindsock))),
            ((w2.after_call env (.SrtNode_Close src.m_bindsock)).now,
              .call (.SrtNode_Close dst.m_bindsock)
              (env.ret (w2.after_call env (.SrtNode_Close src.m_bindsock))
                (.SrtNode_Close dst.m_bindsock)))] := by
        apply new_events_append
        rw [← h]
        simp [World.after_call, hn2]
      rw [hw1]
      simp only [closes_append, closes_in_forward_loop _ new hp]
      have hne2 : dst.m_bindsock ≠ src.m_bindsock := fun h => hne h.symm
      simp [closes, hne, hne2]
    | thrown e w2 => rw [hl] at h; simp at h
    | out_of_fuel w2 => rw [hl] at h; simp at h

/-- What a session that reached the pumping stage is made of. -/
theorem startForwarding_pumped (env envA envB : Env) (cfg : forward.config)
    (srcUri dstUri : String) (fuel : Nat) (w : World) (f : Forwarding)
    (h : startForwarding env envA envB cfg srcUri dstUri fuel w = .pumped f) :
    ∃ sockSrc w1, f.joined.trace = w1.trace ∧
      f.thSrcToDst = forwardMessage envA f.src f.dst f.dst.GetBindSocket cfg fuel w1 ∧
      f.thDstToSrc = forwardMessage envB f.dst f.src sockSrc cfg fuel w1 := by
  unfold startForwarding at h
  split at h
  · simp at h
  · simp at h
  · rename_i src dst sockSrc w1 _
    simp only [Session.pumped.injEq] at h
    subst h
    exact ⟨sockSrc, w1, rfl, rfl, rfl⟩

/-- C15 (counterexample): a session whose source sends one message and
then ends the stream. Each direction calls `Close()` on both nodes when it
ends, so the source node has been closed twice. -/
theorem startForwarding_closes_source_twice :
    ∃ f, startForwarding (forward_env [] [] 3) (forward_env [[1, 2]] [2] 3) (forward_env [] [] 3)
        { message_size := 2 } "srt://:4200" "srt://10.0.0.1:4200" 3 {} = .pumped f ∧
      f.src = ⟨21⟩ ∧
      closes 21 (new_events f.joined f.thSrcToDst.world) +
        closes 21 (new_events f.joined f.thDstToSrc.world) = 2 :=
  ⟨_, rfl, by decide, by decide⟩

/-- C15 (as amended): in a session of `startForwarding` that reached the
pumping stage with two distinct nodes, each direction that has ended has
called `Close()` once on the source node and once on the destination node:
once both directions have ended, `Close()` has been called twice on each node. -/
theorem startForwarding_each_direction_closes_both (env envA envB : Env) (cfg : forward.config)
    (srcUri dstUri : String) (fuel : Nat) (w : World) (f : Forwarding) (wa wb : World)
    (hs : startForwarding env envA envB cfg srcUri dstUri fuel w = .pumped f)
    (ha : f.thSrcToDst = .returned wa) (hb : f.thDstToSrc = .returned wb)
    (hne : f.src.m_bindsock ≠ f.dst.m_bindsock) :
    closes f.src.m_bindsock (new_events f.joined wa) = 1 ∧
    closes f.src.m_bindsock (new_events f.joined wb) = 1 ∧
    closes f.dst.m_bindsock (new_events f.joined wa) = 1 ∧
    closes f.dst.m_bindsock (new_events f.joined wb) = 1 := by
  obtain ⟨sockSrc, w1, hj, hA, hB⟩ := startForwarding_pumped env envA envB cfg srcUri dstUri
    fuel w f hs
  have hnew : ∀ w2, new_events f.joined w2 = new_events w1 w2 := by
    intro w2
    simp [new_events, hj]
  rw [hA] at ha
  rw [hB] at hb
  have h1 := forwardMessage_closes envA f.src f.dst _ cfg fuel w1 wa ha hne
  have h2 := forwardMessage_closes envB f.dst f.src _ cfg fuel w1 wb hb (fun h => hne h.symm)
  simp only [hnew]
  exact ⟨h1.1, h2.2, h1.2, h2.1⟩

/-- C15 at the session of the counterexample. -/
theorem startForwarding_each_direction_closes_both_witness :
    ∃ f wa wb,
      startForwarding (forward_env [] [] 3) (forward_env [[1, 2]] [2] 3) (forward_env [] [] 3)
        { message_size := 2 } "srt://:4200" "srt://10.0.0.1:4200" 3 {} = .pumped f ∧
      f.thSrcToDst = .returned wa ∧ f.thDstToSrc = .returned wb ∧
      closes f.src.m_bindsock (new_events f.joined wa) = 1 ∧
      closes f.src.m_bindsock (new_events f.joined wb) = 1 ∧
      closes f.dst.m_bindsock (new_events f.joined wa) = 1 ∧
      closes f.dst.m_bindsock (new_events f.joined wb) = 1 := by
  refine ⟨_, _, _, rfl, rfl, rfl, ?_⟩
  exact startForwarding_each_direction_closes_both (forward_env [] [] 3)
    (forward_env [[1, 2]] [2] 3) (forward_env [] [] 3) { message_size := 2 } "srt://:4200"
    "srt://10.0.0.1:4200" 3 {} _ _ _ rfl rfl rfl (by decide)


/-! ### The generator: one iteration -/

theorem overwrite_length (buffer data : List Nat) :
    (overwrite buffer data).length = buffer.length := by
  simp [overwrite]
  omega

theorem writes_nil : writes [] = [] := rfl

theorem run_pipe_report_spec (cfg : generate.config) (st : PipeState) :
    ∃ tail, (run_pipe_report cfg st).world.trace = st.world.trace ++ tail ∧ writes tail = [] ∧
      (run_pipe_report cfg st).i = st.i ∧
      (run_pipe_report cfg st).message_to_send = st.message_to_send ∧
      (run_pipe_report cfg st).draws = st.draws := by
  unfold run_pipe_report
  split
  · exact ⟨[(st.world.now, _)], rfl, by simp [writes, Event.written_message], rfl, rfl, rfl⟩
  · exact ⟨[], by simp, rfl, rfl, rfl, rfl⟩

/-- Sending message `i`: one write, of the message as `generate_payload` left it. -/
theorem run_pipe_send_spec (env : Env) (target : isocket) (cfg : generate.config)
    (st : PipeState) :
    ∃ new, (run_pipe_send env target cfg st).state.world.trace = st.world.trace ++ new ∧
      writes new = [(target.id, st.message_to_send.length,
        overwrite st.message_to_send (env.received st.world .generate_payload))] ∧
      (run_pipe_send env target cfg st).state.i = st.i ∧
      (run_pipe_send env target cfg st).state.message_to_send.length =
        st.message_to_send.length ∧
      (run_pipe_send env target cfg st).state.draws = st.draws ∧
      (∀ st1, run_pipe_send env target cfg st ≠ .broke st1) ∧
      (writes_succeed env target → ∀ e st1, run_pipe_send env target cfg st ≠ .thrown e st1) := by
  obtain ⟨calls, hc, ht⟩ := isocket_write_trace env target
    (overwrite st.message_to_send (env.received st.world .generate_payload)).length
    (overwrite st.message_to_send (env.received st.world .generate_payload)) (-1)
    (st.world.after_call env .generate_payload)
  have hsucc := fun (h : writes_succeed env target) => h
    (overwrite st.message_to_send (env.received st.world .generate_payload)).length
    (overwrite st.message_to_send (env.received st.world .generate_payload))
    (st.world.after_call env .generate_payload)
  unfold run_pipe_send
  cases hw : isocket.write env target
      (overwrite st.message_to_send (env.received st.world .generate_payload)).length
      (overwrite st.message_to_send (env.received st.world .generate_payload)) (-1)
      (st.world.after_call env .generate_payload) with
  | mk res w1 =>
    rw [hw] at ht hsucc
    have ht2 : w1.trace = st.world.trace ++
        ([(st.world.now, .call .generate_payload (env.ret st.world .generate_payload))] ++
          [((st.world.after_call env .generate_payload).now,
            .isocket_write target.id
              (overwrite st.message_to_send (env.received st.world .generate_payload)).length
              (overwrite st.message_to_send (env.received st.world .generate_payload)))] ++
          calls) := by
      have : w1.trace = _ := ht
      rw [this]
      simp [World.after_call]
    have hwr : writes ([(st.world.now, Event.call .generate_payload
          (env.ret st.world .generate_payload))] ++
          [((st.world.after_call env .generate_payload).now,
            Event.isocket_write target.id
              (overwrite st.message_to_send (env.received st.world .generate_payload)).length
              (overwrite st.message_to_send (env.received st.world .generate_payload)))] ++
          calls) = [(target.id, st.message_to_send.length,
        overwrite st.message_to_send (env.received st.world .generate_payload))] := by
      simp only [writes_append, writes_of_calls calls hc]
      simp [writes, Event.written_message, overwrite_length]
    have hex : ∃ mid, w1.trace = st.world.trace ++ mid ∧ writes mid =
        [(target.id, st.message_to_send.length,
          overwrite st.message_to_send (env.received st.world .generate_payload))] :=
      ⟨_, ht2, hwr⟩
    obtain ⟨mid, hm1, hm2⟩ := hex
    cases res with
    | error e =>
      refine ⟨mid, hm1, hm2, rfl, overwrite_length _ _, rfl, by simp, ?_⟩
      intro h
      obtain ⟨r, hr⟩ := hsucc h
      simp at hr
    | ok r =>
      obtain ⟨tail, h1, h2, h3, h4, h5⟩ := run_pipe_report_spec cfg
        { st with
          message_to_send := overwrite st.message_to_send
            (env.received st.world .generate_payload)
          world := w1 }
      refine ⟨mid ++ tail, ?_, ?_, ?_, ?_, ?_, by simp, by simp⟩
      · simp only [PipeStep.state]
        rw [h1]
        simp only [hm1, List.append_assoc]
      · rw [writes_append, hm2, h2]
        simp
      · simpa [PipeStep.state] using h3
      · simp only [PipeStep.state]
        rw [h4]
        exact overwrite_length _ _
      · simpa [PipeStep.state] using h5

/-- The wait on the pacer writes nothing. -/
theorem run_pipe_waited_spec (env : Env) (cfg : generate.config) (st : PipeState) :
    ∃ pre, (run_pipe_waited env cfg st).world.trace = st.world.trace ++ pre ∧ writes pre = [] ∧
      (run_pipe_waited env cfg st).i = st.i ∧
      (run_pipe_waited env cfg st).message_to_send = st.message_to_send ∧
      (run_pipe_waited env cfg st).draws = st.draws := by
  unfold run_pipe_waited
  split
  · exact ⟨[(st.world.now, _)], rfl, by simp [writes, Event.written_message], rfl, rfl, rfl⟩
  · exact ⟨[], by simp, rfl, rfl, rfl, rfl⟩

/-- One pass through the body of the loop of `run_pipe`: nothing is written
when the duration has elapsed or the value drawn is below the loss rate, and
the message is written once otherwise. -/
theorem run_pipe_body_spec (env : Env) (target : isocket) (cfg : generate.config)
    (start_time : Nat) (st : PipeState) :
    ∃ new, (run_pipe_body env target cfg start_time st).state.world.trace =
        st.world.trace ++ new ∧
      (run_pipe_body env target cfg start_time st).state.i = st.i ∧
      (run_pipe_body env target cfg start_time st).state.message_to_send.length =
        st.message_to_send.length ∧
      (duration_elapsed cfg start_time (run_pipe_waited env cfg st) = true →
        writes new = [] ∧
        run_pipe_body env target cfg start_time st = .broke (run_pipe_waited env cfg st)) ∧
      (duration_elapsed cfg start_time (run_pipe_waited env cfg st) = false →
        (∀ st1, run_pipe_body env target cfg start_time st ≠ .broke st1) ∧
        (run_pipe_body env target cfg start_time st).state.draws = st.draws + 1 ∧
        (env.random_value st.draws < cfg.lossRate →
          writes new = [] ∧
          run_pipe_body env target cfg start_time st =
            .next { run_pipe_waited env cfg st with draws := st.draws + 1 }) ∧
        (¬ env.random_value st.draws < cfg.lossRate →
          writes new = [(target.id, st.message_to_send.length,
            overwrite st.message_to_send
              (env.received (run_pipe_waited env cfg st).world .generate_payload))] ∧
          (writes_succeed env target →
            ∀ e st1, run_pipe_body env target cfg start_time st ≠ .thrown e st1))) := by
  obtain ⟨pre, hp1, hp2, hp3, hp4, hp5⟩ := run_pipe_waited_spec env cfg st
  unfold run_pipe_body run_pipe_paced
  cases hd : duration_elapsed cfg start_time (run_pipe_waited env cfg st) with
  | true =>
    simp only [if_true]
    refine ⟨pre, hp1, hp3, by simp [PipeStep.state, hp4], by simp [hp2], by simp⟩
  | false =>
    simp only [Bool.false_eq_true, if_false]
    by_cases hl : env.random_value (run_pipe_waited env cfg st).draws < cfg.lossRate
    · simp only [hl, if_true]
      have hl2 : env.random_value st.draws < cfg.lossRate := by rwa [hp5] at hl
      refine ⟨pre, hp1, hp3, by simp [PipeStep.state, hp4], by simp, fun _ => ⟨by simp, ?_, ?_, ?_⟩⟩
      · simp [PipeStep.state, hp5]
      · intro _
        exact ⟨hp2, by rw [hp5]⟩
      · intro h
        exact absurd hl2 h
    · simp only [hl, if_false]
      have hl2 : ¬ env.random_value st.draws < cfg.lossRate := by rwa [hp5] at hl
      obtain ⟨new, h1, h2, h3, h4, h5, h6, h7⟩ := run_pipe_send_spec env target cfg
        { run_pipe_waited env cfg st with draws := (run_pipe_waited env cfg st).draws + 1 }
      refine ⟨pre ++ new, ?_, ?_, ?_, by simp, fun _ => ⟨h6, ?_, ?_, ?_⟩⟩
      · rw [h1]
        simp only [hp1, List.append_assoc]
      · rw [h3]
        exact hp3
      · rw [h4]
        simp [hp4]
      · rw [h5]
        simp [hp5]
      · intro h
        exact absurd h hl2
      · intro _
        refine ⟨?_, h7⟩
        rw [writes_append, hp2, h2]
        simp [hp4]

/-! ### The generator: the loop -/

/-- The body of the loop of `run_pipe` does not read the cancellation flag. -/
theorem run_pipe_body_flag (env : Env) (flag : World → Bool) (target : isocket)
    (cfg : generate.config) (start_time : Nat) (st : PipeState) :
    run_pipe_body { env with forceBreak := flag } target cfg start_time st =
      run_pipe_body env target cfg start_time st := rfl

/-- The body of the loop of `run_pipe` does not read `cfg.num_messages`. -/
theorem run_pipe_body_num_messages (env : Env) (dst : isocket) (cfg : generate.config) (n : Int)
    (start_time : Nat) (st : PipeState) :
    run_pipe_body env dst { cfg with num_messages := n } start_time st =
      run_pipe_body env dst cfg start_time st := rfl

theorem run_pipe_loop_num_messages (env : Env) (dst : isocket) (cfg : generate.config) (n : Int)
    (start_time : Nat) (num_messages : Int) (fuel : Nat) :
    ∀ st, run_pipe_loop env dst { cfg with num_messages := n } start_time num_messages fuel st =
      run_pipe_loop env dst cfg start_time num_messages fuel st := by
  induction fuel with
  | zero => intro st; rfl
  | succ fuel ih =>
    intro st
    rw [run_pipe_loop, run_pipe_loop, run_pipe_body_num_messages]
    split
    · split
      · exact ih _
      · rfl
      · rfl
    · rfl

theorem run_pipe_end_spec (env : Env) (w : World) :
    ∃ w1 tail, run_pipe_end env w = .returned w1 ∧ w1.trace = w.trace ++ tail ∧
      writes tail = [] := by
  unfold run_pipe_end
  split
  · exact ⟨_, [(w.now, _)], rfl, rfl, by simp [writes, Event.written_message]⟩
  · exact ⟨_, [], rfl, by simp, rfl⟩

theorem run_pipe_catch_spec (env : Env) (e : Thrown) (w : World) :
    ∃ tail, (run_pipe_catch env e w).world.trace = w.trace ++ tail ∧ writes tail = [] ∧
      ∀ w1, run_pipe_catch env e w ≠ .out_of_fuel w1 := by
  unfold run_pipe_catch
  cases e with
  | socket_exception what =>
    obtain ⟨w1, tail, h1, h2, h3⟩ := run_pipe_end_spec env
      (w.record (.spdlog_warn ("GENERATE " ++ what)))
    refine ⟨[(w.now, .spdlog_warn ("GENERATE " ++ what))] ++ tail, ?_, ?_, ?_⟩
    · simp only [h1, Ended.world, h2]
      simp [World.record]
    · rw [writes_append, h3]
      simp [writes, Event.written_message]
    · simp [h1]
  | std_exception what => exact ⟨[], by simp [Ended.world], rfl, by simp⟩
  | null_dereference => exact ⟨[], by simp [Ended.world], rfl, by simp⟩
  | out_of_fuel => exact ⟨[], by simp [Ended.world], rfl, by simp⟩

/-- One pass through the body writes at most one message. -/
theorem run_pipe_body_at_most_one (env : Env) (target : isocket) (cfg : generate.config)
    (start_time : Nat) (st : PipeState) :
    ∃ new, (run_pipe_body env target cfg start_time st).state.world.trace =
        st.world.trace ++ new ∧
      (run_pipe_body env target cfg start_time st).state.i = st.i ∧
      (writes new).length ≤ 1 := by
  obtain ⟨new, h1, h2, _, h4, h5⟩ := run_pipe_body_spec env target cfg start_time st
  refine ⟨new, h1, h2, ?_⟩
  cases hd : duration_elapsed cfg start_time (run_pipe_waited env cfg st) with
  | true => simp [(h4 hd).1]
  | false =>
    by_cases hl : env.random_value st.draws < cfg.lossRate
    · simp [((h5 hd).2.2.1 hl).1]
    · simp [((h5 hd).2.2.2 hl).1]

/-- With a count bound `N ≥ 0` the loop ends within `N - i + 1` tests of its
condition and writes at most `N - i` messages. -/
theorem run_pipe_loop_bounded (env : Env) (target : isocket) (cfg : generate.config)
    (start_time : Nat) (N : Int) (hN : 0 ≤ N) (fuel : Nat) :
    ∀ st, (N - st.i).toNat < fuel →
      ∃ new, (run_pipe_loop env target cfg start_time N fuel st).world.trace =
          st.world.trace ++ new ∧
        (writes new).length ≤ (N - st.i).toNat ∧
        ∀ w1, run_pipe_loop env target cfg start_time N fuel st ≠ .out_of_fuel w1 := by
  induction fuel with
  | zero => intro st h; omega
  | succ fuel ih =>
    intro st hfuel
    rw [run_pipe_loop]
    by_cases htest : ((decide (N < 0) || decide (st.i < N)) && !env.forceBreak st.world) = true
    · simp only [htest, if_true]
      have hi : st.i < N := by
        simp only [Bool.and_eq_true, Bool.or_eq_true, decide_eq_true_eq] at htest
        rcases htest.1 with h | h
        · omega
        · exact h
      obtain ⟨new, h1, h2, h3⟩ := run_pipe_body_at_most_one env target cfg start_time st
      cases hb : run_pipe_body env target cfg start_time st with
      | next st1 =>
        rw [hb] at h1 h2
        simp only [PipeStep.state] at h1 h2
        obtain ⟨new2, g1, g2, g3⟩ := ih { st1 with i := st1.i + 1 } (by
          simp only [h2]
          omega)
        refine ⟨new ++ new2, ?_, ?_, g3⟩
        · rw [g1]
          simp only [h1, List.append_assoc]
        · rw [writes_append, List.length_append]
          simp only [h2] at g2
          omega
      | broke st1 =>
        rw [hb] at h1
        simp only [PipeStep.state] at h1
        obtain ⟨w1, tail, g1, g2, g3⟩ := run_pipe_end_spec env st1.world
        refine ⟨new ++ tail, ?_, ?_, ?_⟩
        · simp only [g1, Ended.world, g2, h1, List.append_assoc]
        · rw [writes_append, List.length_append, g3]
          simp only [List.length_nil]
          omega
        · simp [g1]
      | thrown e st1 =>
        rw [hb] at h1
        simp only [PipeStep.state] at h1
        obtain ⟨tail, g1, g2, g3⟩ := run_pipe_catch_spec env e st1.world
        refine ⟨new ++ tail, ?_, ?_, g3⟩
        · simp only [g1, h1, List.append_assoc]
        · rw [writes_append, List.length_append, g2]
          simp only [List.length_nil]
          omega
    · rw [if_neg htest]
      obtain ⟨w1, tail, g1, g2, g3⟩ := run_pipe_end_spec env st.world
      refine ⟨tail, ?_, ?_, ?_⟩
      · simp only [g1, Ended.world, g2]
      · simp [g3]
      · simp [g1]

/-- With a count bound `N ≥ 0`, a flag that stays unset, writes that do not
fail, no duration bound and no draw below the loss rate, the loop returns
after exactly `N - i` writes, each of the whole message. -/
theorem run_pipe_loop_exact (env : Env) (target : isocket) (cfg : generate.config)
    (start_time : Nat) (N : Int) (hN : 0 ≤ N) (hD : cfg.duration ≤ 0)
    (hdraw : ∀ k, ¬ env.random_value k < cfg.lossRate)
    (hflag : ∀ w, env.forceBreak w = false) (hw : writes_succeed env target) (fuel : Nat) :
    ∀ st, st.i ≤ N → (N - st.i).toNat < fuel →
      ∃ w1 new, run_pipe_loop env target cfg start_time N fuel st = .returned w1 ∧
        w1.trace = st.world.trace ++ new ∧
        (writes new).length = (N - st.i).toNat ∧
        ∀ m ∈ writes new, m.1 = target.id ∧ m.2.1 = st.message_to_send.length ∧
          m.2.2.length = st.message_to_send.length := by
  have hnd : ∀ st, duration_elapsed cfg start_time st = false := by
    intro st
    have : ¬ cfg.duration > 0 := by omega
    simp [duration_elapsed, this]
  induction fuel with
  | zero => intro st _ h; omega
  | succ fuel ih =>
    intro st hle hfuel
    rw [run_pipe_loop]
    by_cases hi : st.i < N
    · have htest : ((decide (N < 0) || decide (st.i < N)) && !env.forceBreak st.world) = true := by
        simp [hi, hflag]
      simp only [htest, if_true]
      obtain ⟨new, h1, h2, h3, _, h5⟩ := run_pipe_body_spec env target cfg start_time st
      obtain ⟨hnb, _, _, hsend⟩ := h5 (hnd _)
      obtain ⟨hwr, hnt⟩ := hsend (hdraw _)
      cases hb : run_pipe_body env target cfg start_time st with
      | next st1 =>
        rw [hb] at h1 h2 h3
        simp only [PipeStep.state] at h1 h2 h3
        obtain ⟨w1, new2, g1, g2, g3, g4⟩ := ih { st1 with i := st1.i + 1 } (by
          simp only [h2]
          omega) (by
          simp only [h2]
          omega)
        refine ⟨w1, new ++ new2, g1, ?_, ?_, ?_⟩
        · rw [g2]
          simp only [h1, List.append_assoc]
        · rw [writes_append, List.length_append, hwr, g3]
          simp only [h2, List.length_singleton]
          omega
        · intro m hm
          rw [writes_append, hwr] at hm
          rcases List.mem_append.1 hm with h | h
          · simp only [List.mem_singleton] at h
            rw [h]
            exact ⟨rfl, rfl, overwrite_length _ _⟩
          · have := g4 m h
            simpa only [h3] using this
      | broke st1 => exact absurd hb (hnb st1)
      | thrown e st1 => exact absurd hb (hnt hw e st1)
    · have htest : ((decide (N < 0) || decide (st.i < N)) && !env.forceBreak st.world) = false := by
        have : ¬ N < 0 := by omega
        simp [hi, this]
      simp only [htest, Bool.false_eq_true, if_false]
      have hend : run_pipe_end env st.world = .returned st.world := by
        simp [run_pipe_end, hflag]
      refine ⟨st.world, [], hend, by simp, ?_, by simp [writes]⟩
      have : N - st.i = 0 := by omega
      simp [this, writes]

/-- Without a count bound and without a duration bound, the loop does not end
while the flag stays unset and no write fails. -/
theorem run_pipe_loop_unbounded (env : Env) (target : isocket) (cfg : generate.config)
    (start_time : Nat) (N : Int) (hN : N < 0) (hD : cfg.duration ≤ 0)
    (hflag : ∀ w, env.forceBreak w = false) (hw : writes_succeed env target) (fuel : Nat) :
    ∀ st, ∃ w1, run_pipe_loop env target cfg start_time N fuel st = .out_of_fuel w1 := by
  have hnd : ∀ st, duration_elapsed cfg start_time st = false := by
    intro st
    have : ¬ cfg.duration > 0 := by omega
    simp [duration_elapsed, this]
  induction fuel with
  | zero => intro st; exact ⟨st.world, rfl⟩
  | succ fuel ih =>
    intro st
    rw [run_pipe_loop]
    have htest : ((decide (N < 0) || decide (st.i < N)) && !env.forceBreak st.world) = true := by
      simp [hN, hflag]
    simp only [htest, if_true]
    obtain ⟨new, h1, h2, h3, _, h5⟩ := run_pipe_body_spec env target cfg start_time st
    obtain ⟨hnb, _, hskip, hsend⟩ := h5 (hnd _)
    cases hb : run_pipe_body env target cfg start_time st with
    | next st1 => exact ih _
    | broke st1 => exact absurd hb (hnb st1)
    | thrown e st1 =>
      by_cases hl : env.random_value st.draws < cfg.lossRate
      · rw [(hskip hl).2] at hb
        simp at hb
      · exact absurd hb ((hsend hl).2 hw e st1)

/-- When every draw is below the loss rate, the loop writes nothing. -/
theorem run_pipe_loop_all_lost (env : Env) (target : isocket) (cfg : generate.config)
    (start_time : Nat) (N : Int) (hdraw : ∀ k, env.random_value k < cfg.lossRate) (fuel : Nat) :
    ∀ st, ∃ new, (run_pipe_loop env target cfg start_time N fuel st).world.trace =
        st.world.trace ++ new ∧ writes new = [] := by
  induction fuel with
  | zero => intro st; exact ⟨[], by simp [run_pipe_loop, Ended.world], rfl⟩
  | succ fuel ih =>
    intro st
    rw [run_pipe_loop]
    split
    · obtain ⟨new, h1, _, _, h4, h5⟩ := run_pipe_body_spec env target cfg start_time st
      have hnw : writes new = [] := by
        cases hd : duration_elapsed cfg start_time (run_pipe_waited env cfg st) with
        | true => exact (h4 hd).1
        | false => exact ((h5 hd).2.2.1 (hdraw _)).1
      cases hb : run_pipe_body env target cfg start_time st with
      | next st1 =>
        rw [hb] at h1
        simp only [PipeStep.state] at h1
        obtain ⟨new2, g1, g2⟩ := ih { st1 with i := st1.i + 1 }
        refine ⟨new ++ new2, ?_, by rw [writes_append, hnw, g2]; rfl⟩
        rw [g1]
        simp only [h1, List.append_assoc]
      | broke st1 =>
        rw [hb] at h1
        simp only [PipeStep.state] at h1
        obtain ⟨w1, tail, g1, g2, g3⟩ := run_pipe_end_spec env st1.world
        refine ⟨new ++ tail, ?_, by rw [writes_append, hnw, g3]; rfl⟩
        simp only [g1, Ended.world, g2, h1, List.append_assoc]
      | thrown e st1 =>
        rw [hb] at h1
        simp only [PipeStep.state] at h1
        obtain ⟨tail, g1, g2, _⟩ := run_pipe_catch_spec env e st1.world
        refine ⟨new ++ tail, ?_, by rw [writes_append, hnw, g2]; rfl⟩
        simp only [g1, h1, List.append_assoc]
    · obtain ⟨w1, tail, g1, g2, g3⟩ := run_pipe_end_spec env st.world
      exact ⟨tail, by simp only [g1, Ended.world, g2], g3⟩

/-! ### The generator: cancellation, bounds, loss and throughput -/

theorem steady_writes_succeed (write_ns : Nat) (draws : Nat → ℚ) (stop : Option Nat) (id : Int) :
    writes_succeed (steady write_ns draws stop) (.udp ⟨id⟩) := by
  intro n data w
  have h : ¬ ((data.length : Int) < 0) := by omega
  simp [isocket.write, other_write, M.bind, emit, call, steady, M.pure, h]

/-- C16 (counterexample): the flag becomes set during the first wait on
the pacer, and the first message is written all the same; the loop ends at
its next test of the flag. -/
theorem run_pipe_writes_after_cancellation :
    (steady 0 (fun _ => 0) (some 1)).forceBreak
      { trace := [(0, .call .ipacer_wait 0)], now := 0 } = true ∧
    run_pipe (steady 0 (fun _ => 0) (some 1)) udp_out { sendrate := 1000000, message_size := 2 }
        5 {} =
      .returned
        { trace := [(0, .call .ipacer_wait 0),
                    (0, .call .generate_payload 0),
                    (0, .isocket_write 12 2 [0, 1]),
                    (0, .call (.isocket_write 12 [0, 1] (-1)) 2),
                    (0, .spdlog_info "GENERATE interrupted by request!")],
          now := 0 } := by
  decide

/-- C16 (as amended): `run_pipe` reads the cancellation flag at the condition
of its loop only. When the flag is read set there, the loop ends and no
further message is written. The body of the loop does not depend on the
flag: when the flag is set as the wait on the pacer of iteration `i`
returns, message `i` is written as it would be otherwise. -/
theorem run_pipe_reads_flag_at_loop_test_only (env : Env) (target : isocket)
    (cfg : generate.config) (start_time : Nat) (num_messages : Int) (fuel : Nat)
    (st : PipeState) :
    (env.forceBreak st.world = true →
      run_pipe_loop env target cfg start_time num_messages (fuel + 1) st =
        run_pipe_end env st.world ∧
      writes (new_events st.world (run_pipe_end env st.world).world) = []) ∧
    (∀ flag, run_pipe_body { env with forceBreak := flag } target cfg start_time st =
      run_pipe_body env target cfg start_time st) ∧
    (env.forceBreak (run_pipe_waited env cfg st).world = true →
      duration_elapsed cfg start_time (run_pipe_waited env cfg st) = false →
      ¬ env.random_value st.draws < cfg.lossRate →
      writes (new_events st.world (run_pipe_body env target cfg start_time st).state.world) =
        [(target.id, st.message_to_send.length,
          overwrite st.message_to_send
            (env.received (run_pipe_waited env cfg st).world .generate_payload))]) := by
  refine ⟨?_, fun flag => run_pipe_body_flag env flag target cfg start_time st, ?_⟩
  · intro hset
    constructor
    · rw [run_pipe_loop]
      simp [hset]
    · obtain ⟨w1, tail, g1, g2, g3⟩ := run_pipe_end_spec env st.world
      rw [g1]
      simp only [Ended.world]
      rw [new_events_append _ _ _ g2]
      exact g3
  · intro _ hd hl
    obtain ⟨new, h1, _, _, _, h5⟩ := run_pipe_body_spec env target cfg start_time st
    rw [new_events_append _ _ _ h1]
    exact ((h5 hd).2.2.2 hl).1

/-- C16 at the run of the counterexample: the flag is set when the wait
returns and the message is written; at the next test the loop ends. -/
theorem run_pipe_reads_flag_at_loop_test_only_witness :
    (run_pipe_loop (steady 0 (fun _ => 0) (some 1)) udp_out
        { sendrate := 1000000, message_size := 2 } 0 (-1) (4 + 1)
        { i := 1, stat_time := 0, prev_i := 0, message_to_send := [0, 1], draws := 1,
          world := { trace := [(0, .call .ipacer_wait 0)], now := 0 } } =
      run_pipe_end (steady 0 (fun _ => 0) (some 1))
        { trace := [(0, .call .ipacer_wait 0)], now := 0 }) ∧
    writes (new_events {}
      (run_pipe_body (steady 0 (fun _ => 0) (some 1)) udp_out
        { sendrate := 1000000, message_size := 2 } 0 first_test).state.world) =
      [(12, 2, [0, 1])] :=
  ⟨((run_pipe_reads_flag_at_loop_test_only (steady 0 (fun _ => 0) (some 1)) udp_out
      { sendrate := 1000000, message_size := 2 } 0 (-1) 4
      { i := 1, stat_time := 0, prev_i := 0, message_to_send := [0, 1], draws := 1,
        world := { trace := [(0, .call .ipacer_wait 0)], now := 0 } }).1 (by decide)).1,
   (run_pipe_reads_flag_at_loop_test_only (steady 0 (fun _ => 0) (some 1)) udp_out
      { sendrate := 1000000, message_size := 2 } 0 (-1) 4 first_test).2.2
      (by decide) (by decide) (by decide)⟩

theorem run_pipe_body_not_broke (env : Env) (target : isocket) (cfg : generate.config)
    (start_time : Nat) (st : PipeState)
    (hd : duration_elapsed cfg start_time (run_pipe_waited env cfg st) = false) :
    (∃ st1, run_pipe_body env target cfg start_time st = .next st1) ∨
    (∃ e st1, run_pipe_body env target cfg start_time st = .thrown e st1) := by
  unfold run_pipe_body run_pipe_paced
  rw [hd]
  simp only [Bool.false_eq_true, if_false]
  split
  · exact Or.inl ⟨_, rfl⟩
  · unfold run_pipe_send
    split
    · exact Or.inr ⟨_, _, rfl⟩
    · exact Or.inl ⟨_, rfl⟩

/-- C17: with a duration bound greater than zero the count is not consulted:
`run_pipe` runs as it does for any other value of `num_messages`, its loop
has the bound -1, and at every test of the loop condition, whatever the
index, the loop ends when the flag is set, ends at the duration test when
the duration has passed, and otherwise runs its body and goes on to the
next test unless a write throws. With a duration of zero or less and
`num_messages = N ≥ 0` the loop ends within `N + 1` tests of its condition
and after at most `N` writes; with a negative `num_messages` it does not end
as long as the flag stays unset and no write fails. -/
theorem run_pipe_duration_before_count (env : Env) (dst : isocket) (cfg : generate.config)
    (fuel : Nat) (w : World) :
    (cfg.duration > 0 →
      (∀ n, run_pipe env dst { cfg with num_messages := n } fuel w =
        run_pipe env dst cfg fuel w) ∧
      (0 ≤ cfg.message_size →
        run_pipe env dst cfg fuel w =
          run_pipe_loop env dst cfg w.now (-1) fuel
            { i := 0, stat_time := w.now, prev_i := 0,
              message_to_send := (List.range cfg.message_size.toNat).map (fun k => k % 256),
              draws := 0, world := w }) ∧
      (∀ (k : Nat) (st : PipeState),
        (env.forceBreak st.world = true →
          run_pipe_loop env dst cfg w.now (-1) (k + 1) st = run_pipe_end env st.world) ∧
        (env.forceBreak st.world = false →
          duration_elapsed cfg w.now (run_pipe_waited env cfg st) = true →
          run_pipe_loop env dst cfg w.now (-1) (k + 1) st =
            run_pipe_end env (run_pipe_waited env cfg st).world) ∧
        (env.forceBreak st.world = false →
          duration_elapsed cfg w.now (run_pipe_waited env cfg st) = false →
          (∃ st1, run_pipe_body env dst cfg w.now st = .next st1 ∧
            run_pipe_loop env dst cfg w.now (-1) (k + 1) st =
              run_pipe_loop env dst cfg w.now (-1) k { st1 with i := st1.i + 1 }) ∨
          (∃ e st1, run_pipe_body env dst cfg w.now st = .thrown e st1 ∧
            run_pipe_loop env dst cfg w.now (-1) (k + 1) st =
              run_pipe_catch env e st1.world)))) ∧
    (cfg.duration ≤ 0 → 0 ≤ cfg.num_messages → cfg.num_messages.toNat < fuel →
      (∀ w1, run_pipe env dst cfg fuel w ≠ .out_of_fuel w1) ∧
      (writes (new_events w (run_pipe env dst cfg fuel w).world)).length ≤
        cfg.num_messages.toNat) ∧
    (cfg.duration ≤ 0 → cfg.num_messages < 0 → 0 ≤ cfg.message_size →
      (∀ w1, env.forceBreak w1 = false) → writes_succeed env dst →
      ∃ w1, run_pipe env dst cfg fuel w = .out_of_fuel w1) := by
  refine ⟨?_, ?_, ?_⟩
  · intro hD
    refine ⟨?_, ?_, ?_⟩
    · intro n
      unfold run_pipe
      simp only [hD, if_true]
      split
      · rfl
      · exact run_pipe_loop_num_messages env dst cfg n w.now (-1) fuel _
    · intro hS
      have hns : ¬ cfg.message_size < 0 := by omega
      unfold run_pipe
      simp only [hD, hns, if_true, if_false]
    · intro k st
      refine ⟨?_, ?_, ?_⟩
      · intro hset
        rw [run_pipe_loop]
        simp [hset]
      · intro hflag hel
        rw [run_pipe_loop]
        have hb : run_pipe_body env dst cfg w.now st = .broke (run_pipe_waited env cfg st) := by
          unfold run_pipe_body run_pipe_paced
          rw [hel]
          rfl
        simp [hflag, hb]
      · intro hflag hel
        rcases run_pipe_body_not_broke env dst cfg w.now st hel with ⟨st1, h1⟩ | ⟨e, st1, h1⟩
        · refine Or.inl ⟨st1, h1, ?_⟩
          rw [run_pipe_loop]
          simp [hflag, h1]
        · refine Or.inr ⟨e, st1, h1, ?_⟩
          rw [run_pipe_loop]
          simp [hflag, h1]
  · intro hD hN hfuel
    have hnd : ¬ cfg.duration > 0 := by omega
    unfold run_pipe
    simp only [hnd, if_false]
    split
    · simp [Ended.world, new_events, writes]
    · obtain ⟨new, h1, h2, h3⟩ := run_pipe_loop_bounded env dst cfg w.now cfg.num_messages hN
        fuel
        { i := 0, stat_time := w.now, prev_i := 0,
          message_to_send := (List.range cfg.message_size.toNat).map (fun k => k % 256),
          draws := 0, world := w } (by simpa using hfuel)
      refine ⟨h3, ?_⟩
      rw [new_events_append _ _ _ h1]
      simpa using h2
  · intro hD hN hS hflag hw
    have hnd : ¬ cfg.duration > 0 := by omega
    have hns : ¬ cfg.message_size < 0 := by omega
    unfold run_pipe
    simp only [hnd, hns, if_false]
    exact run_pipe_loop_unbounded env dst cfg w.now cfg.num_messages hN hD hflag hw fuel _

/-- A duration of one second and a count of 0, on an endpoint whose writes
take 0.6 s: two messages are written, and the loop ends at the duration test
of the third iteration. -/
theorem run_pipe_duration_ignores_zero_count :
    run_pipe (steady 600000000 (fun _ => 0) none) udp_out
        { num_messages := 0, duration := 1, message_size := 2 } 5 {} =
      .returned
        { trace := [(0, .call .generate_payload 0),
                    (0, .isocket_write 12 2 [0, 1]),
                    (0, .call (.isocket_write 12 [0, 1] (-1)) 2),
                    (600000000, .call .generate_payload 0),
                    (600000000, .isocket_write 12 2 [0, 1]),
                    (600000000, .call (.isocket_write 12 [0, 1] (-1)) 2),
                    (1200000000, .sending_at 1 0)],
          now := 1200000000 } := by
  decide

/-- C17 at a steady endpoint: with a duration of one second the count 3 is
not consulted, and with the count 0 the first test of the loop condition is
followed by the body and by a next test; with no duration the run ends after
at most 3 writes; without a count it does not end. -/
theorem run_pipe_duration_before_count_witness :
    (run_pipe (steady 600000000 (fun _ => 0) none) udp_out
        { num_messages := 3, duration := 1, message_size := 2 } 5 {} =
      run_pipe (steady 600000000 (fun _ => 0) none) udp_out
        { duration := 1, message_size := 2 } 5 {}) ∧
    (∃ st1, run_pipe_body (steady 600000000 (fun _ => 0) none) udp_out
          { num_messages := 0, duration := 1, message_size := 2 } 0 first_test = .next st1 ∧
        run_pipe_loop (steady 600000000 (fun _ => 0) none) udp_out
            { num_messages := 0, duration := 1, message_size := 2 } 0 (-1) (4 + 1) first_test =
          run_pipe_loop (steady 600000000 (fun _ => 0) none) udp_out
            { num_messages := 0, duration := 1, message_size := 2 } 0 (-1) 4
            { st1 with i := st1.i + 1 }) ∧
    (writes (new_events {} (run_pipe (steady 600000000 (fun _ => 0) none) udp_out
        { num_messages := 3, message_size := 2 } 5 {}).world)).length ≤ 3 ∧
    (∃ w1, run_pipe (steady 600000000 (fun _ => 0) none) udp_out { message_size := 2 } 5 {} =
      .out_of_fuel w1) := by
  refine ⟨((run_pipe_duration_before_count (steady 600000000 (fun _ => 0) none) udp_out
      { duration := 1, message_size := 2 } 5 {}).1 (by decide)).1 3, ?_,
   ((run_pipe_duration_before_count (steady 600000000 (fun _ => 0) none) udp_out
      { num_messages := 3, message_size := 2 } 5 {}).2.1 (by decide) (by decide) (by decide)).2,
   (run_pipe_duration_before_count (steady 600000000 (fun _ => 0) none) udp_out
      { message_size := 2 } 5 {}).2.2 (by decide) (by decide) (by decide) (fun _ => rfl)
      (steady_writes_succeed _ _ _ _)⟩
  rcases ((((run_pipe_duration_before_count (steady 600000000 (fun _ => 0) none) udp_out
      { num_messages := 0, duration := 1, message_size := 2 } 5 {}).1 (by decide)).2.2 4
      first_test).2.2 (by decide) (by decide)) with h | ⟨e, st1, hb, _⟩
  · exact h
  · obtain ⟨x, hx⟩ : ∃ x, run_pipe_body (steady 600000000 (fun _ => 0) none) udp_out
        { num_messages := 0, duration := 1, message_size := 2 } 0 first_test = .next x :=
      ⟨_, rfl⟩
    rw [hx] at hb
    cases hb

/-- C18: with `num_messages = N ≥ 0`, a message size `S`, no duration bound,
a loss rate of 0, draws that are not negative, writes that do not fail and a
flag that stays unset, `run_pipe` returns after exactly `N` writes to the
endpoint, each of `S` bytes; with `N = 0` it writes nothing. -/
theorem run_pipe_writes_num_messages (env : Env) (dst : isocket) (cfg : generate.config)
    (fuel : Nat) (w : World) (N S : Nat)
    (hN : cfg.num_messages = N) (hS : cfg.message_size = S) (hD : cfg.duration = 0)
    (hL : cfg.lossRate = 0) (hdraw : ∀ k, 0 ≤ env.random_value k)
    (hflag : ∀ w1, env.forceBreak w1 = false) (hw : writes_succeed env dst)
    (hfuel : N < fuel) :
    ∃ w1, run_pipe env dst cfg fuel w = .returned w1 ∧
      (writes (new_events w w1)).length = N ∧
      ∀ m ∈ writes (new_events w w1), m.1 = dst.id ∧ m.2.1 = S ∧ m.2.2.length = S := by
  have hnd : ¬ cfg.duration > 0 := by omega
  have hns : ¬ cfg.message_size < 0 := by omega
  unfold run_pipe
  simp only [hnd, hns, if_false]
  obtain ⟨w1, new, h1, h2, h3, h4⟩ := run_pipe_loop_exact env dst cfg w.now cfg.num_messages
    (by omega) (by omega) (fun k => by rw [hL]; exact not_lt.2 (hdraw k)) hflag hw fuel
    { i := 0, stat_time := w.now, prev_i := 0,
      message_to_send := (List.range cfg.message_size.toNat).map (fun k => k % 256),
      draws := 0, world := w } (by simp [hN]) (by simp [hN, hfuel])
  refine ⟨w1, h1, ?_, ?_⟩
  · rw [new_events_append _ _ _ h2, h3]
    simp [hN]
  · rw [new_events_append _ _ _ h2]
    intro m hm
    have := h4 m hm
    simpa [hS] using this

/-- C18 at a steady endpoint: three messages of two bytes. -/
theorem run_pipe_writes_num_messages_witness :
    ∃ w1, run_pipe (steady 600000000 (fun _ => 0) none) udp_out
        { num_messages := 3, message_size := 2 } 5 {} = .returned w1 ∧
      (writes (new_events {} w1)).length = 3 ∧
      ∀ m ∈ writes (new_events {} w1), m.1 = 12 ∧ m.2.1 = 2 ∧ m.2.2.length = 2 :=
  run_pipe_writes_num_messages (steady 600000000 (fun _ => 0) none) udp_out
    { num_messages := 3, message_size := 2 } 5 {} 3 2 rfl rfl rfl rfl (fun _ => le_refl _)
    (fun _ => rfl) (steady_writes_succeed _ _ _ _) (by decide)

/-- C19: an iteration of `run_pipe` that gets past the duration test writes
nothing exactly when the value drawn for it is below `lossRate`, and writes
its message once otherwise. Hence, the draws being in [0,100): with a loss
rate of 0 or less every such iteration writes its message, and with a loss
rate of 100 or more a run of `run_pipe` writes nothing. -/
theorem run_pipe_skips_iff_draw_below_loss (env : Env) (target : isocket)
    (cfg : generate.config) (start_time : Nat) (st : PipeState)
    (hdraw : ∀ k, 0 ≤ env.random_value k ∧ env.random_value k < 100)
    (hdur : duration_elapsed cfg start_time (run_pipe_waited env cfg st) = false) :
    (writes (new_events st.world (run_pipe_body env target cfg start_time st).state.world) = [] ↔
      env.random_value st.draws < cfg.lossRate) ∧
    (¬ env.random_value st.draws < cfg.lossRate →
      writes (new_events st.world (run_pipe_body env target cfg start_time st).state.world) =
        [(target.id, st.message_to_send.length,
          overwrite st.message_to_send
            (env.received (run_pipe_waited env cfg st).world .generate_payload))]) ∧
    (cfg.lossRate ≤ 0 →
      (writes (new_events st.world
        (run_pipe_body env target cfg start_time st).state.world)).length = 1) ∧
    (100 ≤ cfg.lossRate → ∀ fuel w,
      writes (new_events w (run_pipe env target cfg fuel w).world) = []) := by
  obtain ⟨new, h1, _, _, _, h5⟩ := run_pipe_body_spec env target cfg start_time st
  obtain ⟨_, _, hskip, hsend⟩ := h5 hdur
  rw [new_events_append _ _ _ h1]
  refine ⟨?_, ?_, ?_, ?_⟩
  · constructor
    · intro hnil
      by_contra hl
      rw [(hsend hl).1] at hnil
      simp at hnil
    · intro hl
      exact (hskip hl).1
  · intro hl
    exact (hsend hl).1
  · intro hle
    have hl : ¬ env.random_value st.draws < cfg.lossRate :=
      not_lt.2 (le_trans hle (hdraw _).1)
    rw [(hsend hl).1]
    rfl
  · intro hge fuel w
    unfold run_pipe
    split
    · simp [Ended.world, new_events, writes]
    · obtain ⟨new2, g1, g2⟩ := run_pipe_loop_all_lost env target cfg w.now
        (if cfg.duration > 0 then -1 else cfg.num_messages)
        (fun k => lt_of_lt_of_le (hdraw k).2 hge) fuel
        { i := 0, stat_time := w.now, prev_i := 0,
          message_to_send := (List.range cfg.message_size.toNat).map (fun k => k % 256),
          draws := 0, world := w }
      rw [new_events_append _ _ _ g1]
      exact g2

/-- C19 at draws of 50: the first iteration writes its message when the loss
rate is 10, and a run with a loss rate of 100 writes nothing. -/
theorem run_pipe_skips_iff_draw_below_loss_witness :
    writes (new_events {} (run_pipe_body (steady 0 (fun _ => 50) none) udp_out
      { message_size := 2, lossRate := 10 } 0 first_test).state.world) = [(12, 2, [0, 1])] ∧
    writes (new_events {} (run_pipe (steady 0 (fun _ => 50) none) udp_out
      { num_messages := 3, message_size := 2, lossRate := 100 } 5 {}).world) = [] :=
  ⟨(run_pipe_skips_iff_draw_below_loss (steady 0 (fun _ => 50) none) udp_out
      { message_size := 2, lossRate := 10 } 0 first_test
      (fun _ => ⟨(by decide : (0 : ℚ) ≤ 50), (by decide : (50 : ℚ) < 100)⟩) (by decide)).2.1 (by decide),
   (run_pipe_skips_iff_draw_below_loss (steady 0 (fun _ => 50) none) udp_out
      { num_messages := 3, message_size := 2, lossRate := 100 } 0 first_test
      (fun _ => ⟨(by decide : (0 : ℚ) ≤ 50), (by decide : (50 : ℚ) < 100)⟩) (by decide)).2.2.2 (by decide) 5 {}⟩

/-- C20 (the failing inputs): writes of 0.6 s each. Without loss the first
line comes after two writes and has `n = 1`. With a loss rate of 10 and every
second draw below it, the second line comes after two more writes and has
`n = 4`: the iterations that skipped their send are counted. -/
theorem run_pipe_throughput_count_is_not_writes :
    throughput_lines (run_pipe (steady 600000000 (fun _ => 0) none) udp_out
      { num_messages := 3, message_size := 2 } 5 {}).world.trace 0 = [(1, 2)] ∧
    throughput_lines (run_pipe
      (steady 600000000 (fun k => if k % 2 = 1 then 0 else 50) none) udp_out
      { num_messages := 7, message_size := 2, lossRate := 10 } 9 {}).world.trace 0 =
      [(2, 2), (4, 2)] := by
  decide

/-! ### Reading and writing on an SRT endpoint -/

theorem overwrite_nil (buffer : List Nat) : overwrite buffer [] = buffer := by
  simp [overwrite]

/-- The value of `raise_exception(place)`. -/
theorem raise_exception_value {α : Type} (env : Env) (place : String) (w : World) :
    (raise_exception env place w : Except Thrown α × World).1 =
      .error (.socket_exception (place ++ ": " ++
        env.lasterror_str (w.after_call env .srt_getlasterror))) := rfl

theorem recv_into_run (env : Env) (c : Call) (buffer : List Nat) (w : World) :
    recv_into env c buffer w =
      (.ok (env.ret w c, overwrite buffer ((env.received w c).take (env.ret w c).toNat)),
        w.after_call env c) := rfl

theorem srt_read_recv_value (env : Env) (self : srt) (buffer : List Nat) (w : World) :
    (srt.read_recv env self buffer w).1 =
      if env.ret w (.srt_recvmsg2 self.m_bind_socket buffer.length) = SRT_ERROR then
        if env.ret (w.after_call env (.srt_recvmsg2 self.m_bind_socket buffer.length))
            .srt_getlasterror = SRT_EASYNCRCV then .ok (0, buffer)
        else .error (.socket_exception ("read::recv: " ++ env.lasterror_str
          (w.after_calls env [.srt_recvmsg2 self.m_bind_socket buffer.length,
            .srt_getlasterror, .srt_getlasterror])))
      else .ok (to_size_t (env.ret w (.srt_recvmsg2 self.m_bind_socket buffer.length)),
        overwrite buffer ((env.received w (.srt_recvmsg2 self.m_bind_socket buffer.length)).take
          (env.ret w (.srt_recvmsg2 self.m_bind_socket buffer.length)).toNat)) := by
  by_cases h1 : env.ret w (.srt_recvmsg2 self.m_bind_socket buffer.length) = SRT_ERROR
  · have h1b : (SRT_ERROR == env.ret w (.srt_recvmsg2 self.m_bind_socket buffer.length)) = true := by
      simp [h1]
    have htake : (env.ret w (.srt_recvmsg2 self.m_bind_socket buffer.length)).toNat = 0 := by
      rw [h1]; rfl
    by_cases h2 : env.ret (w.after_call env (.srt_recvmsg2 self.m_bind_socket buffer.length))
        .srt_getlasterror = SRT_EASYNCRCV
    · have h2b : (env.ret (w.after_call env (.srt_recvmsg2 self.m_bind_socket buffer.length))
          .srt_getlasterror != SRT_EASYNCRCV) = false := by simp [h2]
      simp only [srt.read_recv, bind_eq_M, pure_eq_M, M.bind, recv_into_run, call_run,
        h1b, if_true, h2b, Bool.false_eq_true, if_false, M.pure, htake, List.take_zero,
        overwrite_nil]
      rw [if_pos h1, if_pos h2]
    · have h2b : (env.ret (w.after_call env (.srt_recvmsg2 self.m_bind_socket buffer.length))
          .srt_getlasterror != SRT_EASYNCRCV) = true := by simp [h2]
      simp only [srt.read_recv, bind_eq_M, pure_eq_M, M.bind, recv_into_run, call_run,
        h1b, if_true, h2b, raise_exception_value]
      rw [if_pos h1, if_neg h2]
      rfl
  · have h1b : (SRT_ERROR == env.ret w (.srt_recvmsg2 self.m_bind_socket buffer.length)) = false := by
      rw [beq_eq_false_iff_ne]
      exact fun h => h1 h.symm
    simp only [srt.read_recv, bind_eq_M, pure_eq_M, M.bind, recv_into_run, h1b,
      Bool.false_eq_true, if_false, M.pure]
    rw [if_neg h1]

/-- C21: `socket::srt::read` on a non-blocking endpoint returns 0 when the
wait for readiness fails with `SRT_ETIMEOUT` and throws a
`socket::exception` with the message "read::epoll: " followed by the
diagnostic string of the transport for every other failure of the wait.
After a successful wait (and at once on a blocking endpoint) it returns 0
when `srt_recvmsg2` fails with `SRT_EASYNCRCV`, throws "read::recv: "
followed by the diagnostic string for every other failure of the receive,
and otherwise returns the count `srt_recvmsg2` reported, with the bytes
received at the start of the buffer. -/
theorem srt_read_outcomes (env : Env) (self : srt) (buffer : List Nat) (timeout_ms : Int)
    (w : World) :
    (self.m_blocking_mode = false →
      env.ret w (self.wait_call false timeout_ms) = SRT_ERROR →
      (env.ret (w.after_call env (self.wait_call false timeout_ms)) .srt_getlasterror =
          SRT_ETIMEOUT →
        (srt.read env self buffer timeout_ms w).1 = .ok (0, buffer)) ∧
      (env.ret (w.after_call env (self.wait_call false timeout_ms)) .srt_getlasterror ≠
          SRT_ETIMEOUT →
        (srt.read env self buffer timeout_ms w).1 =
          .error (.socket_exception ("read::epoll: " ++ env.lasterror_str
            (w.after_calls env [self.wait_call false timeout_ms, .srt_getlasterror,
              .srt_getlasterror]))))) ∧
    ((self.m_blocking_mode = false →
        env.ret w (self.wait_call false timeout_ms) ≠ SRT_ERROR) →
      (env.ret (self.world_after_wait env false timeout_ms w)
          (.srt_recvmsg2 self.m_bind_socket buffer.length) = SRT_ERROR →
        (env.ret ((self.world_after_wait env false timeout_ms w).after_call env
            (.srt_recvmsg2 self.m_bind_socket buffer.length)) .srt_getlasterror =
            SRT_EASYNCRCV →
          (srt.read env self buffer timeout_ms w).1 = .ok (0, buffer)) ∧
        (env.ret ((self.world_after_wait env false timeout_ms w).after_call env
            (.srt_recvmsg2 self.m_bind_socket buffer.length)) .srt_getlasterror ≠
            SRT_EASYNCRCV →
          (srt.read env self buffer timeout_ms w).1 =
            .error (.socket_exception ("read::recv: " ++ env.lasterror_str
              ((self.world_after_wait env false timeout_ms w).after_calls env
                [.srt_recvmsg2 self.m_bind_socket buffer.length, .srt_getlasterror,
                  .srt_getlasterror]))))) ∧
      (env.ret (self.world_after_wait env false timeout_ms w)
          (.srt_recvmsg2 self.m_bind_socket buffer.length) ≠ SRT_ERROR →
        (srt.read env self buffer timeout_ms w).1 =
          .ok (to_size_t (env.ret (self.world_after_wait env false timeout_ms w)
              (.srt_recvmsg2 self.m_bind_socket buffer.length)),
            overwrite buffer
              ((env.received (self.world_after_wait env false timeout_ms w)
                (.srt_recvmsg2 self.m_bind_socket buffer.length)).take
                (env.ret (self.world_after_wait env false timeout_ms w)
                  (.srt_recvmsg2 self.m_bind_socket buffer.length)).toNat)) ∧
        (0 ≤ env.ret (self.world_after_wait env false timeout_ms w)
              (.srt_recvmsg2 self.m_bind_socket buffer.length) →
          env.ret (self.world_after_wait env false timeout_ms w)
              (.srt_recvmsg2 self.m_bind_socket buffer.length) < 2147483648 →
          (to_size_t (env.ret (self.world_after_wait env false timeout_ms w)
              (.srt_recvmsg2 self.m_bind_socket buffer.length)) : Int) =
            env.ret (self.world_after_wait env false timeout_ms w)
              (.srt_recvmsg2 self.m_bind_socket buffer.length)))) := by
  constructor
  · intro hnb hwait
    have hb : (!self.m_blocking_mode) = true := by simp [hnb]
    have hwb : (env.ret w (.srt_epoll_wait self.m_epoll_io true false timeout_ms) == SRT_ERROR) =
        true := by
      rw [beq_iff_eq]; exact hwait
    constructor
    · intro herr
      have heb : (env.ret (w.after_call env (.srt_epoll_wait self.m_epoll_io true false
          timeout_ms)) .srt_getlasterror == SRT_ETIMEOUT) = true := by
        rw [beq_iff_eq]; exact herr
      simp only [srt.read, hb, if_true, bind_eq_M, pure_eq_M, M.bind, call_run, hwb, heb, M.pure]
    · intro herr
      have heb : (env.ret (w.after_call env (.srt_epoll_wait self.m_epoll_io true false
          timeout_ms)) .srt_getlasterror == SRT_ETIMEOUT) = false := by
        rw [beq_eq_false_iff_ne]; exact herr
      simp only [srt.read, hb, if_true, bind_eq_M, pure_eq_M, M.bind, call_run, hwb, heb,
        Bool.false_eq_true, if_false, raise_exception_value]
      rfl
  · intro hwait
    have hread : (srt.read env self buffer timeout_ms w).1 =
        (srt.read_recv env self buffer (self.world_after_wait env false timeout_ms w)).1 := by
      cases hbm : self.m_blocking_mode with
      | true => simp [srt.read, hbm, srt.world_after_wait]
      | false =>
        have hw := hwait hbm
        have hwb : (env.ret w (.srt_epoll_wait self.m_epoll_io true false timeout_ms) ==
            SRT_ERROR) = false := by
          rw [beq_eq_false_iff_ne]; exact hw
        simp only [srt.read, hbm, Bool.not_false, if_true, bind_eq_M, M.bind, call_run, hwb,
          Bool.false_eq_true, if_false, srt.world_after_wait, srt.wait_call]
    rw [hread, srt_read_recv_value]
    refine ⟨fun h1 => ⟨fun h2 => ?_, fun h2 => ?_⟩, fun h1 => ⟨?_, fun h0 hlt => ?_⟩⟩
    · rw [if_pos h1, if_pos h2]
    · rw [if_pos h1, if_neg h2]
    · rw [if_neg h1]
    · unfold to_size_t
      rw [Int.emod_eq_of_lt h0 (by omega)]
      exact Int.toNat_of_nonneg h0

/-- C21 on `caller_conn`, a non-blocking endpoint: a wait that times out
makes `read` return 0, a wait that fails otherwise makes it throw, and after
a successful wait a receive that would block makes it return 0. -/
theorem srt_read_outcomes_witness :
    (srt.read (wait_fails_env SRT_ETIMEOUT) caller_conn [0, 0] 100 {}).1 = .ok (0, [0, 0]) ∧
    (srt.read (wait_fails_env 2001) caller_conn [0, 0] 100 {}).1 =
      .error (.socket_exception "read::epoll: Operation not supported") ∧
    (srt.read (transfer_fails_env SRT_EASYNCRCV) caller_conn [0, 0] 100 {}).1 =
      .ok (0, [0, 0]) :=
  ⟨((srt_read_outcomes (wait_fails_env SRT_ETIMEOUT) caller_conn [0, 0] 100 {}).1
      (by decide) (by decide)).1 (by decide),
   ((srt_read_outcomes (wait_fails_env 2001) caller_conn [0, 0] 100 {}).1
      (by decide) (by decide)).2 (by decide),
   (((srt_read_outcomes (transfer_fails_env SRT_EASYNCRCV) caller_conn [0, 0] 100 {}).2
      (fun _ => by decide)).1 (by decide)).1 (by decide)⟩

theorem srt_write_send_value (env : Env) (self : srt) (data : List Nat) (w : World) :
    (srt.write_send env self data w).1 =
      if env.ret w (.srt_sendmsg2 self.m_bind_socket data) = SRT_ERROR then
        if env.ret (w.after_call env (.srt_sendmsg2 self.m_bind_socket data))
            .srt_getlasterror = SRT_EASYNCSND then .ok 0
        else .error (.socket_exception ("write::send: " ++ env.lasterror_str
          (w.after_calls env [.srt_sendmsg2 self.m_bind_socket data, .srt_getlasterror])))
      else .ok (env.ret w (.srt_sendmsg2 self.m_bind_socket data)) := by
  by_cases h1 : env.ret w (.srt_sendmsg2 self.m_bind_socket data) = SRT_ERROR
  · have h1b : (env.ret w (.srt_sendmsg2 self.m_bind_socket data) == SRT_ERROR) = true := by
      rw [beq_iff_eq]; exact h1
    by_cases h2 : env.ret (w.after_call env (.srt_sendmsg2 self.m_bind_socket data))
        .srt_getlasterror = SRT_EASYNCSND
    · have h2b : (env.ret (w.after_call env (.srt_sendmsg2 self.m_bind_socket data))
          .srt_getlasterror == SRT_EASYNCSND) = true := by rw [beq_iff_eq]; exact h2
      simp only [srt.write_send, bind_eq_M, pure_eq_M, M.bind, call_run, h1b, if_true, h2b,
        M.pure]
      rw [if_pos h1, if_pos h2]
    · have h2b : (env.ret (w.after_call env (.srt_sendmsg2 self.m_bind_socket data))
          .srt_getlasterror == SRT_EASYNCSND) = false := by rw [beq_eq_false_iff_ne]; exact h2
      simp only [srt.write_send, bind_eq_M, pure_eq_M, M.bind, call_run, h1b, if_true, h2b,
        Bool.false_eq_true, if_false]
      rw [if_pos h1, if_neg h2]
      rfl
  · have h1b : (env.ret w (.srt_sendmsg2 self.m_bind_socket data) == SRT_ERROR) = false := by
      rw [beq_eq_false_iff_ne]; exact h1
    simp only [srt.write_send, bind_eq_M, pure_eq_M, M.bind, call_run, h1b, Bool.false_eq_true,
      if_false, M.pure]
    rw [if_neg h1]

/-- C22 (as amended): `socket::srt::write` throws a `socket::exception`
("write::epoll: " and the diagnostic string) whenever the wait for readiness
of a non-blocking endpoint fails, whatever the error, a timeout included.
After a successful wait (and at once on a blocking endpoint) it returns 0
when `srt_sendmsg2` fails with `SRT_EASYNCSND`, throws ("write::send: " and
the diagnostic string) when it fails with any other error, and otherwise
returns the count `srt_sendmsg2` reported. So a send that failed yields a
normal return exactly when the error is `SRT_EASYNCSND`, and `write` returns
0 exactly when the send failed with `SRT_EASYNCSND` or succeeded with the
count 0. -/
theorem srt_write_outcomes (env : Env) (self : srt) (data : List Nat) (timeout_ms : Int)
    (w : World) :
    (self.m_blocking_mode = false →
      env.ret w (self.wait_call true timeout_ms) = SRT_ERROR →
      (srt.write env self data timeout_ms w).1 =
        .error (.socket_exception ("write::epoll: " ++ env.lasterror_str
          (w.after_calls env [self.wait_call true timeout_ms, .srt_getlasterror])))) ∧
    ((self.m_blocking_mode = false →
        env.ret w (self.wait_call true timeout_ms) ≠ SRT_ERROR) →
      (env.ret (self.world_after_wait env true timeout_ms w)
          (.srt_sendmsg2 self.m_bind_socket data) = SRT_ERROR →
        (env.ret ((self.world_after_wait env true timeout_ms w).after_call env
            (.srt_sendmsg2 self.m_bind_socket data)) .srt_getlasterror = SRT_EASYNCSND →
          (srt.write env self data timeout_ms w).1 = .ok 0) ∧
        (env.ret ((self.world_after_wait env true timeout_ms w).after_call env
            (.srt_sendmsg2 self.m_bind_socket data)) .srt_getlasterror ≠ SRT_EASYNCSND →
          (srt.write env self data timeout_ms w).1 =
            .error (.socket_exception ("write::send: " ++ env.lasterror_str
              ((self.world_after_wait env true timeout_ms w).after_calls env
                [.srt_sendmsg2 self.m_bind_socket data, .srt_getlasterror])))) ∧
        ((∃ r, (srt.write env self data timeout_ms w).1 = .ok r) ↔
          env.ret ((self.world_after_wait env true timeout_ms w).after_call env
            (.srt_sendmsg2 self.m_bind_socket data)) .srt_getlasterror = SRT_EASYNCSND)) ∧
      (env.ret (self.world_after_wait env true timeout_ms w)
          (.srt_sendmsg2 self.m_bind_socket data) ≠ SRT_ERROR →
        (srt.write env self data timeout_ms w).1 =
          .ok (env.ret (self.world_after_wait env true timeout_ms w)
            (.srt_sendmsg2 self.m_bind_socket data))) ∧
      ((srt.write env self data timeout_ms w).1 = .ok 0 ↔
        (env.ret (self.world_after_wait env true timeout_ms w)
            (.srt_sendmsg2 self.m_bind_socket data) = SRT_ERROR ∧
          env.ret ((self.world_after_wait env true timeout_ms w).after_call env
            (.srt_sendmsg2 self.m_bind_socket data)) .srt_getlasterror = SRT_EASYNCSND) ∨
        env.ret (self.world_after_wait env true timeout_ms w)
          (.srt_sendmsg2 self.m_bind_socket data) = 0)) := by
  constructor
  · intro hnb hwait
    have hb : (!self.m_blocking_mode) = true := by simp [hnb]
    have hwb : (env.ret w (.srt_epoll_wait self.m_epoll_io true true timeout_ms) == SRT_ERROR) =
        true := by
      rw [beq_iff_eq]; exact hwait
    simp only [srt.write, hb, if_true, bind_eq_M, M.bind, call_run, hwb, raise_exception_value]
    rfl
  · intro hwait
    have hwrite : (srt.write env self data timeout_ms w).1 =
        (srt.write_send env self data (self.world_after_wait env true timeout_ms w)).1 := by
      cases hbm : self.m_blocking_mode with
      | true => simp [srt.write, hbm, srt.world_after_wait]
      | false =>
        have hw := hwait hbm
        have hwb : (env.ret w (.srt_epoll_wait self.m_epoll_io true true timeout_ms) ==
            SRT_ERROR) = false := by
          rw [beq_eq_false_iff_ne]; exact hw
        simp only [srt.write, hbm, Bool.not_false, if_true, bind_eq_M, M.bind, call_run, hwb,
          Bool.false_eq_true, if_false, srt.world_after_wait, srt.wait_call]
    rw [hwrite, srt_write_send_value]
    refine ⟨fun h1 => ⟨fun h2 => ?_, fun h2 => ?_, ?_⟩, fun h1 => ?_, ?_⟩
    · rw [if_pos h1, if_pos h2]
    · rw [if_pos h1, if_neg h2]
    · rw [if_pos h1]
      constructor
      · rintro ⟨r, hr⟩
        by_contra h2
        rw [if_neg h2] at hr
        simp at hr
      · intro h2
        exact ⟨0, by rw [if_pos h2]⟩
    · rw [if_neg h1]
    · by_cases h1 : env.ret (self.world_after_wait env true timeout_ms w)
          (.srt_sendmsg2 self.m_bind_socket data) = SRT_ERROR
      · have h0 : env.ret (self.world_after_wait env true timeout_ms w)
            (.srt_sendmsg2 self.m_bind_socket data) ≠ 0 := by
          rw [h1]; decide
        rw [if_pos h1]
        by_cases h2 : env.ret ((self.world_after_wait env true timeout_ms w).after_call env
            (.srt_sendmsg2 self.m_bind_socket data)) .srt_getlasterror = SRT_EASYNCSND
        · rw [if_pos h2]
          exact ⟨fun _ => Or.inl ⟨h1, h2⟩, fun _ => rfl⟩
        · rw [if_neg h2]
          constructor
          · intro h; simp at h
          · rintro (⟨_, h⟩ | h)
            · exact absurd h h2
            · exact absurd h h0
      · rw [if_neg h1]
        constructor
        · intro h
          injection h with h
          exact Or.inr h
        · rintro (⟨h, _⟩ | h)
          · exact absurd h h1
          · rw [h]

/-- C22 on `caller_conn`, a non-blocking endpoint: a wait that times out
makes `write` throw, a send that would block makes it return 0, and a send
that fails otherwise makes it throw. -/
theorem srt_write_outcomes_witness :
    (srt.write (wait_fails_env SRT_ETIMEOUT) caller_conn [1, 2] 100 {}).1 =
      .error (.socket_exception "write::epoll: Operation not supported") ∧
    (srt.write (transfer_fails_env SRT_EASYNCSND) caller_conn [1, 2] 100 {}).1 = .ok 0 ∧
    (srt.write (transfer_fails_env 2001) caller_conn [1, 2] 100 {}).1 =
      .error (.socket_exception "write::send: Operation not supported") ∧
    (srt.write (scripted [] [2] 1) caller_conn [1, 2] 100 {}).1 = .ok 2 :=
  ⟨(srt_write_outcomes (wait_fails_env SRT_ETIMEOUT) caller_conn [1, 2] 100 {}).1
      (by decide) (by decide),
   (((srt_write_outcomes (transfer_fails_env SRT_EASYNCSND) caller_conn [1, 2] 100 {}).2
      (fun _ => by decide)).1 (by decide)).1 (by decide),
   (((srt_write_outcomes (transfer_fails_env 2001) caller_conn [1, 2] 100 {}).2
      (fun _ => by decide)).1 (by decide)).2.1 (by decide),
   ((srt_write_outcomes (scripted [] [2] 1) caller_conn [1, 2] 100 {}).2
      (fun _ => by decide)).2.1 (by decide)⟩

/-- C22 (counterexample): an empty message sent on `caller_conn` to a
transport that takes it: `srt_sendmsg2` reports 0 bytes, no error is raised
or asked for, and `write` returns 0. -/
theorem srt_write_returns_zero_without_would_block :
    srt.write demo_env caller_conn [] (-1) {} =
      (.ok 0,
        { trace := [(0, .call (.srt_epoll_wait 3 true true (-1)) 0),
                    (0, .call (.srt_sendmsg2 7 []) 0)],
          now := 0 }) := by
  decide

/-! ### The local bind address -/

theorem bind_me_bind_calls (env : Env) (self : srt) (sa : netaddr_any) (w : World) :
    bind_calls (new_events w (srt.bind_me env self sa w).2) = [sa] := by
  unfold srt.bind_me
  by_cases h : env.ret w (.srt_bind self.m_bind_socket sa) < 0
  · simp [bind_eq_M, M.bind, call, h, raise_exception, srt_getlasterror_str, M.throw,
      new_events, bind_calls]
  · simp [bind_eq_M, M.bind, call, h, M.pure, new_events, bind_calls]

theorem StrMap.count_eq_zero_iff (m : StrMap) (key : String) :
    m.count key = 0 ↔ m.find? (fun el => el.1 == key) = none := by
  unfold StrMap.count
  rw [List.find?_eq_none]
  by_cases h : m.any (fun el => el.1 == key) = true
  · simp only [h, if_true]
    simp only [List.any_eq_true] at h
    obtain ⟨x, hx, hk⟩ := h
    constructor
    · intro h0; simp at h0
    · intro hall; exact absurd hk (hall x hx)
  · simp only [h]
    simp only [List.any_eq_true, not_exists, not_and] at h
    simpa using h

/-- The addresses `handle_hosts` binds to are what `create_addr` makes of the
host and the port that the rule of the specification gives: with a "bind"
option, in every mode, the host before the ":" (in lower case) and the port
after it, or the URI port when the value has no ":"; else no host and the
URI port in RENDEZVOUS mode; else the URI host and port in LISTENER mode;
and in CALLER mode without a "bind" option `handle_hosts` makes no call at
all. -/
theorem handle_hosts_bind_address (env : Env) (self : srt) (w : World) :
    bind_calls (new_events w (srt.handle_hosts env self w).2) =
      ((bind_address_by_rule self).map
        (fun hp => create_addr env hp.1 hp.2 create_addr_default_family)).toList ∧
    (self.m_options.count "bind" = 0 → self.m_mode = CALLER →
      srt.handle_hosts env self w = (.ok self, w)) := by
  constructor
  · unfold srt.handle_hosts bind_address_by_rule
    cases hf : self.m_options.find? (fun el => el.1 == "bind") with
    | none =>
      have hc : self.m_options.count "bind" = 0 := (StrMap.count_eq_zero_iff _ _).2 hf
      simp only [hc, bne_self_eq_false, Bool.false_eq_true, if_false]
      by_cases hr : (self.m_mode == RENDEZVOUS) = true
      · simp only [hr, if_true, bind_eq_M, pure_eq_M, M.bind]
        have hb := bind_me_bind_calls env self (create_addr env "" self.m_port create_addr_default_family) w
        cases hbm : srt.bind_me env self (create_addr env "" self.m_port create_addr_default_family) w with
        | mk r w1 =>
          rw [hbm] at hb
          cases r <;> simpa [M.pure] using hb
      · simp only [hr, Bool.false_eq_true, if_false]
        by_cases hl : (self.m_mode == LISTENER) = true
        · simp only [hl, if_true, bind_eq_M, pure_eq_M, M.bind]
          have hb := bind_me_bind_calls env self (create_addr env self.m_host self.m_port create_addr_default_family) w
          cases hbm : srt.bind_me env self (create_addr env self.m_host self.m_port create_addr_default_family) w with
          | mk r w1 =>
            rw [hbm] at hb
            cases r <;> simpa [M.pure] using hb
        · simp [hl, M.pure, new_events, bind_calls]
    | some el =>
      have hc : self.m_options.count "bind" ≠ 0 := by
        intro h0
        rw [(StrMap.count_eq_zero_iff _ _).1 h0] at hf
        simp at hf
      have hcb : (self.m_options.count "bind" != 0) = true := by simpa using hc
      simp only [hcb, if_true, bind_eq_M, pure_eq_M, M.bind, M.lift, StrMap.at, hf]
      cases hs : (split_colon (el.2.data.map Char.toLower)).2 with
      | none =>
        simp only []
        have hb := bind_me_bind_calls env { self with m_options := self.m_options.erase "bind" }
          (create_addr env (String.mk (split_colon (el.2.data.map Char.toLower)).1) self.m_port
            create_addr_default_family) w
        cases hbm : srt.bind_me env { self with m_options := self.m_options.erase "bind" }
            (create_addr env (String.mk (split_colon (el.2.data.map Char.toLower)).1) self.m_port
              create_addr_default_family)
            w with
        | mk r w1 =>
          rw [hbm] at hb
          cases r <;> simpa [M.pure] using hb
      | some rest =>
        simp only []
        cases hst : stoi rest with
        | error e => simp [new_events, bind_calls]
        | ok bindport =>
          simp only []
          have hb := bind_me_bind_calls env
            { self with m_options := self.m_options.erase "bind" }
            (create_addr env (String.mk (split_colon (el.2.data.map Char.toLower)).1) bindport
              create_addr_default_family) w
          cases hbm : srt.bind_me env { self with m_options := self.m_options.erase "bind" }
              (create_addr env (String.mk (split_colon (el.2.data.map Char.toLower)).1) bindport
                create_addr_default_family)
              w with
          | mk r w1 =>
            rw [hbm] at hb
            cases r <;> simpa [M.pure] using hb
  · intro hc hm
    have h1 : (self.m_mode == RENDEZVOUS) = false := by rw [hm]; decide
    have h2 : (self.m_mode == LISTENER) = false := by rw [hm]; decide
    simp [srt.handle_hosts, hc, h1, h2, M.pure]

/-- An endpoint in RENDEZVOUS mode whose URI has `bind=LocalHost:5000`: the
address is that of `localhost` with the port 5000, not the wildcard address;
and `caller_conn` binds to nothing. -/
theorem handle_hosts_bind_address_witness :
    bind_calls (new_events {} (srt.handle_hosts demo_env bound_rendezvous {}).2) =
      [{ family := AF_INET, addr := [127, 0, 0, 1], hport := 5000 }] ∧
    srt.handle_hosts demo_env caller_conn {} = (.ok caller_conn, {}) :=
  ⟨(handle_hosts_bind_address demo_env bound_rendezvous {}).1.trans (by decide),
   (handle_hosts_bind_address demo_env caller_conn {}).2 (by decide) (by decide)⟩

/-- A name that is not empty, is not the text of an address and does not
resolve gives the address constructed without an argument, whatever the port. -/
theorem create_addr_unresolved (env : Env) (name : String) (port prefFamily : Int)
    (hname : name.isEmpty = false)
    (h6 : env.inet_pton AF_INET6 name = none) (h4 : env.inet_pton AF_INET name = none)
    (hg : env.getaddrinfo name prefFamily = none) :
    create_addr env name port prefFamily = {} := by
  unfold create_addr
  by_cases hp : (prefFamily != AF_INET) = true
  · simp [hname, hp, h6, h4, hg]
  · simp [hname, hp, h6, h4, hg]

/-- No name, the text of an address, or a name that resolves: the port given
is stored, after its conversion to `unsigned short`. -/
theorem create_addr_resolved (env : Env) (name : String) (port prefFamily : Int)
    (h : name.isEmpty = true ∨ env.inet_pton AF_INET6 name ≠ none ∨
      env.inet_pton AF_INET name ≠ none ∨ env.getaddrinfo name prefFamily ≠ none) :
    (create_addr env name port prefFamily).hport = to_ushort port := by
  unfold create_addr
  by_cases hn : name.isEmpty = true
  · simp [hn]
  · simp only [hn, Bool.false_eq_true, if_false]
    have h' : env.inet_pton AF_INET6 name ≠ none ∨
        env.inet_pton AF_INET name ≠ none ∨ env.getaddrinfo name prefFamily ≠ none := by
      rcases h with h | h
      · exact absurd h hn
      · exact h
    by_cases hp : (prefFamily != AF_INET) = true
    · simp only [hp, if_true]
      cases h6 : env.inet_pton AF_INET6 name with
      | some a => rfl
      | none =>
        cases h4 : env.inet_pton AF_INET name with
        | some a => rfl
        | none =>
          cases hg : env.getaddrinfo name prefFamily with
          | some found => rfl
          | none => simp [h6, h4, hg] at h'
    · simp only [hp, Bool.false_eq_true, if_false]
      cases h4 : env.inet_pton AF_INET name with
      | some a => rfl
      | none =>
        cases h6 : env.inet_pton AF_INET6 name with
        | some a => rfl
        | none =>
          cases hg : env.getaddrinfo name prefFamily with
          | some found => rfl
          | none => simp [h6, h4, hg] at h'

/-- C23 (the failing input): a listener whose URI has `bind=nohost:5000`,
with `nohost` a name that is not the text of an address and that
`getaddrinfo` does not resolve. The rule gives the host `nohost` and the
port 5000; `srt_bind` is called with the address constructed without an
argument, whose port is 0, and `handle_hosts` returns as if the bind had been
made. With `bind=LocalHost:5000`, a name that resolves, the address bound is
that of `localhost` with the port 5000. -/
theorem handle_hosts_binds_unresolved_host_without_port :
    bind_address_by_rule bound_unresolved = some ("nohost", 5000) ∧
    demo_env.inet_pton AF_INET6 "nohost" = none ∧
    demo_env.inet_pton AF_INET "nohost" = none ∧
    demo_env.getaddrinfo "nohost" create_addr_default_family = none ∧
    bind_calls (new_events {} (srt.handle_hosts demo_env bound_unresolved {}).2) =
      [{ family := AF_UNSPEC, addr := [], hport := 0 }] ∧
    (srt.handle_hosts demo_env bound_unresolved {}).1 =
      .ok { bound_unresolved with m_options := [] } ∧
    bind_calls (new_events {} (srt.handle_hosts demo_env bound_rendezvous {}).2) =
      [{ family := AF_INET, addr := [127, 0, 0, 1], hport := 5000 }] := by
  decide

/-! ### The divisor of the throughput report -/

theorem wrap_int_of_fits (x : Int) (h1 : -2147483648 ≤ x) (h2 : x < 2147483648) :
    wrap_int x = x := by
  unfold wrap_int
  omega

/-- C26: whenever `run_pipe` takes the branch that logs the throughput,
which is when more than a second has passed since `stat_time`, the elapsed
time in whole milliseconds, by which it divides, is at least 1000; the value
logged is the quotient of the `int` product `8 * n * message_size` by that
divisor, and the product is the mathematical one when that fits in 32 bits.
When the branch is not taken nothing is computed. -/
theorem run_pipe_divisor_at_least_1000 (cfg : generate.config) (st : PipeState) :
    ((run_pipe_report cfg st).world ≠ st.world ↔ st.world.now > st.stat_time + seconds 1) ∧
    (st.world.now > st.stat_time + seconds 1 →
      1000 ≤ elapsed_ms st ∧
      (run_pipe_report cfg st).world = st.world.record (.sending_at (st.i - st.prev_i)
        (((wrap_int (8 * (st.i - st.prev_i) * cfg.message_size)).tdiv (elapsed_ms st : Int) *
          1000).tdiv 1000)) ∧
      (-2147483648 ≤ 8 * (st.i - st.prev_i) * cfg.message_size →
        8 * (st.i - st.prev_i) * cfg.message_size < 2147483648 →
        wrap_int (8 * (st.i - st.prev_i) * cfg.message_size) =
          8 * (st.i - st.prev_i) * cfg.message_size)) ∧
    (¬ st.world.now > st.stat_time + seconds 1 → run_pipe_report cfg st = st) := by
  refine ⟨?_, ?_, ?_⟩
  · unfold run_pipe_report
    by_cases h : st.world.now > st.stat_time + seconds 1
    · simp only [h, if_true, iff_true]
      intro heq
      have := congrArg (fun w => w.trace.length) heq
      simp [World.record] at this
    · simp [h]
  · intro h
    constructor
    · unfold elapsed_ms
      unfold seconds at h
      omega
    · refine ⟨?_, fun h1 h2 => wrap_int_of_fits _ h1 h2⟩
      unfold run_pipe_report
      rw [if_pos h]
  · intro h
    simp [run_pipe_report, h]

/-- C26 at a report 1.2 s after the last one, for one message of 1316 bytes:
the divisor is 1200 and the line reads 8 kbps; and at a report 1.1 s after
the last one for 2853 messages of 100000 bytes: the divisor is 1100, the
product does not fit in an `int`, and the line reads -1829606 kbps. -/
theorem run_pipe_divisor_at_least_1000_witness :
    1000 ≤ elapsed_ms { first_test with i := 1, world := { trace := [], now := 1200000000 } } ∧
    (run_pipe_report { message_size := 1316 }
        { first_test with i := 1, world := { trace := [], now := 1200000000 } }).world =
      { trace := [(1200000000, .sending_at 1 8)], now := 1200000000 } ∧
    elapsed_ms { first_test with i := 2853, world := { trace := [], now := 1100000000 } } =
      1100 ∧
    (run_pipe_report { message_size := 100000 }
        { first_test with i := 2853, world := { trace := [], now := 1100000000 } }).world =
      { trace := [(1100000000, .sending_at 2853 (-1829606))], now := 1100000000 } :=
  ⟨((run_pipe_divisor_at_least_1000 { message_size := 1316 }
      { first_test with i := 1, world := { trace := [], now := 1200000000 } }).2.1
      (by decide)).1,
   ((run_pipe_divisor_at_least_1000 { message_size := 1316 }
      { first_test with i := 1, world := { trace := [], now := 1200000000 } }).2.1
      (by decide)).2.1.trans (by decide),
   by decide,
   ((run_pipe_divisor_at_least_1000 { message_size := 100000 }
      { first_test with i := 2853, world := { trace := [], now := 1100000000 } }).2.1
      (by decide)).2.1.trans (by decide)⟩

/-! ### Printed numbers -/

theorem digitChar_isDigit (k : Nat) (h : k < 10) : (Nat.digitChar k).isDigit = true := by
  interval_cases k <;> decide

theorem toDigitsCore_chars (fuel : Nat) : ∀ (n : Nat) (ds : List Char),
    ∀ c ∈ Nat.toDigitsCore 10 fuel n ds, c ∈ ds ∨ c.isDigit = true := by
  induction fuel with
  | zero => intro n ds c hc; exact Or.inl (by simpa [Nat.toDigitsCore] using hc)
  | succ fuel ih =>
    intro n ds c hc
    unfold Nat.toDigitsCore at hc
    simp only at hc
    split at hc
    · rcases List.mem_cons.1 hc with h | h
      · exact Or.inr (h ▸ digitChar_isDigit _ (Nat.mod_lt _ (by decide)))
      · exact Or.inl h
    · rcases ih _ _ c hc with h | h
      · rcases List.mem_cons.1 h with h2 | h2
        · exact Or.inr (h2 ▸ digitChar_isDigit _ (Nat.mod_lt _ (by decide)))
        · exact Or.inl h2
      · exact Or.inr h

theorem toString_nat_chars (n : Nat) : ∀ c ∈ (toString n).data, c.isDigit = true := by
  intro c hc
  have h : (toString n).data = Nat.toDigits 10 n := rfl
  rw [h] at hc
  rcases toDigitsCore_chars _ _ _ c hc with h2 | h2
  · simp at h2
  · exact h2

/-- A printed integer consists of decimal digits and, maybe, a minus sign. -/
theorem toString_int_chars (n : Int) : ∀ c ∈ (toString n).data, c.isDigit = true ∨ c = '-' := by
  intro c hc
  cases n with
  | ofNat m =>
    have h : (toString (Int.ofNat m)).data = (toString m).data := rfl
    rw [h] at hc
    exact Or.inl (toString_nat_chars m c hc)
  | negSucc m =>
    have h : (toString (Int.negSucc m)).data = '-' :: (toString (m + 1)).data := rfl
    rw [h] at hc
    rcases List.mem_cons.1 hc with h2 | h2
    · exact Or.inr h2
    · exact Or.inl (toString_nat_chars _ c h2)

theorem toString_int_plain (n : Int) : plain (toString n) := by
  intro c hc
  rcases toString_int_chars n c hc with h | h
  · constructor
    · rintro rfl; exact absurd h (by decide)
    · rintro rfl; exact absurd h (by decide)
  · subst h
    exact ⟨by decide, by decide⟩

/-! ### The columns of the CSV statistics -/

theorem foldl_append_data (l : List String) : ∀ acc : String,
    (l.foldl (fun r s => r ++ s) acc).data = acc.data ++ (l.foldl (fun r s => r ++ s) "").data := by
  induction l with
  | nil => intro acc; simp
  | cons a l ih =>
    intro acc
    simp only [List.foldl_cons]
    rw [ih (acc ++ a), ih ("" ++ a)]
    simp [String.data_append]

theorem join_nil_data : (String.join []).data = [] := rfl

theorem join_cons_data (a : String) (l : List String) :
    (String.join (a :: l)).data = a.data ++ (String.join l).data := by
  unfold String.join
  simp only [List.foldl_cons]
  rw [foldl_append_data]
  simp [String.data_append]

theorem line_fields_field (a : String) (r : List Char) (ha : plain a) :
    line_fields (a.data ++ ',' :: r) = a.data :: line_fields r := by
  have key : ∀ l : List Char, (∀ c ∈ l, c ≠ ',' ∧ c ≠ '\n') →
      line_fields (l ++ ',' :: r) = l :: line_fields r := by
    intro l
    induction l with
    | nil => intro _; simp [line_fields]
    | cons c l ih =>
      intro hl
      have hc := hl c (List.mem_cons_self _ _)
      have ih2 := ih (fun d hd => hl d (List.mem_cons_of_mem _ hd))
      simp [line_fields, hc.1, hc.2, ih2]
  exact key a.data ha

theorem line_fields_last (a : String) (r : List Char) (ha : plain a) :
    line_fields (a.data ++ '\n' :: r) = [a.data] := by
  have key : ∀ l : List Char, (∀ c ∈ l, c ≠ ',' ∧ c ≠ '\n') →
      line_fields (l ++ '\n' :: r) = [l] := by
    intro l
    induction l with
    | nil => intro _; simp [line_fields]
    | cons c l ih =>
      intro hl
      have hc := hl c (List.mem_cons_self _ _)
      have ih2 := ih (fun d hd => hl d (List.mem_cons_of_mem _ hd))
      simp [line_fields, hc.1, hc.2, ih2]
  exact key a.data ha

theorem comma_data : (",").data = [','] := rfl

theorem newline_data : ("\n").data = ['\n'] := rfl

/-- The columns of the CSV header, by the flags of the build. -/
theorem stats_to_csv_header_fields (env : Env) (timepoint : String) (socketid : Int)
    (stats : SRT_TRACEBSTATS) :
    csv_fields (stats_to_csv env timepoint socketid stats true) =
      (if env.HAS_PUT_TIME then ["Timepoint"] else []) ++
      ["Time", "SocketID", "weight", "pktFlowWindow", "pktCongestionWindow", "pktFlightSize",
       "msRTT", "mbpsBandwidth", "mbpsMaxBW", "pktSent"] ++
      (if HAS_UNIQUE_PKTS env then ["pktSentUnique"] else []) ++
      ["pktSndLoss", "pktSndDrop", "pktRetrans", "byteSent", "byteAvailSndBuf", "byteSndDrop",
       "mbpsSendRate", "usPktSndPeriod", "msSndBuf", "pktRecv"] ++
      (if HAS_UNIQUE_PKTS env then ["pktRecvUnique"] else []) ++
      ["pktRcvLoss", "pktRcvDrop", "pktRcvUndecrypt", "pktRcvRetrans", "pktRcvBelated",
       "byteRecv", "byteAvailRcvBuf", "byteRcvLoss", "byteRcvDrop", "mbpsRecvRate", "msRcvBuf",
       "msRcvTsbPdDelay"] ++
      (if HAS_PKT_REORDER_TOL env then ["pktReorderTolerance"] else []) := by
  unfold stats_to_csv
  cases env.HAS_PUT_TIME <;> cases HAS_UNIQUE_PKTS env <;> cases HAS_PKT_REORDER_TOL env <;>
    simp only [if_true, Bool.false_eq_true, if_false] <;> rfl

/-- The fields of a CSV data row, by the flags of the build. -/
theorem stats_to_csv_row_fields (env : Env) (timepoint : String) (socketid : Int)
    (stats : SRT_TRACEBSTATS) (hd : ∀ x, plain (env.print_double x)) (ht : plain timepoint) :
    csv_fields (stats_to_csv env timepoint socketid stats false) =
      (if env.HAS_PUT_TIME then [timepoint] else []) ++
      [toString stats.msTimeStamp, toString socketid, toString (0 : Int),
       toString stats.pktFlowWindow, toString stats.pktCongestionWindow,
       toString stats.pktFlightSize, env.print_double stats.msRTT,
       env.print_double stats.mbpsBandwidth, env.print_double stats.mbpsMaxBW,
       toString stats.pktSent] ++
      (if HAS_UNIQUE_PKTS env then [toString stats.pktSentUnique] else []) ++
      [toString stats.pktSndLoss, toString stats.pktSndDrop, toString stats.pktRetrans,
       toString stats.byteSent, toString stats.byteAvailSndBuf, toString stats.byteSndDrop,
       env.print_double stats.mbpsSendRate, env.print_double stats.usPktSndPeriod,
       toString stats.msSndBuf, toString stats.pktRecv] ++
      (if HAS_UNIQUE_PKTS env then [toString stats.pktRecvUnique] else []) ++
      [toString stats.pktRcvLoss, toString stats.pktRcvDrop, toString stats.pktRcvUndecrypt,
       toString stats.pktRcvRetrans, toString stats.pktRcvBelated, toString stats.byteRecv,
       toString stats.byteAvailRcvBuf, toString stats.byteRcvLoss, toString stats.byteRcvDrop,
       env.print_double stats.mbpsRecvRate, toString stats.msRcvBuf,
       toString stats.msRcvTsbPdDelay] ++
      (if HAS_PKT_REORDER_TOL env then [toString stats.pktReorderTolerance] else []) := by
  unfold stats_to_csv csv_fields
  cases env.HAS_PUT_TIME <;> cases HAS_UNIQUE_PKTS env <;> cases HAS_PKT_REORDER_TOL env <;>
    simp only [if_true, Bool.false_eq_true, if_false, List.nil_append, List.cons_append,
      join_cons_data, join_nil_data, comma_data, newline_data, List.singleton_append,
      List.append_nil] <;>
    repeat (first
      | rw [line_fields_field _ _ (toString_int_plain _)]
      | rw [line_fields_field _ _ (hd _)]
      | rw [line_fields_field _ _ ht]
      | rw [line_fields_last _ _ (toString_int_plain _)]
      | rfl)

/-- C30: for every snapshot, socket id and build (SRT version and
`HAS_PUT_TIME`), with numbers and time stamps printed without commas, the
header row of `stats_to_csv` has the columns listed, every one of them the
name of a counter, and the fields of a data row are, column by column, the
counters that the columns name ("weight" holding 0 and "SocketID" the socket
id); so both rows have the same number of fields. -/
theorem stats_to_csv_row_matches_header (env : Env) (timepoint : String) (socketid : Int)
    (stats : SRT_TRACEBSTATS) (hd : ∀ x, plain (env.print_double x)) (ht : plain timepoint) :
    csv_fields (stats_to_csv env timepoint socketid stats true) =
      (if env.HAS_PUT_TIME then ["Timepoint"] else []) ++
      ["Time", "SocketID", "weight", "pktFlowWindow", "pktCongestionWindow", "pktFlightSize",
       "msRTT", "mbpsBandwidth", "mbpsMaxBW", "pktSent"] ++
      (if HAS_UNIQUE_PKTS env then ["pktSentUnique"] else []) ++
      ["pktSndLoss", "pktSndDrop", "pktRetrans", "byteSent", "byteAvailSndBuf", "byteSndDrop",
       "mbpsSendRate", "usPktSndPeriod", "msSndBuf", "pktRecv"] ++
      (if HAS_UNIQUE_PKTS env then ["pktRecvUnique"] else []) ++
      ["pktRcvLoss", "pktRcvDrop", "pktRcvUndecrypt", "pktRcvRetrans", "pktRcvBelated",
       "byteRecv", "byteAvailRcvBuf", "byteRcvLoss", "byteRcvDrop", "mbpsRecvRate", "msRcvBuf",
       "msRcvTsbPdDelay"] ++
      (if HAS_PKT_REORDER_TOL env then ["pktReorderTolerance"] else []) ∧
    (csv_fields (stats_to_csv env timepoint socketid stats true)).map
        (column_value env timepoint socketid stats) =
      (csv_fields (stats_to_csv env timepoint socketid stats false)).map some ∧
    (csv_fields (stats_to_csv env timepoint socketid stats false)).length =
      (csv_fields (stats_to_csv env timepoint socketid stats true)).length := by
  have h : (csv_fields (stats_to_csv env timepoint socketid stats true)).map
        (column_value env timepoint socketid stats) =
      (csv_fields (stats_to_csv env timepoint socketid stats false)).map some := by
    rw [stats_to_csv_row_fields env timepoint socketid stats hd ht,
      stats_to_csv_header_fields env timepoint socketid stats]
    have h0 : toString (0 : Int) = "0" := rfl
    cases env.HAS_PUT_TIME <;> cases HAS_UNIQUE_PKTS env <;> cases HAS_PKT_REORDER_TOL env <;>
      simp [column_value, h0]
  refine ⟨stats_to_csv_header_fields env timepoint socketid stats, h, ?_⟩
  have hl := congrArg List.length h
  simp only [List.length_map] at hl
  exact hl.symm

theorem plain_zero : plain "0" := by
  unfold plain
  decide

theorem plain_empty : plain "" := by
  unfold plain
  decide

/-- C30 at a snapshot with 5 packets sent on socket 7, for version 1.4.4 of
the library and no `HAS_PUT_TIME`: the 35 columns and the 35 fields. -/
theorem stats_to_csv_row_matches_header_witness :
    csv_fields (stats_to_csv counting_env "" 7 { pktSent := 5 } true) =
      ["Time", "SocketID", "weight", "pktFlowWindow", "pktCongestionWindow", "pktFlightSize",
       "msRTT", "mbpsBandwidth", "mbpsMaxBW", "pktSent", "pktSentUnique", "pktSndLoss",
       "pktSndDrop", "pktRetrans", "byteSent", "byteAvailSndBuf", "byteSndDrop",
       "mbpsSendRate", "usPktSndPeriod", "msSndBuf", "pktRecv", "pktRecvUnique", "pktRcvLoss",
       "pktRcvDrop", "pktRcvUndecrypt", "pktRcvRetrans", "pktRcvBelated", "byteRecv",
       "byteAvailRcvBuf", "byteRcvLoss", "byteRcvDrop", "mbpsRecvRate", "msRcvBuf",
       "msRcvTsbPdDelay", "pktReorderTolerance"] ∧
    (csv_fields (stats_to_csv counting_env "" 7 { pktSent := 5 } true)).map
        (column_value counting_env "" 7 { pktSent := 5 }) =
      (csv_fields (stats_to_csv counting_env "" 7 { pktSent := 5 } false)).map some ∧
    csv_fields (stats_to_csv counting_env "" 7 { pktSent := 5 } false) =
      ["0", "7", "0", "0", "0", "0", "0", "0", "0", "5", "0", "0", "0", "0", "0", "0", "0",
       "0", "0", "0", "0", "0", "0", "0", "0", "0", "0", "0", "0", "0", "0", "0", "0", "0",
       "0"] :=
  ⟨(stats_to_csv_row_matches_header counting_env "" 7 { pktSent := 5 } (fun _ => plain_zero)
      plain_empty).1.trans (by decide),
   (stats_to_csv_row_matches_header counting_env "" 7 { pktSent := 5 } (fun _ => plain_zero)
      plain_empty).2.1,
   by decide⟩

/-! ### The format of the statistics -/

theorem statistics_document_eq (env : Env) (socketid : Int) (stats : SRT_TRACEBSTATS) :
    statistics_document env socketid stats =
      .object [("ConnStats", stats_to_json env socketid stats), ("LinksStats", .null)] := by
  simp [statistics_document, Json.set, map_set]
  decide

/-- The value and the events of `get_statistics` when `srt_bstats` succeeds. -/
theorem get_statistics_run (env : Env) (self : srt) (stats_format : String)
    (print_header : Bool) (w : World)
    (hok : env.ret w (.srt_bstats self.m_bind_socket) ≠ SRT_ERROR) :
    srt.get_statistics env self stats_format print_header w =
      if stats_format = "json" then
        (.ok (if print_header then "" else
            Json.dump env (statistics_document env self.m_bind_socket
              (env.bstats w (.srt_bstats self.m_bind_socket))) ++ "\n"),
          w.after_call env (.srt_bstats self.m_bind_socket))
      else if stats_format = "csv" then
        (.ok (stats_to_csv env
            (env.timestamp (w.after_call env (.srt_bstats self.m_bind_socket)))
            self.m_bind_socket (env.bstats w (.srt_bstats self.m_bind_socket)) print_header),
          w.after_call env (.srt_bstats self.m_bind_socket))
      else
        (.ok (stats_to_csv env
            (env.timestamp ((w.after_call env (.srt_bstats self.m_bind_socket)).record
              (.spdlog_warn ("SOCKET::SRT " ++ stats_format ++
                " format is not supported. csv format will be used instead"))))
            self.m_bind_socket (env.bstats w (.srt_bstats self.m_bind_socket)) print_header),
          (w.after_call env (.srt_bstats self.m_bind_socket)).record
            (.spdlog_warn ("SOCKET::SRT " ++ stats_format ++
              " format is not supported. csv format will be used instead"))) := by
  have hb : (SRT_ERROR == env.ret w (.srt_bstats self.m_bind_socket)) = false := by
    rw [beq_eq_false_iff_ne]
    exact fun h => hok h.symm
  by_cases hj : stats_format = "json"
  · have hjb : (stats_format == "json") = true := by rw [beq_iff_eq]; exact hj
    rw [if_pos hj]
    cases print_header <;>
      simp only [srt.get_statistics, bind_eq_M, pure_eq_M, M.bind, bstats_call, hb,
        Bool.false_eq_true, if_false, hjb, if_true, M.pure]
  · have hjb : (stats_format == "json") = false := by rw [beq_eq_false_iff_ne]; exact hj
    rw [if_neg hj]
    by_cases hc : stats_format = "csv"
    · have hcb : (stats_format != "csv") = false := by simp [hc]
      rw [if_pos hc]
      simp only [srt.get_statistics, bind_eq_M, pure_eq_M, M.bind, bstats_call, hb,
        Bool.false_eq_true, if_false, hjb, hcb, M.pure, print_timestamp_now]
    · have hcb : (stats_format != "csv") = true := by simp [hc]
      rw [if_neg hc]
      simp only [srt.get_statistics, bind_eq_M, pure_eq_M, M.bind, bstats_call, hb,
        Bool.false_eq_true, if_false, hjb, hcb, if_true, M.pure, print_timestamp_now, emit]

/-- C25: when `srt_bstats` succeeds, `get_statistics` serializes as JSON if
the format selector is "json" and as CSV, with `stats_to_csv`, for every
other selector. In JSON format a request for the header yields the empty
string, and a request for a sample yields the text of one object, with the
members "ConnStats" and "LinksStats", followed by a line end. -/
theorem get_statistics_format (env : Env) (self : srt) (stats_format : String)
    (print_header : Bool) (w : World)
    (hok : env.ret w (.srt_bstats self.m_bind_socket) ≠ SRT_ERROR) :
    (stats_format = "json" →
      (srt.get_statistics env self stats_format true w).1 = .ok "" ∧
      (srt.get_statistics env self stats_format false w).1 =
        .ok ("\x7b" ++ Json.dump_members env
          [("ConnStats", stats_to_json env self.m_bind_socket
              (env.bstats w (.srt_bstats self.m_bind_socket))),
            ("LinksStats", .null)] ++ "\x7d" ++ "\n")) ∧
    (stats_format ≠ "json" →
      ∃ timepoint, (srt.get_statistics env self stats_format print_header w).1 =
        .ok (stats_to_csv env timepoint self.m_bind_socket
          (env.bstats w (.srt_bstats self.m_bind_socket)) print_header)) := by
  constructor
  · intro hj
    rw [get_statistics_run env self stats_format true w hok,
      get_statistics_run env self stats_format false w hok, if_pos hj, if_pos hj,
      statistics_document_eq]
    exact ⟨rfl, rfl⟩
  · intro hj
    rw [get_statistics_run env self stats_format print_header w hok, if_neg hj]
    by_cases hc : stats_format = "csv"
    · rw [if_pos hc]; exact ⟨_, rfl⟩
    · rw [if_neg hc]; exact ⟨_, rfl⟩

set_option maxRecDepth 100000

/-- C25 on socket 7: the header of the JSON format is empty, a sample is one
object and a line end, and the selector "xml" yields the CSV header. -/
theorem get_statistics_format_witness :
    (srt.get_statistics counting_env caller_conn "json" true {}).1 = .ok "" ∧
    (srt.get_statistics counting_env caller_conn "json" false {}).1 =
      .ok ("\x7b\"ConnStats\":\x7b\"SocketID\":7,\"Time\":0,\"byteAvailSndBuf\":0,\"byteSent\":0," ++
        "\"byteSndDrop\":0,\"mbpsBandwidth\":0.0,\"mbpsMaxBW\":0.0,\"mbpsRecvRate\":0.0," ++
        "\"mbpsSendRate\":0.0,\"msRTT\":0.0,\"msRcvBuf\":0,\"msRcvTsbPdDelay\":0,\"msSndBuf\":0," ++
        "\"pktCongestionWindow\":0,\"pktFlightSize\":0,\"pktFlowWindow\":0,\"pktRcvDrop\":0," ++
        "\"pktRcvLoss\":0,\"pktRcvUndecrypt\":0,\"pktRecv\":0,\"pktRecvUnique\":0," ++
        "\"pktReorderTolerance\":0,\"pktRetrans\":0,\"pktSent\":0,\"pktSentUnique\":0," ++
        "\"pktSndDrop\":0,\"pktSndLoss\":0,\"usPktSndPeriod\":0.0\x7d,\"LinksStats\":null\x7d\n") ∧
    (∃ timepoint, (srt.get_statistics counting_env caller_conn "xml" true {}).1 =
      .ok (stats_to_csv counting_env timepoint 7 {} true)) :=
  ⟨((get_statistics_format counting_env caller_conn "json" true {} (by decide)).1 rfl).1,
   ((get_statistics_format counting_env caller_conn "json" true {} (by decide)).1 rfl).2.trans
      (by decide),
   (get_statistics_format counting_env caller_conn "xml" true {} (by decide)).2 (by decide)⟩

/-! ### The statistics loop of a file transfer -/

theorem stats_to_csv_header_eq (env : Env) (timepoint : String) (socketid : Int)
    (stats : SRT_TRACEBSTATS) :
    stats_to_csv env timepoint socketid stats true = stats_to_csv env "" 0 {} true := by
  simp [stats_to_csv]

theorem toString_int_ne_Time (n : Int) : toString n ≠ "Time" := by
  intro h
  have hc := toString_int_chars n 'T' (by rw [h]; decide)
  rcases hc with h1 | h1
  · exact absurd h1 (by decide)
  · exact absurd h1 (by decide)

/-- A data row is not the header row. -/
theorem stats_to_csv_row_ne_header (env : Env) (timepoint : String) (socketid : Int)
    (stats : SRT_TRACEBSTATS) (hd : ∀ x, plain (env.print_double x)) (ht : plain timepoint) :
    stats_to_csv env timepoint socketid stats false ≠ stats_to_csv env "" 0 {} true := by
  intro h
  have h2 := congrArg csv_fields h
  rw [stats_to_csv_row_fields env timepoint socketid stats hd ht,
    stats_to_csv_header_fields env "" 0 {}] at h2
  have hT := toString_int_ne_Time stats.msTimeStamp
  cases hp : env.HAS_PUT_TIME <;> rw [hp] at h2 <;>
    simp only [if_true, Bool.false_eq_true, if_false, List.nil_append, List.cons_append,
      List.cons.injEq] at h2
  · exact hT h2.1
  · exact hT h2.2.1

theorem logfile_writes_append (a b : List (Nat × Event)) :
    logfile_writes (a ++ b) = logfile_writes a ++ logfile_writes b := by
  simp [logfile_writes]

theorem periods_append (a b : List (Nat × Event)) : periods (a ++ b) = periods a + periods b := by
  simp [periods]

/-- One period of the statistics loop in CSV format: a sleep, a snapshot and
one write of the text of `stats_to_csv`. -/
theorem statsFunc_period (env : Env) (sock : srt) (cfg : file.config) (printHeader : Bool)
    (w : World) (hfmt : cfg.statsFormat ≠ "json")
    (hstats : ∀ w1, env.ret w1 (.srt_bstats sock.m_bind_socket) ≠ SRT_ERROR) :
    ∃ w1 new timepoint stats,
      srt.get_statistics env sock cfg.statsFormat printHeader
          (sleep_for (cfg.statsFreqMs * 1000000).toNat w) =
        (.ok (stats_to_csv env timepoint sock.m_bind_socket stats printHeader), w1) ∧
      (w1.record (.logfile_write
          (stats_to_csv env timepoint sock.m_bind_socket stats printHeader))).trace =
        w.trace ++ new ∧
      logfile_writes new = [stats_to_csv env timepoint sock.m_bind_socket stats printHeader] ∧
      periods new = 1 ∧
      timepoint ∈ Set.range env.timestamp := by
  rw [get_statistics_run env sock cfg.statsFormat printHeader _ (hstats _), if_neg hfmt]
  by_cases hc : cfg.statsFormat = "csv"
  · rw [if_pos hc]
    refine ⟨_,
      [(w.now, .sleep_for (cfg.statsFreqMs * 1000000).toNat),
       ((sleep_for (cfg.statsFreqMs * 1000000).toNat w).now,
        .call (.srt_bstats sock.m_bind_socket)
          (env.ret (sleep_for (cfg.statsFreqMs * 1000000).toNat w)
            (.srt_bstats sock.m_bind_socket))),
       (((sleep_for (cfg.statsFreqMs * 1000000).toNat w).after_call env
          (.srt_bstats sock.m_bind_socket)).now,
        .logfile_write (stats_to_csv env
          (env.timestamp ((sleep_for (cfg.statsFreqMs * 1000000).toNat w).after_call env
            (.srt_bstats sock.m_bind_socket)))
          sock.m_bind_socket
          (env.bstats (sleep_for (cfg.statsFreqMs * 1000000).toNat w)
            (.srt_bstats sock.m_bind_socket)) printHeader))],
      _, _, rfl, ?_, ?_, ?_, ⟨_, rfl⟩⟩
    · simp [World.record, World.after_call, sleep_for]
    · simp [logfile_writes]
    · simp [periods]
  · rw [if_neg hc]
    refine ⟨_,
      [(w.now, .sleep_for (cfg.statsFreqMs * 1000000).toNat),
       ((sleep_for (cfg.statsFreqMs * 1000000).toNat w).now,
        .call (.srt_bstats sock.m_bind_socket)
          (env.ret (sleep_for (cfg.statsFreqMs * 1000000).toNat w)
            (.srt_bstats sock.m_bind_socket))),
       (((sleep_for (cfg.statsFreqMs * 1000000).toNat w).after_call env
          (.srt_bstats sock.m_bind_socket)).now,
        .spdlog_warn ("SOCKET::SRT " ++ cfg.statsFormat ++
          " format is not supported. csv format will be used instead")),
       (((sleep_for (cfg.statsFreqMs * 1000000).toNat w).after_call env
          (.srt_bstats sock.m_bind_socket)).now,
        .logfile_write (stats_to_csv env
          (env.timestamp (((sleep_for (cfg.statsFreqMs * 1000000).toNat w).after_call env
            (.srt_bstats sock.m_bind_socket)).record
              (.spdlog_warn ("SOCKET::SRT " ++ cfg.statsFormat ++
                " format is not supported. csv format will be used instead"))))
          sock.m_bind_socket
          (env.bstats (sleep_for (cfg.statsFreqMs * 1000000).toNat w)
            (.srt_bstats sock.m_bind_socket)) printHeader))],
      _, _, rfl, ?_, ?_, ?_, ⟨_, rfl⟩⟩
    · simp [World.record, World.after_call, sleep_for]
    · simp [logfile_writes]
    · simp [periods]

/-- The statistics loop in CSV format once the header has been written:
every period adds one data row. -/
theorem statsFunc_loop_rows (env : Env) (sock : srt) (cfg : file.config)
    (hfmt : cfg.statsFormat ≠ "json")
    (hflag : ∀ w, env.forceBreak w = false) (hlocal : ∀ w, env.localBreak w = false)
    (hstats : ∀ w, env.ret w (.srt_bstats sock.m_bind_socket) ≠ SRT_ERROR) (n : Nat) :
    ∀ w, ∃ w1 new rows, statsFunc_loop env sock cfg n false w = .out_of_fuel w1 ∧
      w1.trace = w.trace ++ new ∧ logfile_writes new = rows ∧ rows.length = n ∧
      periods new = n ∧
      ∀ r ∈ rows, ∃ timepoint ∈ Set.range env.timestamp, ∃ stats,
        r = stats_to_csv env timepoint sock.m_bind_socket stats false := by
  induction n with
  | zero =>
    intro w
    exact ⟨w, [], [], rfl, by simp, rfl, rfl, rfl, by simp⟩
  | succ n ih =>
    intro w
    obtain ⟨w1, new, timepoint, stats, h1, h2, h3, h4, h5⟩ :=
      statsFunc_period env sock cfg false w hfmt hstats
    obtain ⟨w2, new2, rows, g1, g2, g3, g4, g5, g6⟩ := ih (w1.record (.logfile_write
      (stats_to_csv env timepoint sock.m_bind_socket stats false)))
    refine ⟨w2, new ++ new2, stats_to_csv env timepoint sock.m_bind_socket stats false :: rows,
      ?_, ?_, ?_, ?_, ?_, ?_⟩
    · rw [statsFunc_loop]
      simp only [hflag, hlocal, Bool.not_false, Bool.and_self, if_true, h1]
      exact g1
    · rw [g2, h2, List.append_assoc]
    · rw [logfile_writes_append, h3, g3]
      rfl
    · simp [g4]
    · rw [periods_append, h4, g5]
      omega
    · intro r hr
      rcases List.mem_cons.1 hr with h | h
      · exact ⟨timepoint, h5, stats, h⟩
      · exact g6 r h

/-- C24 (as amended): after `n + 1` periods of the statistics loop in CSV
format, with the flags unset and every snapshot taken, the file holds the
header row, written once in the first period, and exactly `n` data rows:
the first period writes no sample. -/
theorem statsFunc_loop_header_then_rows (env : Env) (sock : srt) (cfg : file.config) (n : Nat)
    (w : World) (hfmt : cfg.statsFormat ≠ "json")
    (hd : ∀ x, plain (env.print_double x)) (ht : ∀ w1, plain (env.timestamp w1))
    (hflag : ∀ w1, env.forceBreak w1 = false) (hlocal : ∀ w1, env.localBreak w1 = false)
    (hstats : ∀ w1, env.ret w1 (.srt_bstats sock.m_bind_socket) ≠ SRT_ERROR) :
    ∃ w1 rows, statsFunc_loop env sock cfg (n + 1) true w = .out_of_fuel w1 ∧
      periods (new_events w w1) = n + 1 ∧
      logfile_writes (new_events w w1) = stats_to_csv env "" 0 {} true :: rows ∧
      rows.length = n ∧
      ∀ r ∈ rows, r ≠ stats_to_csv env "" 0 {} true ∧
        ∃ timepoint stats, r = stats_to_csv env timepoint sock.m_bind_socket stats false := by
  obtain ⟨w1, new, timepoint, stats, h1, h2, h3, h4, _⟩ :=
    statsFunc_period env sock cfg true w hfmt hstats
  obtain ⟨w2, new2, rows, g1, g2, g3, g4, g5, g6⟩ :=
    statsFunc_loop_rows env sock cfg hfmt hflag hlocal hstats n (w1.record (.logfile_write
      (stats_to_csv env timepoint sock.m_bind_socket stats true)))
  have hn : new_events w w2 = new ++ new2 := by
    apply new_events_append
    rw [g2, h2, List.append_assoc]
  refine ⟨w2, rows, ?_, ?_, ?_, g4, ?_⟩
  · rw [statsFunc_loop]
    simp only [hflag, hlocal, Bool.not_false, Bool.and_self, if_true, h1]
    exact g1
  · rw [hn, periods_append, h4, g5]
    omega
  · rw [hn, logfile_writes_append, h3, g3, stats_to_csv_header_eq]
    rfl
  · intro r hr
    obtain ⟨tp, ⟨w3, hw3⟩, st, hst⟩ := g6 r hr
    refine ⟨?_, tp, st, hst⟩
    rw [hst]
    exact stats_to_csv_row_ne_header env tp _ st hd (hw3 ▸ ht w3)

/-- C24 (counterexample): statistics every 100 ms in CSV format on socket 7.
After two periods the file holds the header row and one data row: the first
period wrote the header only. -/
theorem statsFunc_two_periods_one_sample :
    periods (statsFunc counting_env caller_conn file_stats_on 2 {}).world.trace = 2 ∧
    logfile_writes (statsFunc counting_env caller_conn file_stats_on 2 {}).world.trace =
      ["Time,SocketID,weight,pktFlowWindow,pktCongestionWindow,pktFlightSize," ++
        "msRTT,mbpsBandwidth,mbpsMaxBW,pktSent,pktSentUnique,pktSndLoss,pktSndDrop,pktRetrans," ++
        "byteSent,byteAvailSndBuf,byteSndDrop,mbpsSendRate,usPktSndPeriod,msSndBuf,pktRecv," ++
        "pktRecvUnique,pktRcvLoss,pktRcvDrop,pktRcvUndecrypt,pktRcvRetrans,pktRcvBelated," ++
        "byteRecv,byteAvailRcvBuf,byteRcvLoss,byteRcvDrop,mbpsRecvRate,msRcvBuf," ++
        "msRcvTsbPdDelay,pktReorderTolerance\n",
       "200,7,0,0,0,0,0,0,0,5,0,0,0,0,0,0,0,0,0,0,0,0,0,0,0,0,0,0,0,0,0,0,0,0,0\n"] := by
  decide

/-- C24 at two periods of statistics every 100 ms on socket 7: the header
and one data row. -/
theorem statsFunc_loop_header_then_rows_witness :
    ∃ w1 rows, statsFunc_loop counting_env caller_conn file_stats_on (1 + 1) true {} =
        .out_of_fuel w1 ∧
      periods (new_events {} w1) = 1 + 1 ∧
      logfile_writes (new_events {} w1) = stats_to_csv counting_env "" 0 {} true :: rows ∧
      rows.length = 1 ∧
      ∀ r ∈ rows, r ≠ stats_to_csv counting_env "" 0 {} true ∧
        ∃ timepoint stats, r = stats_to_csv counting_env timepoint caller_conn.m_bind_socket
          stats false :=
  statsFunc_loop_header_then_rows counting_env caller_conn file_stats_on 1 {} (by decide)
    (fun _ => plain_zero) (fun _ => plain_empty) (fun _ => rfl) (fun _ => rfl)
    (fun _ => (by decide : (0 : Int) ≠ SRT_ERROR))

/-- C28 (the failing input): the file of the two bytes 10, 20 sent under the
name "a" with a segment of 5 bytes, every write delivered whole. The one
read fills the segment without meeting the end of the file, so the one
chunk sent carries the first flag and not the EOF flag; the next read
extracts nothing, and `sendFile` returns true with no further chunk. -/
theorem sendFile_full_last_chunk_lacks_eof_flag :
    sendFile (upload_env [10, 20]) "f" [97] caller_conn (List.replicate 5 0) 3 {} =
      .returned true (sendFile (upload_env [10, 20]) "f" [97] caller_conn
        (List.replicate 5 0) 3 {}).world ∧
    writes (sendFile (upload_env [10, 20]) "f" [97] caller_conn
        (List.replicate 5 0) 3 {}).world.trace = [(7, 5, [1, 97, 0, 10, 20])] ∧
    (receiveFiles_header [1, 97, 0, 10, 20]).isEof = false ∧
    writes (sendFile (upload_env [10, 20, 30]) "f" [97] caller_conn
        (List.replicate 5 0) 3 {}).world.trace =
      [(7, 5, [1, 97, 0, 10, 20]), (7, 2, [2, 30])] := by
  decide

theorem contains_first_set (c : Char) : ['\\', '/'].contains c = is_delimiter c := by
  simp only [is_delimiter, List.contains, List.elem]
  cases (c == '\\') <;> cases (c == '/') <;> rfl

theorem contains_last_set (c : Char) : ['/', '\\'].contains c = is_delimiter c := by
  simp only [is_delimiter, List.contains, List.elem]
  cases (c == '\\') <;> cases (c == '/') <;> rfl

theorem find_first_of_from_eq_head (s : List Char) (i p : Nat) :
    find_first_of_from ['\\', '/'] s i (p + 1) = (delimiters_from s i p).head? := by
  induction s generalizing i with
  | nil => rfl
  | cons c cs ih =>
    simp only [find_first_of_from, delimiters_from, contains_first_set]
    have hd : decide (p + 1 ≤ i) = decide (p < i) := by
      simp [Nat.succ_le]
    rw [hd]
    cases h : (decide (p < i) && is_delimiter c)
    · simp [ih]
    · simp

theorem delimiters_from_ge (s : List Char) (i p q : Nat) (h : q ∈ delimiters_from s i p) :
    i ≤ q ∧ p < q := by
  induction s generalizing i with
  | nil => simp [delimiters_from] at h
  | cons c cs ih =>
    simp only [delimiters_from] at h
    split at h
    · rename_i hc
      simp only [Bool.and_eq_true, decide_eq_true_eq] at hc
      rcases List.mem_cons.1 h with h1 | h1
      · subst h1
        exact ⟨Nat.le_refl _, hc.1⟩
      · have := ih (i + 1) h1
        exact ⟨by omega, this.2⟩
    · have := ih (i + 1) h
      exact ⟨by omega, this.2⟩

theorem delimiters_from_congr (s : List Char) (i p q : Nat) (hp : p < i) (hq : q < i) :
    delimiters_from s i p = delimiters_from s i q := by
  induction s generalizing i with
  | nil => rfl
  | cons c cs ih =>
    simp only [delimiters_from, hp, hq, decide_True, Bool.true_and]
    rw [ih (i + 1) (by omega) (by omega)]

theorem delimiters_from_tail (s : List Char) (i p q : Nat) (rest : List Nat)
    (h : delimiters_from s i p = q :: rest) : rest = delimiters_from s i q := by
  induction s generalizing i with
  | nil => simp [delimiters_from] at h
  | cons c cs ih =>
    simp only [delimiters_from] at h
    split at h
    · rename_i hc
      simp only [Bool.and_eq_true, decide_eq_true_eq] at hc
      injection h with h1 h2
      subst h1
      simp only [delimiters_from, Nat.lt_irrefl, decide_False, Bool.false_and]
      rw [← h2]
      exact delimiters_from_congr cs (i + 1) p i (by omega) (by omega)
    · have hq := delimiters_from_ge cs (i + 1) p q (by rw [h]; exact List.mem_cons_self _ _)
      have hlt : ¬ q < i := by omega
      simp only [delimiters_from, hlt, decide_False, Bool.false_and]
      exact ih (i + 1) h

theorem find_last_of_from_cons (c : Char) (cs : List Char) (i l : Nat) :
    find_last_of_from ['/', '\\'] (c :: cs) i = some l ↔
      find_last_of_from ['/', '\\'] cs (i + 1) = some l ∨
      (find_last_of_from ['/', '\\'] cs (i + 1) = none ∧ is_delimiter c = true ∧ i = l) := by
  simp only [find_last_of_from, contains_last_set]
  cases h1 : find_last_of_from ['/', '\\'] cs (i + 1) with
  | some j => simp
  | none =>
    by_cases hc : is_delimiter c = true
    · simp [hc]
    · simp [hc]

theorem find_last_of_from_none (s : List Char) (i p : Nat)
    (h : find_last_of_from ['/', '\\'] s i = none) : delimiters_from s i p = [] := by
  induction s generalizing i with
  | nil => rfl
  | cons c cs ih =>
    simp only [find_last_of_from, contains_last_set] at h
    cases h1 : find_last_of_from ['/', '\\'] cs (i + 1) with
    | some j => simp [h1] at h
    | none =>
      have hc : is_delimiter c = false := by
        cases hd : is_delimiter c
        · rfl
        · simp [h1, hd] at h
      simp [delimiters_from, hc, ih (i + 1) h1]

theorem find_last_of_from_ge (s : List Char) (i l : Nat)
    (h : find_last_of_from ['/', '\\'] s i = some l) : i ≤ l := by
  induction s generalizing i with
  | nil => simp [find_last_of_from] at h
  | cons c cs ih =>
    rcases (find_last_of_from_cons c cs i l).1 h with h1 | ⟨_, _, h3⟩
    · have := ih (i + 1) h1
      omega
    · omega

theorem delimiters_from_after_last (s : List Char) (i l p : Nat)
    (h : find_last_of_from ['/', '\\'] s i = some l) (hp : l ≤ p) :
    delimiters_from s i p = [] := by
  induction s generalizing i with
  | nil => rfl
  | cons c cs ih =>
    have hge := find_last_of_from_ge (c :: cs) i l h
    have hlt : ¬ p < i := by omega
    simp only [delimiters_from, hlt, decide_False, Bool.false_and]
    rcases (find_last_of_from_cons c cs i l).1 h with h1 | ⟨h1, _, _⟩
    · exact ih (i + 1) h1
    · exact find_last_of_from_none cs (i + 1) p h1

theorem last_mem_delimiters_from (s : List Char) (i l p : Nat)
    (h : find_last_of_from ['/', '\\'] s i = some l) (hp : p < l) :
    l ∈ delimiters_from s i p := by
  induction s generalizing i with
  | nil => simp [find_last_of_from] at h
  | cons c cs ih =>
    rcases (find_last_of_from_cons c cs i l).1 h with h1 | ⟨_, hc, h3⟩
    · have := ih (i + 1) h1
      simp only [delimiters_from]
      split
      · exact List.mem_cons_of_mem _ this
      · exact this
    · subst h3
      simp [delimiters_from, hp, hc]

theorem delimiters_from_length (s : List Char) (i p : Nat) :
    (delimiters_from s i p).length ≤ s.length := by
  induction s generalizing i with
  | nil => simp [delimiters_from]
  | cons c cs ih =>
    simp only [delimiters_from]
    split
    · simp only [List.length_cons]
      have := ih (i + 1)
      omega
    · simp only [List.length_cons]
      have := ih (i + 1)
      omega

/-- A position is among `delimiters_from` exactly when it is after the start,
within the part looked at, and holds a delimiter. -/
theorem mem_delimiters_from (s : List Char) (i p q : Nat) :
    q ∈ delimiters_from s i p ↔
      p < q ∧ i ≤ q ∧ ∃ c, s.get? (q - i) = some c ∧ is_delimiter c = true := by
  induction s generalizing i with
  | nil => simp [delimiters_from]
  | cons c cs ih =>
    simp only [delimiters_from]
    by_cases hq : q = i
    · subst hq
      have hn : ¬ q ∈ delimiters_from cs (q + 1) p := by
        intro hm
        have := delimiters_from_ge cs (q + 1) p q hm
        omega
      split
      · rename_i hc
        simp only [Bool.and_eq_true, decide_eq_true_eq] at hc
        simp [hc.1, hc.2]
      · rename_i hc
        simp only [Bool.and_eq_true, decide_eq_true_eq, not_and] at hc
        simp only [hn, false_iff, Nat.sub_self, List.get?_cons_zero, Option.some.injEq,
          exists_eq_left', Nat.le_refl, true_and, not_and]
        intro h1 h2
        exact hc h1 h2
    · have hrec := ih (i + 1)
      have hiff : (p < q ∧ i + 1 ≤ q ∧ ∃ c, cs.get? (q - (i + 1)) = some c ∧
            is_delimiter c = true) ↔
          (p < q ∧ i ≤ q ∧ ∃ c', (c :: cs).get? (q - i) = some c' ∧
            is_delimiter c' = true) := by
        constructor
        · rintro ⟨h1, h2, h3⟩
          refine ⟨h1, by omega, ?_⟩
          have : q - i = (q - (i + 1)) + 1 := by omega
          rw [this]
          exact h3
        · rintro ⟨h1, h2, h3⟩
          refine ⟨h1, by omega, ?_⟩
          have : q - i = (q - (i + 1)) + 1 := by omega
          rw [this] at h3
          exact h3
      split
      · rw [List.mem_cons, hrec, hiff]
        constructor
        · rintro (h | h)
          · exact absurd h hq
          · exact h
        · intro h
          exact Or.inr h
      · rw [hrec, hiff]

theorem find_last_of_from_is_delimiter (s : List Char) (i l : Nat)
    (h : find_last_of_from ['/', '\\'] s i = some l) :
    i ≤ l ∧ ∃ c, s.get? (l - i) = some c ∧ is_delimiter c = true := by
  induction s generalizing i with
  | nil => simp [find_last_of_from] at h
  | cons c cs ih =>
    rcases (find_last_of_from_cons c cs i l).1 h with h1 | ⟨_, hc, h3⟩
    · have := ih (i + 1) h1
      refine ⟨by omega, ?_⟩
      have he : l - i = (l - (i + 1)) + 1 := by omega
      rw [he]
      exact this.2
    · subst h3
      exact ⟨Nat.le_refl _, c, by simp, hc⟩

theorem delimiters_from_increasing (s : List Char) (i p : Nat) :
    (delimiters_from s i p).Pairwise (fun a b => a < b) := by
  induction s generalizing i with
  | nil => simp [delimiters_from]
  | cons c cs ih =>
    simp only [delimiters_from]
    split
    · refine List.Pairwise.cons ?_ (ih (i + 1))
      intro q hq
      have := delimiters_from_ge cs (i + 1) p q hq
      omega
    · exact ih (i + 1)

theorem c_str_chars_self (s : List Char) (h : ∀ c ∈ s, c.toNat ≠ 0) : c_str_chars s = s := by
  induction s with
  | nil => rfl
  | cons a t ih =>
    have ha : a.toNat ≠ 0 := h a (List.mem_cons_self _ _)
    have ht : ∀ c ∈ t, c.toNat ≠ 0 := fun c hc => h c (List.mem_cons_of_mem _ hc)
    have := ih ht
    simp only [c_str_chars] at this ⊢
    simp [List.takeWhile_cons, ha, this]

theorem createSubfolders_loop_eq (env : Env) (path : List Char) (l : Nat)
    (hl : find_last_of_from ['/', '\\'] path 0 = some l) :
    ∀ (fuel p : Nat) (w : World), (delimiters_from path 0 p).length < fuel →
      (p = l ∨ l ∈ delimiters_from path 0 p) →
      createSubfolders_loop env path l fuel (some p) w =
        (some (createFolders env ((delimiters_from path 0 p).map
            (fun q => String.mk (c_str_chars (path.take q)))) w).1,
          (createFolders env ((delimiters_from path 0 p).map
            (fun q => String.mk (c_str_chars (path.take q)))) w).2) := by
  intro fuel
  induction fuel with
  | zero => intro p w h; omega
  | succ n ih =>
    intro p w hlen hinv
    simp only [createSubfolders_loop]
    by_cases hp : p = l
    · subst hp
      rw [if_pos rfl, delimiters_from_after_last path 0 p p hl (Nat.le_refl _)]
      rfl
    · rw [if_neg hp]
      have hmem := hinv.resolve_left hp
      cases hd : delimiters_from path 0 p with
      | nil => rw [hd] at hmem; simp at hmem
      | cons q rest =>
        have hrest := delimiters_from_tail path 0 p q rest hd
        have hfirst : find_first_of_from ['\\', '/'] path 0 (p + 1) = some q := by
          rw [find_first_of_from_eq_head, hd]; rfl
        rw [hfirst]
        simp only [substr_to, List.map_cons, createFolders]
        rw [hd] at hlen hmem
        cases hc : createFolder env (String.mk (c_str_chars (path.take q))) w with
        | mk b w1 =>
          cases b
          · rfl
          · simp only
            rw [ih q w1 (by rw [← hrest]; simpa using hlen)
              (by
                rcases List.mem_cons.1 hmem with h1 | h1
                · exact Or.inl h1.symm
                · exact Or.inr (hrest ▸ h1)), ← hrest]

/-- C29: with more iterations granted than the path has characters,
`createSubfolders` ends. For a path free of NUL characters, as every path
that `receiveFiles` makes of a C string is, it does what the calls of
`createFolder` do, in order and up to the first that fails, on the prefixes
that end just before the delimiters located after the start offset; these
positions are increasing and are all such positions. When no delimiter
stands at or after the start offset nothing is created and the result is
true. In general the prefix is passed as a C string. -/
theorem createSubfolders_creates_prefixes (env : Env) (path : String) (fuel : Nat) (w : World)
    (hfuel : path.length < fuel) :
    createSubfolders env path fuel w =
      (some (createFolders env (folders_by_rule path) w).1,
        (createFolders env (folders_by_rule path) w).2) ∧
    (delimiters_from path.data 0 (start_offset path.data)).Pairwise (fun a b => a < b) ∧
    (∀ q, q ∈ delimiters_from path.data 0 (start_offset path.data) ↔
      start_offset path.data < q ∧ ∃ c, path.data.get? q = some c ∧ is_delimiter c = true) ∧
    ((∀ q c, start_offset path.data ≤ q → path.data.get? q = some c →
        is_delimiter c = false) →
      createSubfolders env path fuel w = (some true, w)) ∧
    ((∀ c ∈ path.data, c.toNat ≠ 0) →
      folders_by_rule path =
        (delimiters_from path.data 0 (start_offset path.data)).map
          (fun q => String.mk (path.data.take q))) ∧
    ((∀ c ∈ path.data, c.toNat ≠ 0) →
      createSubfolders env path fuel w =
        (some (createFolders env ((delimiters_from path.data 0 (start_offset path.data)).map
            (fun q => String.mk (path.data.take q))) w).1,
          (createFolders env ((delimiters_from path.data 0 (start_offset path.data)).map
            (fun q => String.mk (path.data.take q))) w).2)) := by
  have hrule : (∀ c ∈ path.data, c.toNat ≠ 0) →
      folders_by_rule path =
        (delimiters_from path.data 0 (start_offset path.data)).map
          (fun q => String.mk (path.data.take q)) := by
    intro hnul
    unfold folders_by_rule
    apply List.map_congr_left
    intro q _
    rw [c_str_chars_self]
    intro c hc
    exact hnul c (List.mem_of_mem_take hc)
  have hmain : createSubfolders env path fuel w =
      (some (createFolders env (folders_by_rule path) w).1,
        (createFolders env (folders_by_rule path) w).2) := by
    unfold createSubfolders folders_by_rule
    cases hl : find_last_of_from ['/', '\\'] path.data 0 with
    | none =>
      simp only [find_last_of_from_none path.data 0 _ hl]
      rfl
    | some l =>
      simp only
      by_cases hlt : l < start_offset path.data
      · rw [if_pos hlt, delimiters_from_after_last path.data 0 l _ hl (Nat.le_of_lt hlt)]
        rfl
      · rw [if_neg hlt]
        refine createSubfolders_loop_eq env path.data l hl fuel _ w ?_ ?_
        · have := delimiters_from_length path.data 0 (start_offset path.data)
          have hlen : path.length = path.data.length := rfl
          omega
        · by_cases he : start_offset path.data = l
          · exact Or.inl he
          · exact Or.inr (last_mem_delimiters_from path.data 0 l _ hl (by omega))
  refine ⟨hmain, delimiters_from_increasing _ _ _, ?_, ?_, hrule, ?_⟩
  · intro q
    rw [mem_delimiters_from]
    simp
  · intro hno
    unfold createSubfolders
    cases hl : find_last_of_from ['/', '\\'] path.data 0 with
    | none => rfl
    | some l =>
      simp only
      obtain ⟨_, c, hc, hdel⟩ := find_last_of_from_is_delimiter path.data 0 l hl
      have hlt : l < start_offset path.data := by
        by_contra hge
        have := hno l c (by omega) (by simpa using hc)
        rw [this] at hdel
        exact absurd hdel (by decide)
      rw [if_pos hlt]
  · intro hnul
    rw [hmain, hrule hnul]

/-- C29 at the path "./a/b/c.txt" with every folder there already: the
delimiters after the start offset 2 stand at 3 and 5, and `createFolder` is
called on "./a" and on "./a/b", in this order. -/
theorem createSubfolders_creates_prefixes_witness :
    delimiters_from "./a/b/c.txt".data 0 (start_offset "./a/b/c.txt".data) = [3, 5] ∧
    createSubfolders demo_env "./a/b/c.txt" 12 {} =
      (some (createFolders demo_env ["./a", "./a/b"] {}).1,
        (createFolders demo_env ["./a", "./a/b"] {}).2) ∧
    created_folders (createSubfolders demo_env "./a/b/c.txt" 12 {}).2.trace =
      ["./a", "./a/b"] :=
  ⟨by decide,
   ((createSubfolders_creates_prefixes demo_env "./a/b/c.txt" 12 {} (by decide)).2.2.2.2.2
      (by decide)).trans (by decide),
   by decide⟩

/-- A path that holds a NUL character, which no C string does: the five
characters a, NUL, b, /, c. The prefix that ends just before the delimiter is
a, NUL, b; the folder `createFolder` is called on is the C string "a". -/
theorem createSubfolders_cuts_prefix_at_nul :
    created_folders (createSubfolders demo_env "a\x00b/c" 6 {}).2.trace = ["a"] ∧
    (createSubfolders demo_env "a\x00b/c" 6 {}).1 = some true ∧
    delimiters_from "a\x00b/c".data 0 (start_offset "a\x00b/c".data) = [3] ∧
    String.mk ("a\x00b/c".data.take 3) = "a\x00b" ∧
    "a" ≠ "a\x00b" := by
  decide

/-- The run of the witness path: two folders, in order. -/
theorem createSubfolders_run_example :
    created_folders (createSubfolders demo_env "./a/b/c.txt" 12 {}).2.trace = ["./a", "./a/b"] ∧
    (createSubfolders demo_env "./a/b/c.txt" 12 {}).1 = some true := by
  decide

/-- The two chunks `sendFile` makes of the file 10, 20, 30 under the name
"a" with a segment of 5 bytes, received into the folder "out": the folder is
made, the file "out/a" is opened, receives 10, 20 and then 30, and is closed. -/
theorem receiveFiles_run_example :
    receiveFiles (download_env [[1, 97, 0, 10, 20], [2, 30]]) caller_conn "out/"
        (List.replicate 5 0) 3 {} =
      .returned true (receiveFiles (download_env [[1, 97, 0, 10, 20], [2, 30]]) caller_conn
        "out/" (List.replicate 5 0) 3 {}).world ∧
    file_events (receiveFiles (download_env [[1, 97, 0, 10, 20], [2, 30]]) caller_conn "out/"
        (List.replicate 5 0) 3 {}).world.trace =
      [.call (.create_directory "out") 0, .call (.ofstream_open "out/a") 0,
        .ofile_write [10, 20], .ofile_write [30], .ofile_close] := by
  decide

end srtdatacontroller
